import Mathlib

set_option maxRecDepth 100000
set_option maxHeartbeats 1000000

/-!
Verification of the golden filter-chain model in
src/amba_aes_filter_3.srcs/sources_1/new/amba_test_script.py.

Shallow embedding conventions:
* Python (unbounded) ints are `Int`.
* Python's arithmetic right shift on ints (`>>`) is floor division by a
  power of two, embedded as `asr` below (`Int.fdiv`).
* Python's `x & 0xFFF` on a (possibly negative) int equals the Euclidean
  remainder `Int.emod x 4096`.
* Each stage class `_CTLE`, `_DCOffset`, ... becomes a structure holding the
  same registers (leading underscores dropped from the class names); the
  mutating `clock` method becomes a function from the old state to the new
  state, whose return value (Python returns the freshly assigned
  `self.dout`) is the `dout` field of the new state.
-/

def FILTER_DW : Nat := 12

def GOLDEN_CYCLES : Nat := 30

/-- `_sc(val, bits=FILTER_DW)`: sign-clip to a signed `bits`-bit integer,
`max(lo, min(hi, val))` with `lo = -(1 << (bits-1))`, `hi = (1 << (bits-1)) - 1`. -/
def sc (v : Int) (bits : Nat := FILTER_DW) : Int :=
  max (-(2 ^ (bits - 1))) (min ((2 ^ (bits - 1)) - 1) v)

/-- `_vdiv(num, den)`: truncate-toward-zero division matching Verilog signed
division; `den == 0` yields `0`, otherwise `sign * (abs(num) // abs(den))`. -/
def vdiv (num den : Int) : Int :=
  if den = 0 then 0
  else (if (num < 0) ≠ (den < 0) then -1 else 1) * ((num.natAbs / den.natAbs : Nat) : Int)

/-- Python's arithmetic right shift `a >> k` on ints: floor division by `2^k`. -/
def asr (a : Int) (k : Nat) : Int := Int.fdiv a (2 ^ k)

/-- `_CTLE`: registers `prev`, `diff`, `boosted`, `dout`, all 0 at init. -/
structure CTLE where
  prev : Int
  diff : Int
  boosted : Int
  dout : Int
deriving DecidableEq

def CTLE.init : CTLE := ⟨0, 0, 0, 0⟩

/-- `_CTLE.clock`: `nd = din - prev`; `nb = din + (diff >> 2)`;
`nd2 = _sc(boosted)`; registers update to `(prev, diff, boosted, dout) :=
(din, nd, nb, nd2)`; returns the new `dout`. -/
def CTLE.clock (s : CTLE) (din0 : Int) : CTLE :=
  let din := sc din0
  let nd := din - s.prev
  let nb := din + asr s.diff 2
  let nd2 := sc s.boosted
  { prev := din, diff := nd, boosted := nb, dout := nd2 }

/-- `_DCOffset`: registers `avg`, `dout`. -/
structure DCOffset where
  avg : Int
  dout : Int
deriving DecidableEq

def DCOffset.init : DCOffset := ⟨0, 0⟩

/-- `_DCOffset.clock`: `nd = _sc(din - avg)`;
`avg := avg + ((din - avg) >> 4)`; `dout := nd`. -/
def DCOffset.clock (s : DCOffset) (din0 : Int) : DCOffset :=
  let din := sc din0
  let nd := sc (din - s.avg)
  { avg := s.avg + asr (din - s.avg) 4, dout := nd }

/-- `_FIREq`: 7-entry shift register `sr` and `dout`. -/
structure FIREq where
  sr : List Int
  dout : Int
deriving DecidableEq

/-- `_FIREq._C = [-32, -64, 128, 256, 128, -64, -32]`. -/
def FIREq.C : List Int := [-32, -64, 128, 256, 128, -64, -32]

def FIREq.init : FIREq := ⟨List.replicate 7 0, 0⟩

/-- `_FIREq.clock`: `acc = sum(sr[i] * C[i])`; `nd = _sc(acc >> 8)`;
`sr := [din] + sr[:-1]`; `dout := nd`. -/
def FIREq.clock (s : FIREq) (din0 : Int) : FIREq :=
  let din := sc din0
  let acc := (List.zipWith (· * ·) s.sr FIREq.C).sum
  let nd := sc (asr acc 8)
  { sr := din :: s.sr.dropLast, dout := nd }

/-- `_DFE`: registers `prev_dec`, `fb`, `dout`. -/
structure DFE where
  prev_dec : Int
  fb : Int
  dout : Int
deriving DecidableEq

def DFE.init : DFE := ⟨0, 0, 0⟩

/-- `_DFE.clock`: `nd = _sc(din - fb)`; `new_fb = prev_dec * 64`;
`new_dec = 1 if dout >= 0 else -1` (on the old `dout`); registers update to
`(prev_dec, fb, dout) := (new_dec, new_fb, nd)`. -/
def DFE.clock (s : DFE) (din0 : Int) : DFE :=
  let din := sc din0
  let nd := sc (din - s.fb)
  let new_fb := s.prev_dec * 64
  let new_dec : Int := if s.dout ≥ 0 then 1 else -1
  { prev_dec := new_dec, fb := new_fb, dout := nd }

/-- `_Glitch`: registers `s1`, `s2`, `dout`. -/
structure Glitch where
  s1 : Int
  s2 : Int
  dout : Int
deriving DecidableEq

def Glitch.init : Glitch := ⟨0, 0, 0⟩

/-- `_Glitch.clock`: `median = sorted([din, s1, s2])[1]`;
`nd = median if abs(din - s1) > 512 else din`; `s1, s2 := din, s1`. -/
def Glitch.clock (s : Glitch) (din0 : Int) : Glitch :=
  let din := sc din0
  let median := (List.insertionSort (· ≤ ·) [din, s.s1, s.s2]).getD 1 0
  let nd := if (din - s.s1).natAbs > 512 then median else din
  { s1 := din, s2 := s.s1, dout := nd }

/-- `_LPF`: 5-entry shift register `x` plus pipeline registers
`acc`, `acc_d`, `pipe`, `dout`. -/
structure LPF where
  x : List Int
  acc : Int
  acc_d : Int
  pipe : Int
  dout : Int
deriving DecidableEq

def LPF.init : LPF := ⟨List.replicate 5 0, 0, 0, 0, 0⟩

/-- `_LPF.clock`: `new_acc = x[0] + (x[1]<<1) + x[2]*3 + (x[3]<<1) + x[4]`;
`new_ad = _vdiv(acc, 9)`; `new_p = _sc(acc_d)`; `nd = _sc(pipe)`;
`x := [din] + x[:4]`; registers shift down the 3-stage pipeline. -/
def LPF.clock (s : LPF) (din0 : Int) : LPF :=
  let din := sc din0
  let ox := s.x
  let new_acc := ox.getD 0 0 + (ox.getD 1 0 * 2) + ox.getD 2 0 * 3 + (ox.getD 3 0 * 2) + ox.getD 4 0
  let new_ad := vdiv s.acc 9
  let new_p := sc s.acc_d
  let nd := sc s.pipe
  { x := din :: ox.take 4, acc := new_acc, acc_d := new_ad, pipe := new_p, dout := nd }

/-- `FilterChainModel`: one instance of each stage plus the 2-entry
`fec_pipe` list (embedded as a pair, `fec_pipe = [0, 0]` at init). -/
structure FilterChainModel where
  ctle : CTLE
  dc : DCOffset
  fir : FIREq
  dfe : DFE
  gl : Glitch
  lpf : LPF
  fec_pipe : Int × Int
deriving DecidableEq

def FilterChainModel.init : FilterChainModel :=
  ⟨CTLE.init, DCOffset.init, FIREq.init, DFE.init, Glitch.init, LPF.init, (0, 0)⟩

/-- `FilterChainModel.clock`: chain the six stage clocks, then
`y_fec = fec_pipe[0]`; `fec_pipe := [y, fec_pipe[0]]`; return `y_fec`.
The second component is the returned value. -/
def FilterChainModel.clock (m : FilterChainModel) (din : Int) : FilterChainModel × Int :=
  let ctle := m.ctle.clock din
  let dc := m.dc.clock ctle.dout
  let fir := m.fir.clock dc.dout
  let dfe := m.dfe.clock fir.dout
  let gl := m.gl.clock dfe.dout
  let lpf := m.lpf.clock gl.dout
  let y_fec := m.fec_pipe.1
  (⟨ctle, dc, fir, dfe, gl, lpf, (lpf.dout, m.fec_pipe.1)⟩, y_fec)

/-- The loop body of `run_sample`: after `n` iterations of
`out = self.clock(sample)` the pair holds the current state and the last
`out` (`out = 0` before the loop). -/
def FilterChainModel.runClocks (m : FilterChainModel) (s : Int) : Nat → FilterChainModel × Int
  | 0 => (m, 0)
  | n + 1 => ((FilterChainModel.runClocks m s n).1.clock s)

/-- `FilterChainModel.run_sample`: clock `GOLDEN_CYCLES` times with the same
sample and return `out & 0xFFF` (the updated model is the first component). -/
def FilterChainModel.runSample (m : FilterChainModel) (s : Int) : FilterChainModel × Int :=
  let p := m.runClocks s GOLDEN_CYCLES
  (p.1, Int.emod p.2 4096)

/-- State-only view of one clock tick. -/
def clockS (s : Int) (m : FilterChainModel) : FilterChainModel := (m.clock s).1

/-- State after `n` clock ticks with constant input `s`, from a fresh model. -/
def stConst (s : Int) (n : Nat) : FilterChainModel := (clockS s)^[n] FilterChainModel.init

/-- Value returned by the `(n+1)`-st clock call (tick index `n`, 0-based)
with constant input `s`, from a fresh model. -/
def outConst (s : Int) (n : Nat) : Int := ((stConst s n).clock s).2

/-- The list of values returned by successive clock calls fed the given
input list. -/
def FilterChainModel.outputs (m : FilterChainModel) : List Int → List Int
  | [] => []
  | d :: ds => (m.clock d).2 :: (m.clock d).1.outputs ds

/-- DFE state after `n` clock calls with constant input 0, from a fresh DFE. -/
def dfeIter (n : Nat) : DFE := (fun d => d.clock 0)^[n] DFE.init

/-- Model/value pair after `n` successive `run_sample(0x100)` calls on one
instance (the value component is 0 before the first call). -/
def rsIter : Nat → FilterChainModel × Int
  | 0 => (FilterChainModel.init, 0)
  | n + 1 => (rsIter n).1.runSample 256

/-- Fresh FIR equalizer clocked once with `v` and then four times with 0;
the claim C6 inspects the 4th further call. -/
def firAfter (v : Int) : FIREq :=
  ((((FIREq.init.clock v).clock 0).clock 0).clock 0).clock 0

/-- The signed 12-bit range every stage clips to. -/
def InRange12 (v : Int) : Prop := -2048 ≤ v ∧ v ≤ 2047

/-! ### Helper lemmas -/

theorem sc_eq_self {v : Int} (h1 : -2048 ≤ v) (h2 : v ≤ 2047) : sc v = v := by
  have e1 : (-((2:Int) ^ (FILTER_DW - 1))) = -2048 := by norm_num [FILTER_DW]
  have e2 : ((2:Int) ^ (FILTER_DW - 1) - 1) = 2047 := by norm_num [FILTER_DW]
  unfold sc
  rw [e1, e2, min_eq_right h2, max_eq_right h1]

theorem sc_range (v : Int) : InRange12 (sc v) := by
  have e1 : (-((2:Int) ^ (FILTER_DW - 1))) = -2048 := by norm_num [FILTER_DW]
  have e2 : ((2:Int) ^ (FILTER_DW - 1) - 1) = 2047 := by norm_num [FILTER_DW]
  unfold sc InRange12
  rw [e1, e2]
  constructor
  · exact le_max_left _ _
  · exact max_le (by norm_num) (le_trans (min_le_left _ _) (by norm_num))

theorem clock_snd (m : FilterChainModel) (d : Int) : (m.clock d).2 = m.fec_pipe.1 := rfl

theorem clock_fec (m : FilterChainModel) (d : Int) :
    (m.clock d).1.fec_pipe = (sc m.lpf.pipe, m.fec_pipe.1) := rfl

/-- The loop of `run_sample` after `n+1` iterations is one `clock` applied to
the `n`-fold state iterate. -/
theorem runClocks_eq_iterate (m : FilterChainModel) (s : Int) :
    ∀ n, m.runClocks s (n + 1) = ((clockS s)^[n] m).clock s := by
  intro n
  induction n with
  | zero => rfl
  | succ k ih =>
    show (m.runClocks s (k + 1)).1.clock s = _
    rw [ih, Function.iterate_succ_apply']
    rfl

theorem stConst_add (s : Int) (a b : Nat) :
    stConst s (a + b) = (clockS s)^[a] (stConst s b) := by
  unfold stConst
  rw [Function.iterate_add_apply]


theorem stConst_succ (s : Int) (n : Nat) :
    stConst s (n + 1) = clockS s (stConst s n) :=
  Function.iterate_succ_apply' (clockS s) n FilterChainModel.init

theorem runClocks_fst (m : FilterChainModel) (s : Int) :
    ∀ n, (m.runClocks s n).1 = (clockS s)^[n] m := by
  intro n
  induction n with
  | zero => rfl
  | succ k ih =>
    show ((m.runClocks s k).1.clock s).1 = _
    rw [ih, Function.iterate_succ_apply']
    rfl

/-- The model updated by `run_sample` is the 30-fold clock iterate. -/
theorem runSample_fst (m : FilterChainModel) (s : Int) :
    (m.runSample s).1 = (clockS s)^[30] m :=
  runClocks_fst m s 30

/-- The value returned by `run_sample` is the 30th clock call's output,
masked; that output is the `fec_pipe` head of the 29-fold iterate. -/
theorem runSample_snd (m : FilterChainModel) (s : Int) :
    (m.runSample s).2 = Int.emod ((clockS s)^[29] m).fec_pipe.1 4096 := by
  show Int.emod (m.runClocks s 30).2 4096 = _
  rw [show (30 : Nat) = 29 + 1 from rfl, runClocks_eq_iterate m s 29, clock_snd]

/-! Concrete pipeline states, one clock step at a time. -/

theorem st0_s0 : stConst 0 0 = (⟨⟨0, 0, 0, 0⟩, ⟨0, 0⟩, ⟨[0, 0, 0, 0, 0, 0, 0], 0⟩, ⟨0, 0, 0⟩, ⟨0, 0, 0⟩, ⟨[0, 0, 0, 0, 0], 0, 0, 0, 0⟩, (0, 0)⟩ : FilterChainModel) := by decide

theorem st0_c1 : clockS 0 (⟨⟨0, 0, 0, 0⟩, ⟨0, 0⟩, ⟨[0, 0, 0, 0, 0, 0, 0], 0⟩, ⟨0, 0, 0⟩, ⟨0, 0, 0⟩, ⟨[0, 0, 0, 0, 0], 0, 0, 0, 0⟩, (0, 0)⟩ : FilterChainModel) = (⟨⟨0, 0, 0, 0⟩, ⟨0, 0⟩, ⟨[0, 0, 0, 0, 0, 0, 0], 0⟩, ⟨1, 0, 0⟩, ⟨0, 0, 0⟩, ⟨[0, 0, 0, 0, 0], 0, 0, 0, 0⟩, (0, 0)⟩ : FilterChainModel) := by decide

theorem st0_s1 : stConst 0 1 = (⟨⟨0, 0, 0, 0⟩, ⟨0, 0⟩, ⟨[0, 0, 0, 0, 0, 0, 0], 0⟩, ⟨1, 0, 0⟩, ⟨0, 0, 0⟩, ⟨[0, 0, 0, 0, 0], 0, 0, 0, 0⟩, (0, 0)⟩ : FilterChainModel) :=
  Eq.trans (stConst_succ 0 0) (Eq.trans (congrArg (clockS 0) st0_s0) st0_c1)

theorem st0_c2 : clockS 0 (⟨⟨0, 0, 0, 0⟩, ⟨0, 0⟩, ⟨[0, 0, 0, 0, 0, 0, 0], 0⟩, ⟨1, 0, 0⟩, ⟨0, 0, 0⟩, ⟨[0, 0, 0, 0, 0], 0, 0, 0, 0⟩, (0, 0)⟩ : FilterChainModel) = (⟨⟨0, 0, 0, 0⟩, ⟨0, 0⟩, ⟨[0, 0, 0, 0, 0, 0, 0], 0⟩, ⟨1, 64, 0⟩, ⟨0, 0, 0⟩, ⟨[0, 0, 0, 0, 0], 0, 0, 0, 0⟩, (0, 0)⟩ : FilterChainModel) := by decide

theorem st0_s2 : stConst 0 2 = (⟨⟨0, 0, 0, 0⟩, ⟨0, 0⟩, ⟨[0, 0, 0, 0, 0, 0, 0], 0⟩, ⟨1, 64, 0⟩, ⟨0, 0, 0⟩, ⟨[0, 0, 0, 0, 0], 0, 0, 0, 0⟩, (0, 0)⟩ : FilterChainModel) :=
  Eq.trans (stConst_succ 0 1) (Eq.trans (congrArg (clockS 0) st0_s1) st0_c2)

theorem st0_c3 : clockS 0 (⟨⟨0, 0, 0, 0⟩, ⟨0, 0⟩, ⟨[0, 0, 0, 0, 0, 0, 0], 0⟩, ⟨1, 64, 0⟩, ⟨0, 0, 0⟩, ⟨[0, 0, 0, 0, 0], 0, 0, 0, 0⟩, (0, 0)⟩ : FilterChainModel) = (⟨⟨0, 0, 0, 0⟩, ⟨0, 0⟩, ⟨[0, 0, 0, 0, 0, 0, 0], 0⟩, ⟨1, 64, (-64)⟩, ⟨(-64), 0, (-64)⟩, ⟨[(-64), 0, 0, 0, 0], 0, 0, 0, 0⟩, (0, 0)⟩ : FilterChainModel) := by decide

theorem st0_s3 : stConst 0 3 = (⟨⟨0, 0, 0, 0⟩, ⟨0, 0⟩, ⟨[0, 0, 0, 0, 0, 0, 0], 0⟩, ⟨1, 64, (-64)⟩, ⟨(-64), 0, (-64)⟩, ⟨[(-64), 0, 0, 0, 0], 0, 0, 0, 0⟩, (0, 0)⟩ : FilterChainModel) :=
  Eq.trans (stConst_succ 0 2) (Eq.trans (congrArg (clockS 0) st0_s2) st0_c3)

theorem st0_c4 : clockS 0 (⟨⟨0, 0, 0, 0⟩, ⟨0, 0⟩, ⟨[0, 0, 0, 0, 0, 0, 0], 0⟩, ⟨1, 64, (-64)⟩, ⟨(-64), 0, (-64)⟩, ⟨[(-64), 0, 0, 0, 0], 0, 0, 0, 0⟩, (0, 0)⟩ : FilterChainModel) = (⟨⟨0, 0, 0, 0⟩, ⟨0, 0⟩, ⟨[0, 0, 0, 0, 0, 0, 0], 0⟩, ⟨(-1), 64, (-64)⟩, ⟨(-64), (-64), (-64)⟩, ⟨[(-64), (-64), 0, 0, 0], (-64), 0, 0, 0⟩, (0, 0)⟩ : FilterChainModel) := by decide

theorem st0_s4 : stConst 0 4 = (⟨⟨0, 0, 0, 0⟩, ⟨0, 0⟩, ⟨[0, 0, 0, 0, 0, 0, 0], 0⟩, ⟨(-1), 64, (-64)⟩, ⟨(-64), (-64), (-64)⟩, ⟨[(-64), (-64), 0, 0, 0], (-64), 0, 0, 0⟩, (0, 0)⟩ : FilterChainModel) :=
  Eq.trans (stConst_succ 0 3) (Eq.trans (congrArg (clockS 0) st0_s3) st0_c4)

theorem st0_c5 : clockS 0 (⟨⟨0, 0, 0, 0⟩, ⟨0, 0⟩, ⟨[0, 0, 0, 0, 0, 0, 0], 0⟩, ⟨(-1), 64, (-64)⟩, ⟨(-64), (-64), (-64)⟩, ⟨[(-64), (-64), 0, 0, 0], (-64), 0, 0, 0⟩, (0, 0)⟩ : FilterChainModel) = (⟨⟨0, 0, 0, 0⟩, ⟨0, 0⟩, ⟨[0, 0, 0, 0, 0, 0, 0], 0⟩, ⟨(-1), (-64), (-64)⟩, ⟨(-64), (-64), (-64)⟩, ⟨[(-64), (-64), (-64), 0, 0], (-192), (-7), 0, 0⟩, (0, 0)⟩ : FilterChainModel) := by decide

theorem st0_s5 : stConst 0 5 = (⟨⟨0, 0, 0, 0⟩, ⟨0, 0⟩, ⟨[0, 0, 0, 0, 0, 0, 0], 0⟩, ⟨(-1), (-64), (-64)⟩, ⟨(-64), (-64), (-64)⟩, ⟨[(-64), (-64), (-64), 0, 0], (-192), (-7), 0, 0⟩, (0, 0)⟩ : FilterChainModel) :=
  Eq.trans (stConst_succ 0 4) (Eq.trans (congrArg (clockS 0) st0_s4) st0_c5)

theorem st0_c6 : clockS 0 (⟨⟨0, 0, 0, 0⟩, ⟨0, 0⟩, ⟨[0, 0, 0, 0, 0, 0, 0], 0⟩, ⟨(-1), (-64), (-64)⟩, ⟨(-64), (-64), (-64)⟩, ⟨[(-64), (-64), (-64), 0, 0], (-192), (-7), 0, 0⟩, (0, 0)⟩ : FilterChainModel) = (⟨⟨0, 0, 0, 0⟩, ⟨0, 0⟩, ⟨[0, 0, 0, 0, 0, 0, 0], 0⟩, ⟨(-1), (-64), 64⟩, ⟨64, (-64), 64⟩, ⟨[64, (-64), (-64), (-64), 0], (-384), (-21), (-7), 0⟩, (0, 0)⟩ : FilterChainModel) := by decide

theorem st0_s6 : stConst 0 6 = (⟨⟨0, 0, 0, 0⟩, ⟨0, 0⟩, ⟨[0, 0, 0, 0, 0, 0, 0], 0⟩, ⟨(-1), (-64), 64⟩, ⟨64, (-64), 64⟩, ⟨[64, (-64), (-64), (-64), 0], (-384), (-21), (-7), 0⟩, (0, 0)⟩ : FilterChainModel) :=
  Eq.trans (stConst_succ 0 5) (Eq.trans (congrArg (clockS 0) st0_s5) st0_c6)

theorem st0_c7 : clockS 0 (⟨⟨0, 0, 0, 0⟩, ⟨0, 0⟩, ⟨[0, 0, 0, 0, 0, 0, 0], 0⟩, ⟨(-1), (-64), 64⟩, ⟨64, (-64), 64⟩, ⟨[64, (-64), (-64), (-64), 0], (-384), (-21), (-7), 0⟩, (0, 0)⟩ : FilterChainModel) = (⟨⟨0, 0, 0, 0⟩, ⟨0, 0⟩, ⟨[0, 0, 0, 0, 0, 0, 0], 0⟩, ⟨1, (-64), 64⟩, ⟨64, 64, 64⟩, ⟨[64, 64, (-64), (-64), (-64)], (-384), (-42), (-21), (-7)⟩, ((-7), 0)⟩ : FilterChainModel) := by decide

theorem st0_s7 : stConst 0 7 = (⟨⟨0, 0, 0, 0⟩, ⟨0, 0⟩, ⟨[0, 0, 0, 0, 0, 0, 0], 0⟩, ⟨1, (-64), 64⟩, ⟨64, 64, 64⟩, ⟨[64, 64, (-64), (-64), (-64)], (-384), (-42), (-21), (-7)⟩, ((-7), 0)⟩ : FilterChainModel) :=
  Eq.trans (stConst_succ 0 6) (Eq.trans (congrArg (clockS 0) st0_s6) st0_c7)

theorem st0_c8 : clockS 0 (⟨⟨0, 0, 0, 0⟩, ⟨0, 0⟩, ⟨[0, 0, 0, 0, 0, 0, 0], 0⟩, ⟨1, (-64), 64⟩, ⟨64, 64, 64⟩, ⟨[64, 64, (-64), (-64), (-64)], (-384), (-42), (-21), (-7)⟩, ((-7), 0)⟩ : FilterChainModel) = (⟨⟨0, 0, 0, 0⟩, ⟨0, 0⟩, ⟨[0, 0, 0, 0, 0, 0, 0], 0⟩, ⟨1, 64, 64⟩, ⟨64, 64, 64⟩, ⟨[64, 64, 64, (-64), (-64)], (-192), (-42), (-42), (-21)⟩, ((-21), (-7))⟩ : FilterChainModel) := by decide

theorem st0_s8 : stConst 0 8 = (⟨⟨0, 0, 0, 0⟩, ⟨0, 0⟩, ⟨[0, 0, 0, 0, 0, 0, 0], 0⟩, ⟨1, 64, 64⟩, ⟨64, 64, 64⟩, ⟨[64, 64, 64, (-64), (-64)], (-192), (-42), (-42), (-21)⟩, ((-21), (-7))⟩ : FilterChainModel) :=
  Eq.trans (stConst_succ 0 7) (Eq.trans (congrArg (clockS 0) st0_s7) st0_c8)

theorem st0_c9 : clockS 0 (⟨⟨0, 0, 0, 0⟩, ⟨0, 0⟩, ⟨[0, 0, 0, 0, 0, 0, 0], 0⟩, ⟨1, 64, 64⟩, ⟨64, 64, 64⟩, ⟨[64, 64, 64, (-64), (-64)], (-192), (-42), (-42), (-21)⟩, ((-21), (-7))⟩ : FilterChainModel) = (⟨⟨0, 0, 0, 0⟩, ⟨0, 0⟩, ⟨[0, 0, 0, 0, 0, 0, 0], 0⟩, ⟨1, 64, (-64)⟩, ⟨(-64), 64, (-64)⟩, ⟨[(-64), 64, 64, 64, (-64)], 192, (-21), (-42), (-42)⟩, ((-42), (-21))⟩ : FilterChainModel) := by decide

theorem st0_s9 : stConst 0 9 = (⟨⟨0, 0, 0, 0⟩, ⟨0, 0⟩, ⟨[0, 0, 0, 0, 0, 0, 0], 0⟩, ⟨1, 64, (-64)⟩, ⟨(-64), 64, (-64)⟩, ⟨[(-64), 64, 64, 64, (-64)], 192, (-21), (-42), (-42)⟩, ((-42), (-21))⟩ : FilterChainModel) :=
  Eq.trans (stConst_succ 0 8) (Eq.trans (congrArg (clockS 0) st0_s8) st0_c9)

theorem st0_c10 : clockS 0 (⟨⟨0, 0, 0, 0⟩, ⟨0, 0⟩, ⟨[0, 0, 0, 0, 0, 0, 0], 0⟩, ⟨1, 64, (-64)⟩, ⟨(-64), 64, (-64)⟩, ⟨[(-64), 64, 64, 64, (-64)], 192, (-21), (-42), (-42)⟩, ((-42), (-21))⟩ : FilterChainModel) = (⟨⟨0, 0, 0, 0⟩, ⟨0, 0⟩, ⟨[0, 0, 0, 0, 0, 0, 0], 0⟩, ⟨(-1), 64, (-64)⟩, ⟨(-64), (-64), (-64)⟩, ⟨[(-64), (-64), 64, 64, 64], 320, 21, (-21), (-42)⟩, ((-42), (-42))⟩ : FilterChainModel) := by decide

theorem st0_s10 : stConst 0 10 = (⟨⟨0, 0, 0, 0⟩, ⟨0, 0⟩, ⟨[0, 0, 0, 0, 0, 0, 0], 0⟩, ⟨(-1), 64, (-64)⟩, ⟨(-64), (-64), (-64)⟩, ⟨[(-64), (-64), 64, 64, 64], 320, 21, (-21), (-42)⟩, ((-42), (-42))⟩ : FilterChainModel) :=
  Eq.trans (stConst_succ 0 9) (Eq.trans (congrArg (clockS 0) st0_s9) st0_c10)

theorem st0_c11 : clockS 0 (⟨⟨0, 0, 0, 0⟩, ⟨0, 0⟩, ⟨[0, 0, 0, 0, 0, 0, 0], 0⟩, ⟨(-1), 64, (-64)⟩, ⟨(-64), (-64), (-64)⟩, ⟨[(-64), (-64), 64, 64, 64], 320, 21, (-21), (-42)⟩, ((-42), (-42))⟩ : FilterChainModel) = (⟨⟨0, 0, 0, 0⟩, ⟨0, 0⟩, ⟨[0, 0, 0, 0, 0, 0, 0], 0⟩, ⟨(-1), (-64), (-64)⟩, ⟨(-64), (-64), (-64)⟩, ⟨[(-64), (-64), (-64), 64, 64], 192, 35, 21, (-21)⟩, ((-21), (-42))⟩ : FilterChainModel) := by decide

theorem st0_s11 : stConst 0 11 = (⟨⟨0, 0, 0, 0⟩, ⟨0, 0⟩, ⟨[0, 0, 0, 0, 0, 0, 0], 0⟩, ⟨(-1), (-64), (-64)⟩, ⟨(-64), (-64), (-64)⟩, ⟨[(-64), (-64), (-64), 64, 64], 192, 35, 21, (-21)⟩, ((-21), (-42))⟩ : FilterChainModel) :=
  Eq.trans (stConst_succ 0 10) (Eq.trans (congrArg (clockS 0) st0_s10) st0_c11)

theorem st0_c12 : clockS 0 (⟨⟨0, 0, 0, 0⟩, ⟨0, 0⟩, ⟨[0, 0, 0, 0, 0, 0, 0], 0⟩, ⟨(-1), (-64), (-64)⟩, ⟨(-64), (-64), (-64)⟩, ⟨[(-64), (-64), (-64), 64, 64], 192, 35, 21, (-21)⟩, ((-21), (-42))⟩ : FilterChainModel) = (⟨⟨0, 0, 0, 0⟩, ⟨0, 0⟩, ⟨[0, 0, 0, 0, 0, 0, 0], 0⟩, ⟨(-1), (-64), 64⟩, ⟨64, (-64), 64⟩, ⟨[64, (-64), (-64), (-64), 64], (-192), 21, 35, 21⟩, (21, (-21))⟩ : FilterChainModel) := by decide

theorem st0_s12 : stConst 0 12 = (⟨⟨0, 0, 0, 0⟩, ⟨0, 0⟩, ⟨[0, 0, 0, 0, 0, 0, 0], 0⟩, ⟨(-1), (-64), 64⟩, ⟨64, (-64), 64⟩, ⟨[64, (-64), (-64), (-64), 64], (-192), 21, 35, 21⟩, (21, (-21))⟩ : FilterChainModel) :=
  Eq.trans (stConst_succ 0 11) (Eq.trans (congrArg (clockS 0) st0_s11) st0_c12)

theorem st0_c13 : clockS 0 (⟨⟨0, 0, 0, 0⟩, ⟨0, 0⟩, ⟨[0, 0, 0, 0, 0, 0, 0], 0⟩, ⟨(-1), (-64), 64⟩, ⟨64, (-64), 64⟩, ⟨[64, (-64), (-64), (-64), 64], (-192), 21, 35, 21⟩, (21, (-21))⟩ : FilterChainModel) = (⟨⟨0, 0, 0, 0⟩, ⟨0, 0⟩, ⟨[0, 0, 0, 0, 0, 0, 0], 0⟩, ⟨1, (-64), 64⟩, ⟨64, 64, 64⟩, ⟨[64, 64, (-64), (-64), (-64)], (-320), (-21), 21, 35⟩, (35, 21)⟩ : FilterChainModel) := by decide

theorem st0_s13 : stConst 0 13 = (⟨⟨0, 0, 0, 0⟩, ⟨0, 0⟩, ⟨[0, 0, 0, 0, 0, 0, 0], 0⟩, ⟨1, (-64), 64⟩, ⟨64, 64, 64⟩, ⟨[64, 64, (-64), (-64), (-64)], (-320), (-21), 21, 35⟩, (35, 21)⟩ : FilterChainModel) :=
  Eq.trans (stConst_succ 0 12) (Eq.trans (congrArg (clockS 0) st0_s12) st0_c13)

theorem st0_c14 : clockS 0 (⟨⟨0, 0, 0, 0⟩, ⟨0, 0⟩, ⟨[0, 0, 0, 0, 0, 0, 0], 0⟩, ⟨1, (-64), 64⟩, ⟨64, 64, 64⟩, ⟨[64, 64, (-64), (-64), (-64)], (-320), (-21), 21, 35⟩, (35, 21)⟩ : FilterChainModel) = (⟨⟨0, 0, 0, 0⟩, ⟨0, 0⟩, ⟨[0, 0, 0, 0, 0, 0, 0], 0⟩, ⟨1, 64, 64⟩, ⟨64, 64, 64⟩, ⟨[64, 64, 64, (-64), (-64)], (-192), (-35), (-21), 21⟩, (21, 35)⟩ : FilterChainModel) := by decide

theorem st0_s14 : stConst 0 14 = (⟨⟨0, 0, 0, 0⟩, ⟨0, 0⟩, ⟨[0, 0, 0, 0, 0, 0, 0], 0⟩, ⟨1, 64, 64⟩, ⟨64, 64, 64⟩, ⟨[64, 64, 64, (-64), (-64)], (-192), (-35), (-21), 21⟩, (21, 35)⟩ : FilterChainModel) :=
  Eq.trans (stConst_succ 0 13) (Eq.trans (congrArg (clockS 0) st0_s13) st0_c14)

theorem st0_c15 : clockS 0 (⟨⟨0, 0, 0, 0⟩, ⟨0, 0⟩, ⟨[0, 0, 0, 0, 0, 0, 0], 0⟩, ⟨1, 64, 64⟩, ⟨64, 64, 64⟩, ⟨[64, 64, 64, (-64), (-64)], (-192), (-35), (-21), 21⟩, (21, 35)⟩ : FilterChainModel) = (⟨⟨0, 0, 0, 0⟩, ⟨0, 0⟩, ⟨[0, 0, 0, 0, 0, 0, 0], 0⟩, ⟨1, 64, (-64)⟩, ⟨(-64), 64, (-64)⟩, ⟨[(-64), 64, 64, 64, (-64)], 192, (-21), (-35), (-21)⟩, ((-21), 21)⟩ : FilterChainModel) := by decide

theorem st0_s15 : stConst 0 15 = (⟨⟨0, 0, 0, 0⟩, ⟨0, 0⟩, ⟨[0, 0, 0, 0, 0, 0, 0], 0⟩, ⟨1, 64, (-64)⟩, ⟨(-64), 64, (-64)⟩, ⟨[(-64), 64, 64, 64, (-64)], 192, (-21), (-35), (-21)⟩, ((-21), 21)⟩ : FilterChainModel) :=
  Eq.trans (stConst_succ 0 14) (Eq.trans (congrArg (clockS 0) st0_s14) st0_c15)

theorem st0_c16 : clockS 0 (⟨⟨0, 0, 0, 0⟩, ⟨0, 0⟩, ⟨[0, 0, 0, 0, 0, 0, 0], 0⟩, ⟨1, 64, (-64)⟩, ⟨(-64), 64, (-64)⟩, ⟨[(-64), 64, 64, 64, (-64)], 192, (-21), (-35), (-21)⟩, ((-21), 21)⟩ : FilterChainModel) = (⟨⟨0, 0, 0, 0⟩, ⟨0, 0⟩, ⟨[0, 0, 0, 0, 0, 0, 0], 0⟩, ⟨(-1), 64, (-64)⟩, ⟨(-64), (-64), (-64)⟩, ⟨[(-64), (-64), 64, 64, 64], 320, 21, (-21), (-35)⟩, ((-35), (-21))⟩ : FilterChainModel) := by decide

theorem st0_s16 : stConst 0 16 = (⟨⟨0, 0, 0, 0⟩, ⟨0, 0⟩, ⟨[0, 0, 0, 0, 0, 0, 0], 0⟩, ⟨(-1), 64, (-64)⟩, ⟨(-64), (-64), (-64)⟩, ⟨[(-64), (-64), 64, 64, 64], 320, 21, (-21), (-35)⟩, ((-35), (-21))⟩ : FilterChainModel) :=
  Eq.trans (stConst_succ 0 15) (Eq.trans (congrArg (clockS 0) st0_s15) st0_c16)

theorem st0_c17 : clockS 0 (⟨⟨0, 0, 0, 0⟩, ⟨0, 0⟩, ⟨[0, 0, 0, 0, 0, 0, 0], 0⟩, ⟨(-1), 64, (-64)⟩, ⟨(-64), (-64), (-64)⟩, ⟨[(-64), (-64), 64, 64, 64], 320, 21, (-21), (-35)⟩, ((-35), (-21))⟩ : FilterChainModel) = (⟨⟨0, 0, 0, 0⟩, ⟨0, 0⟩, ⟨[0, 0, 0, 0, 0, 0, 0], 0⟩, ⟨(-1), (-64), (-64)⟩, ⟨(-64), (-64), (-64)⟩, ⟨[(-64), (-64), (-64), 64, 64], 192, 35, 21, (-21)⟩, ((-21), (-35))⟩ : FilterChainModel) := by decide

theorem st0_s17 : stConst 0 17 = (⟨⟨0, 0, 0, 0⟩, ⟨0, 0⟩, ⟨[0, 0, 0, 0, 0, 0, 0], 0⟩, ⟨(-1), (-64), (-64)⟩, ⟨(-64), (-64), (-64)⟩, ⟨[(-64), (-64), (-64), 64, 64], 192, 35, 21, (-21)⟩, ((-21), (-35))⟩ : FilterChainModel) :=
  Eq.trans (stConst_succ 0 16) (Eq.trans (congrArg (clockS 0) st0_s16) st0_c17)

theorem st0_c18 : clockS 0 (⟨⟨0, 0, 0, 0⟩, ⟨0, 0⟩, ⟨[0, 0, 0, 0, 0, 0, 0], 0⟩, ⟨(-1), (-64), (-64)⟩, ⟨(-64), (-64), (-64)⟩, ⟨[(-64), (-64), (-64), 64, 64], 192, 35, 21, (-21)⟩, ((-21), (-35))⟩ : FilterChainModel) = (⟨⟨0, 0, 0, 0⟩, ⟨0, 0⟩, ⟨[0, 0, 0, 0, 0, 0, 0], 0⟩, ⟨(-1), (-64), 64⟩, ⟨64, (-64), 64⟩, ⟨[64, (-64), (-64), (-64), 64], (-192), 21, 35, 21⟩, (21, (-21))⟩ : FilterChainModel) := by decide

theorem st0_s18 : stConst 0 18 = (⟨⟨0, 0, 0, 0⟩, ⟨0, 0⟩, ⟨[0, 0, 0, 0, 0, 0, 0], 0⟩, ⟨(-1), (-64), 64⟩, ⟨64, (-64), 64⟩, ⟨[64, (-64), (-64), (-64), 64], (-192), 21, 35, 21⟩, (21, (-21))⟩ : FilterChainModel) :=
  Eq.trans (stConst_succ 0 17) (Eq.trans (congrArg (clockS 0) st0_s17) st0_c18)

theorem st256_s0 : stConst 256 0 = (⟨⟨0, 0, 0, 0⟩, ⟨0, 0⟩, ⟨[0, 0, 0, 0, 0, 0, 0], 0⟩, ⟨0, 0, 0⟩, ⟨0, 0, 0⟩, ⟨[0, 0, 0, 0, 0], 0, 0, 0, 0⟩, (0, 0)⟩ : FilterChainModel) := by decide

theorem st256_c1 : clockS 256 (⟨⟨0, 0, 0, 0⟩, ⟨0, 0⟩, ⟨[0, 0, 0, 0, 0, 0, 0], 0⟩, ⟨0, 0, 0⟩, ⟨0, 0, 0⟩, ⟨[0, 0, 0, 0, 0], 0, 0, 0, 0⟩, (0, 0)⟩ : FilterChainModel) = (⟨⟨256, 256, 256, 0⟩, ⟨0, 0⟩, ⟨[0, 0, 0, 0, 0, 0, 0], 0⟩, ⟨1, 0, 0⟩, ⟨0, 0, 0⟩, ⟨[0, 0, 0, 0, 0], 0, 0, 0, 0⟩, (0, 0)⟩ : FilterChainModel) := by decide

theorem st256_s1 : stConst 256 1 = (⟨⟨256, 256, 256, 0⟩, ⟨0, 0⟩, ⟨[0, 0, 0, 0, 0, 0, 0], 0⟩, ⟨1, 0, 0⟩, ⟨0, 0, 0⟩, ⟨[0, 0, 0, 0, 0], 0, 0, 0, 0⟩, (0, 0)⟩ : FilterChainModel) :=
  Eq.trans (stConst_succ 256 0) (Eq.trans (congrArg (clockS 256) st256_s0) st256_c1)

theorem st256_c2 : clockS 256 (⟨⟨256, 256, 256, 0⟩, ⟨0, 0⟩, ⟨[0, 0, 0, 0, 0, 0, 0], 0⟩, ⟨1, 0, 0⟩, ⟨0, 0, 0⟩, ⟨[0, 0, 0, 0, 0], 0, 0, 0, 0⟩, (0, 0)⟩ : FilterChainModel) = (⟨⟨256, 0, 320, 256⟩, ⟨16, 256⟩, ⟨[256, 0, 0, 0, 0, 0, 0], 0⟩, ⟨1, 64, 0⟩, ⟨0, 0, 0⟩, ⟨[0, 0, 0, 0, 0], 0, 0, 0, 0⟩, (0, 0)⟩ : FilterChainModel) := by decide

theorem st256_s2 : stConst 256 2 = (⟨⟨256, 0, 320, 256⟩, ⟨16, 256⟩, ⟨[256, 0, 0, 0, 0, 0, 0], 0⟩, ⟨1, 64, 0⟩, ⟨0, 0, 0⟩, ⟨[0, 0, 0, 0, 0], 0, 0, 0, 0⟩, (0, 0)⟩ : FilterChainModel) :=
  Eq.trans (stConst_succ 256 1) (Eq.trans (congrArg (clockS 256) st256_s1) st256_c2)

theorem st256_c3 : clockS 256 (⟨⟨256, 0, 320, 256⟩, ⟨16, 256⟩, ⟨[256, 0, 0, 0, 0, 0, 0], 0⟩, ⟨1, 64, 0⟩, ⟨0, 0, 0⟩, ⟨[0, 0, 0, 0, 0], 0, 0, 0, 0⟩, (0, 0)⟩ : FilterChainModel) = (⟨⟨256, 0, 256, 320⟩, ⟨35, 304⟩, ⟨[304, 256, 0, 0, 0, 0, 0], (-32)⟩, ⟨1, 64, (-96)⟩, ⟨(-96), 0, (-96)⟩, ⟨[(-96), 0, 0, 0, 0], 0, 0, 0, 0⟩, (0, 0)⟩ : FilterChainModel) := by decide

theorem st256_s3 : stConst 256 3 = (⟨⟨256, 0, 256, 320⟩, ⟨35, 304⟩, ⟨[304, 256, 0, 0, 0, 0, 0], (-32)⟩, ⟨1, 64, (-96)⟩, ⟨(-96), 0, (-96)⟩, ⟨[(-96), 0, 0, 0, 0], 0, 0, 0, 0⟩, (0, 0)⟩ : FilterChainModel) :=
  Eq.trans (stConst_succ 256 2) (Eq.trans (congrArg (clockS 256) st256_s2) st256_c3)

theorem st256_c4 : clockS 256 (⟨⟨256, 0, 256, 320⟩, ⟨35, 304⟩, ⟨[304, 256, 0, 0, 0, 0, 0], (-32)⟩, ⟨1, 64, (-96)⟩, ⟨(-96), 0, (-96)⟩, ⟨[(-96), 0, 0, 0, 0], 0, 0, 0, 0⟩, (0, 0)⟩ : FilterChainModel) = (⟨⟨256, 0, 256, 256⟩, ⟨48, 221⟩, ⟨[221, 304, 256, 0, 0, 0, 0], (-102)⟩, ⟨(-1), 64, (-166)⟩, ⟨(-166), (-96), (-166)⟩, ⟨[(-166), (-96), 0, 0, 0], (-96), 0, 0, 0⟩, (0, 0)⟩ : FilterChainModel) := by decide

theorem st256_s4 : stConst 256 4 = (⟨⟨256, 0, 256, 256⟩, ⟨48, 221⟩, ⟨[221, 304, 256, 0, 0, 0, 0], (-102)⟩, ⟨(-1), 64, (-166)⟩, ⟨(-166), (-96), (-166)⟩, ⟨[(-166), (-96), 0, 0, 0], (-96), 0, 0, 0⟩, (0, 0)⟩ : FilterChainModel) :=
  Eq.trans (stConst_succ 256 3) (Eq.trans (congrArg (clockS 256) st256_s3) st256_c4)

theorem st256_c5 : clockS 256 (⟨⟨256, 0, 256, 256⟩, ⟨48, 221⟩, ⟨[221, 304, 256, 0, 0, 0, 0], (-102)⟩, ⟨(-1), 64, (-166)⟩, ⟨(-166), (-96), (-166)⟩, ⟨[(-166), (-96), 0, 0, 0], (-96), 0, 0, 0⟩, (0, 0)⟩ : FilterChainModel) = (⟨⟨256, 0, 256, 256⟩, ⟨61, 208⟩, ⟨[208, 221, 304, 256, 0, 0, 0], 24⟩, ⟨(-1), (-64), (-40)⟩, ⟨(-40), (-166), (-40)⟩, ⟨[(-40), (-166), (-96), 0, 0], (-358), (-10), 0, 0⟩, (0, 0)⟩ : FilterChainModel) := by decide

theorem st256_s5 : stConst 256 5 = (⟨⟨256, 0, 256, 256⟩, ⟨61, 208⟩, ⟨[208, 221, 304, 256, 0, 0, 0], 24⟩, ⟨(-1), (-64), (-40)⟩, ⟨(-40), (-166), (-40)⟩, ⟨[(-40), (-166), (-96), 0, 0], (-358), (-10), 0, 0⟩, (0, 0)⟩ : FilterChainModel) :=
  Eq.trans (stConst_succ 256 4) (Eq.trans (congrArg (clockS 256) st256_s4) st256_c5)

theorem st256_c6 : clockS 256 (⟨⟨256, 0, 256, 256⟩, ⟨61, 208⟩, ⟨[208, 221, 304, 256, 0, 0, 0], 24⟩, ⟨(-1), (-64), (-40)⟩, ⟨(-40), (-166), (-40)⟩, ⟨[(-40), (-166), (-96), 0, 0], (-358), (-10), 0, 0⟩, (0, 0)⟩ : FilterChainModel) = (⟨⟨256, 0, 256, 256⟩, ⟨73, 195⟩, ⟨[195, 208, 221, 304, 256, 0, 0], 326⟩, ⟨(-1), (-64), 390⟩, ⟨390, (-40), 390⟩, ⟨[390, (-40), (-166), (-96), 0], (-660), (-39), (-10), 0⟩, (0, 0)⟩ : FilterChainModel) := by decide

theorem st256_s6 : stConst 256 6 = (⟨⟨256, 0, 256, 256⟩, ⟨73, 195⟩, ⟨[195, 208, 221, 304, 256, 0, 0], 326⟩, ⟨(-1), (-64), 390⟩, ⟨390, (-40), 390⟩, ⟨[390, (-40), (-166), (-96), 0], (-660), (-39), (-10), 0⟩, (0, 0)⟩ : FilterChainModel) :=
  Eq.trans (stConst_succ 256 5) (Eq.trans (congrArg (clockS 256) st256_s5) st256_c6)

theorem st256_c7 : clockS 256 (⟨⟨256, 0, 256, 256⟩, ⟨73, 195⟩, ⟨[195, 208, 221, 304, 256, 0, 0], 326⟩, ⟨(-1), (-64), 390⟩, ⟨390, (-40), 390⟩, ⟨[390, (-40), (-166), (-96), 0], (-660), (-39), (-10), 0⟩, (0, 0)⟩ : FilterChainModel) = (⟨⟨256, 0, 256, 256⟩, ⟨84, 183⟩, ⟨[183, 195, 208, 221, 304, 256, 0], 466⟩, ⟨1, (-64), 530⟩, ⟨530, 390, 530⟩, ⟨[530, 390, (-40), (-166), (-96)], (-380), (-73), (-39), (-10)⟩, ((-10), 0)⟩ : FilterChainModel) := by decide

theorem st256_s7 : stConst 256 7 = (⟨⟨256, 0, 256, 256⟩, ⟨84, 183⟩, ⟨[183, 195, 208, 221, 304, 256, 0], 466⟩, ⟨1, (-64), 530⟩, ⟨530, 390, 530⟩, ⟨[530, 390, (-40), (-166), (-96)], (-380), (-73), (-39), (-10)⟩, ((-10), 0)⟩ : FilterChainModel) :=
  Eq.trans (stConst_succ 256 6) (Eq.trans (congrArg (clockS 256) st256_s6) st256_c7)

theorem st256_c8 : clockS 256 (⟨⟨256, 0, 256, 256⟩, ⟨84, 183⟩, ⟨[183, 195, 208, 221, 304, 256, 0], 466⟩, ⟨1, (-64), 530⟩, ⟨530, 390, 530⟩, ⟨[530, 390, (-40), (-166), (-96)], (-380), (-73), (-39), (-10)⟩, ((-10), 0)⟩ : FilterChainModel) = (⟨⟨256, 0, 256, 256⟩, ⟨94, 172⟩, ⟨[172, 183, 195, 208, 221, 304, 256], 341⟩, ⟨1, 64, 405⟩, ⟨405, 530, 405⟩, ⟨[405, 530, 390, (-40), (-166)], 762, (-42), (-73), (-39)⟩, ((-39), (-10))⟩ : FilterChainModel) := by decide

theorem st256_s8 : stConst 256 8 = (⟨⟨256, 0, 256, 256⟩, ⟨94, 172⟩, ⟨[172, 183, 195, 208, 221, 304, 256], 341⟩, ⟨1, 64, 405⟩, ⟨405, 530, 405⟩, ⟨[405, 530, 390, (-40), (-166)], 762, (-42), (-73), (-39)⟩, ((-39), (-10))⟩ : FilterChainModel) :=
  Eq.trans (stConst_succ 256 7) (Eq.trans (congrArg (clockS 256) st256_s7) st256_c8)

theorem st256_c9 : clockS 256 (⟨⟨256, 0, 256, 256⟩, ⟨94, 172⟩, ⟨[172, 183, 195, 208, 221, 304, 256], 341⟩, ⟨1, 64, 405⟩, ⟨405, 530, 405⟩, ⟨[405, 530, 390, (-40), (-166)], 762, (-42), (-73), (-39)⟩, ((-39), (-10))⟩ : FilterChainModel) = (⟨⟨256, 0, 256, 256⟩, ⟨104, 162⟩, ⟨[162, 172, 183, 195, 208, 221, 304], 240⟩, ⟨1, 64, 176⟩, ⟨176, 405, 176⟩, ⟨[176, 405, 530, 390, (-40)], 2389, 84, (-42), (-73)⟩, ((-73), (-39))⟩ : FilterChainModel) := by decide

theorem st256_s9 : stConst 256 9 = (⟨⟨256, 0, 256, 256⟩, ⟨104, 162⟩, ⟨[162, 172, 183, 195, 208, 221, 304], 240⟩, ⟨1, 64, 176⟩, ⟨176, 405, 176⟩, ⟨[176, 405, 530, 390, (-40)], 2389, 84, (-42), (-73)⟩, ((-73), (-39))⟩ : FilterChainModel) :=
  Eq.trans (stConst_succ 256 8) (Eq.trans (congrArg (clockS 256) st256_s8) st256_c9)

theorem st256_c10 : clockS 256 (⟨⟨256, 0, 256, 256⟩, ⟨104, 162⟩, ⟨[162, 172, 183, 195, 208, 221, 304], 240⟩, ⟨1, 64, 176⟩, ⟨176, 405, 176⟩, ⟨[176, 405, 530, 390, (-40)], 2389, 84, (-42), (-73)⟩, ((-73), (-39))⟩ : FilterChainModel) = (⟨⟨256, 0, 256, 256⟩, ⟨113, 152⟩, ⟨[152, 162, 172, 183, 195, 208, 221], 234⟩, ⟨1, 64, 170⟩, ⟨170, 176, 170⟩, ⟨[170, 176, 405, 530, 390], 3316, 265, 84, (-42)⟩, ((-42), (-73))⟩ : FilterChainModel) := by decide

theorem st256_s10 : stConst 256 10 = (⟨⟨256, 0, 256, 256⟩, ⟨113, 152⟩, ⟨[152, 162, 172, 183, 195, 208, 221], 234⟩, ⟨1, 64, 170⟩, ⟨170, 176, 170⟩, ⟨[170, 176, 405, 530, 390], 3316, 265, 84, (-42)⟩, ((-42), (-73))⟩ : FilterChainModel) :=
  Eq.trans (stConst_succ 256 9) (Eq.trans (congrArg (clockS 256) st256_s9) st256_c10)

theorem st256_c11 : clockS 256 (⟨⟨256, 0, 256, 256⟩, ⟨113, 152⟩, ⟨[152, 162, 172, 183, 195, 208, 221], 234⟩, ⟨1, 64, 170⟩, ⟨170, 176, 170⟩, ⟨[170, 176, 405, 530, 390], 3316, 265, 84, (-42)⟩, ((-42), (-73))⟩ : FilterChainModel) = (⟨⟨256, 0, 256, 256⟩, ⟨121, 143⟩, ⟨[143, 152, 162, 172, 183, 195, 208], 227⟩, ⟨1, 64, 163⟩, ⟨163, 170, 163⟩, ⟨[163, 170, 176, 405, 530], 3187, 368, 265, 84⟩, (84, (-42))⟩ : FilterChainModel) := by decide

theorem st256_s11 : stConst 256 11 = (⟨⟨256, 0, 256, 256⟩, ⟨121, 143⟩, ⟨[143, 152, 162, 172, 183, 195, 208], 227⟩, ⟨1, 64, 163⟩, ⟨163, 170, 163⟩, ⟨[163, 170, 176, 405, 530], 3187, 368, 265, 84⟩, (84, (-42))⟩ : FilterChainModel) :=
  Eq.trans (stConst_succ 256 10) (Eq.trans (congrArg (clockS 256) st256_s10) st256_c11)

theorem st256_c12 : clockS 256 (⟨⟨256, 0, 256, 256⟩, ⟨121, 143⟩, ⟨[143, 152, 162, 172, 183, 195, 208], 227⟩, ⟨1, 64, 163⟩, ⟨163, 170, 163⟩, ⟨[163, 170, 176, 405, 530], 3187, 368, 265, 84⟩, (84, (-42))⟩ : FilterChainModel) = (⟨⟨256, 0, 256, 256⟩, ⟨129, 135⟩, ⟨[135, 143, 152, 162, 172, 183, 195], 213⟩, ⟨1, 64, 149⟩, ⟨149, 163, 149⟩, ⟨[149, 163, 170, 176, 405], 2371, 354, 368, 265⟩, (265, 84)⟩ : FilterChainModel) := by decide

theorem st256_s12 : stConst 256 12 = (⟨⟨256, 0, 256, 256⟩, ⟨129, 135⟩, ⟨[135, 143, 152, 162, 172, 183, 195], 213⟩, ⟨1, 64, 149⟩, ⟨149, 163, 149⟩, ⟨[149, 163, 170, 176, 405], 2371, 354, 368, 265⟩, (265, 84)⟩ : FilterChainModel) :=
  Eq.trans (stConst_succ 256 11) (Eq.trans (congrArg (clockS 256) st256_s11) st256_c12)

theorem st256_c13 : clockS 256 (⟨⟨256, 0, 256, 256⟩, ⟨129, 135⟩, ⟨[135, 143, 152, 162, 172, 183, 195], 213⟩, ⟨1, 64, 149⟩, ⟨149, 163, 149⟩, ⟨[149, 163, 170, 176, 405], 2371, 354, 368, 265⟩, (265, 84)⟩ : FilterChainModel) = (⟨⟨256, 0, 256, 256⟩, ⟨136, 127⟩, ⟨[127, 135, 143, 152, 162, 172, 183], 201⟩, ⟨1, 64, 137⟩, ⟨137, 149, 137⟩, ⟨[137, 149, 163, 170, 176], 1742, 263, 354, 368⟩, (368, 265)⟩ : FilterChainModel) := by decide

theorem st256_s13 : stConst 256 13 = (⟨⟨256, 0, 256, 256⟩, ⟨136, 127⟩, ⟨[127, 135, 143, 152, 162, 172, 183], 201⟩, ⟨1, 64, 137⟩, ⟨137, 149, 137⟩, ⟨[137, 149, 163, 170, 176], 1742, 263, 354, 368⟩, (368, 265)⟩ : FilterChainModel) :=
  Eq.trans (stConst_succ 256 12) (Eq.trans (congrArg (clockS 256) st256_s12) st256_c13)

theorem st256_c14 : clockS 256 (⟨⟨256, 0, 256, 256⟩, ⟨136, 127⟩, ⟨[127, 135, 143, 152, 162, 172, 183], 201⟩, ⟨1, 64, 137⟩, ⟨137, 149, 137⟩, ⟨[137, 149, 163, 170, 176], 1742, 263, 354, 368⟩, (368, 265)⟩ : FilterChainModel) = (⟨⟨256, 0, 256, 256⟩, ⟨143, 120⟩, ⟨[120, 127, 135, 143, 152, 162, 172], 189⟩, ⟨1, 64, 125⟩, ⟨125, 137, 125⟩, ⟨[125, 137, 149, 163, 170], 1440, 193, 263, 354⟩, (354, 368)⟩ : FilterChainModel) := by decide

theorem st256_s14 : stConst 256 14 = (⟨⟨256, 0, 256, 256⟩, ⟨143, 120⟩, ⟨[120, 127, 135, 143, 152, 162, 172], 189⟩, ⟨1, 64, 125⟩, ⟨125, 137, 125⟩, ⟨[125, 137, 149, 163, 170], 1440, 193, 263, 354⟩, (354, 368)⟩ : FilterChainModel) :=
  Eq.trans (stConst_succ 256 13) (Eq.trans (congrArg (clockS 256) st256_s13) st256_c14)

theorem st256_c15 : clockS 256 (⟨⟨256, 0, 256, 256⟩, ⟨143, 120⟩, ⟨[120, 127, 135, 143, 152, 162, 172], 189⟩, ⟨1, 64, 125⟩, ⟨125, 137, 125⟩, ⟨[125, 137, 149, 163, 170], 1440, 193, 263, 354⟩, (354, 368)⟩ : FilterChainModel) = (⟨⟨256, 0, 256, 256⟩, ⟨150, 113⟩, ⟨[113, 120, 127, 135, 143, 152, 162], 177⟩, ⟨1, 64, 113⟩, ⟨113, 125, 113⟩, ⟨[113, 125, 137, 149, 163], 1342, 160, 193, 263⟩, (263, 354)⟩ : FilterChainModel) := by decide

theorem st256_s15 : stConst 256 15 = (⟨⟨256, 0, 256, 256⟩, ⟨150, 113⟩, ⟨[113, 120, 127, 135, 143, 152, 162], 177⟩, ⟨1, 64, 113⟩, ⟨113, 125, 113⟩, ⟨[113, 125, 137, 149, 163], 1342, 160, 193, 263⟩, (263, 354)⟩ : FilterChainModel) :=
  Eq.trans (stConst_succ 256 14) (Eq.trans (congrArg (clockS 256) st256_s14) st256_c15)

theorem st256_c16 : clockS 256 (⟨⟨256, 0, 256, 256⟩, ⟨150, 113⟩, ⟨[113, 120, 127, 135, 143, 152, 162], 177⟩, ⟨1, 64, 113⟩, ⟨113, 125, 113⟩, ⟨[113, 125, 137, 149, 163], 1342, 160, 193, 263⟩, (263, 354)⟩ : FilterChainModel) = (⟨⟨256, 0, 256, 256⟩, ⟨156, 106⟩, ⟨[106, 113, 120, 127, 135, 143, 152], 167⟩, ⟨1, 64, 103⟩, ⟨103, 113, 103⟩, ⟨[103, 113, 125, 137, 149], 1235, 149, 160, 193⟩, (193, 263)⟩ : FilterChainModel) := by decide

theorem st256_s16 : stConst 256 16 = (⟨⟨256, 0, 256, 256⟩, ⟨156, 106⟩, ⟨[106, 113, 120, 127, 135, 143, 152], 167⟩, ⟨1, 64, 103⟩, ⟨103, 113, 103⟩, ⟨[103, 113, 125, 137, 149], 1235, 149, 160, 193⟩, (193, 263)⟩ : FilterChainModel) :=
  Eq.trans (stConst_succ 256 15) (Eq.trans (congrArg (clockS 256) st256_s15) st256_c16)

theorem st256_c17 : clockS 256 (⟨⟨256, 0, 256, 256⟩, ⟨156, 106⟩, ⟨[106, 113, 120, 127, 135, 143, 152], 167⟩, ⟨1, 64, 103⟩, ⟨103, 113, 103⟩, ⟨[103, 113, 125, 137, 149], 1235, 149, 160, 193⟩, (193, 263)⟩ : FilterChainModel) = (⟨⟨256, 0, 256, 256⟩, ⟨162, 100⟩, ⟨[100, 106, 113, 120, 127, 135, 143], 158⟩, ⟨1, 64, 94⟩, ⟨94, 103, 94⟩, ⟨[94, 103, 113, 125, 137], 1127, 137, 149, 160⟩, (160, 193)⟩ : FilterChainModel) := by decide

theorem st256_s17 : stConst 256 17 = (⟨⟨256, 0, 256, 256⟩, ⟨162, 100⟩, ⟨[100, 106, 113, 120, 127, 135, 143], 158⟩, ⟨1, 64, 94⟩, ⟨94, 103, 94⟩, ⟨[94, 103, 113, 125, 137], 1127, 137, 149, 160⟩, (160, 193)⟩ : FilterChainModel) :=
  Eq.trans (stConst_succ 256 16) (Eq.trans (congrArg (clockS 256) st256_s16) st256_c17)

theorem st256_c18 : clockS 256 (⟨⟨256, 0, 256, 256⟩, ⟨162, 100⟩, ⟨[100, 106, 113, 120, 127, 135, 143], 158⟩, ⟨1, 64, 94⟩, ⟨94, 103, 94⟩, ⟨[94, 103, 113, 125, 137], 1127, 137, 149, 160⟩, (160, 193)⟩ : FilterChainModel) = (⟨⟨256, 0, 256, 256⟩, ⟨167, 94⟩, ⟨[94, 100, 106, 113, 120, 127, 135], 149⟩, ⟨1, 64, 85⟩, ⟨85, 94, 85⟩, ⟨[85, 94, 103, 113, 125], 1026, 125, 137, 149⟩, (149, 160)⟩ : FilterChainModel) := by decide

theorem st256_s18 : stConst 256 18 = (⟨⟨256, 0, 256, 256⟩, ⟨167, 94⟩, ⟨[94, 100, 106, 113, 120, 127, 135], 149⟩, ⟨1, 64, 85⟩, ⟨85, 94, 85⟩, ⟨[85, 94, 103, 113, 125], 1026, 125, 137, 149⟩, (149, 160)⟩ : FilterChainModel) :=
  Eq.trans (stConst_succ 256 17) (Eq.trans (congrArg (clockS 256) st256_s17) st256_c18)

theorem st256_c19 : clockS 256 (⟨⟨256, 0, 256, 256⟩, ⟨167, 94⟩, ⟨[94, 100, 106, 113, 120, 127, 135], 149⟩, ⟨1, 64, 85⟩, ⟨85, 94, 85⟩, ⟨[85, 94, 103, 113, 125], 1026, 125, 137, 149⟩, (149, 160)⟩ : FilterChainModel) = (⟨⟨256, 0, 256, 256⟩, ⟨172, 89⟩, ⟨[89, 94, 100, 106, 113, 120, 127], 140⟩, ⟨1, 64, 76⟩, ⟨76, 85, 76⟩, ⟨[76, 85, 94, 103, 113], 933, 114, 125, 137⟩, (137, 149)⟩ : FilterChainModel) := by decide

theorem st256_s19 : stConst 256 19 = (⟨⟨256, 0, 256, 256⟩, ⟨172, 89⟩, ⟨[89, 94, 100, 106, 113, 120, 127], 140⟩, ⟨1, 64, 76⟩, ⟨76, 85, 76⟩, ⟨[76, 85, 94, 103, 113], 933, 114, 125, 137⟩, (137, 149)⟩ : FilterChainModel) :=
  Eq.trans (stConst_succ 256 18) (Eq.trans (congrArg (clockS 256) st256_s18) st256_c19)

theorem st256_c20 : clockS 256 (⟨⟨256, 0, 256, 256⟩, ⟨172, 89⟩, ⟨[89, 94, 100, 106, 113, 120, 127], 140⟩, ⟨1, 64, 76⟩, ⟨76, 85, 76⟩, ⟨[76, 85, 94, 103, 113], 933, 114, 125, 137⟩, (137, 149)⟩ : FilterChainModel) = (⟨⟨256, 0, 256, 256⟩, ⟨177, 84⟩, ⟨[84, 89, 94, 100, 106, 113, 120], 132⟩, ⟨1, 64, 68⟩, ⟨68, 76, 68⟩, ⟨[68, 76, 85, 94, 103], 847, 103, 114, 125⟩, (125, 137)⟩ : FilterChainModel) := by decide

theorem st256_s20 : stConst 256 20 = (⟨⟨256, 0, 256, 256⟩, ⟨177, 84⟩, ⟨[84, 89, 94, 100, 106, 113, 120], 132⟩, ⟨1, 64, 68⟩, ⟨68, 76, 68⟩, ⟨[68, 76, 85, 94, 103], 847, 103, 114, 125⟩, (125, 137)⟩ : FilterChainModel) :=
  Eq.trans (stConst_succ 256 19) (Eq.trans (congrArg (clockS 256) st256_s19) st256_c20)

theorem st256_c21 : clockS 256 (⟨⟨256, 0, 256, 256⟩, ⟨177, 84⟩, ⟨[84, 89, 94, 100, 106, 113, 120], 132⟩, ⟨1, 64, 68⟩, ⟨68, 76, 68⟩, ⟨[68, 76, 85, 94, 103], 847, 103, 114, 125⟩, (125, 137)⟩ : FilterChainModel) = (⟨⟨256, 0, 256, 256⟩, ⟨181, 79⟩, ⟨[79, 84, 89, 94, 100, 106, 113], 124⟩, ⟨1, 64, 60⟩, ⟨60, 68, 60⟩, ⟨[60, 68, 76, 85, 94], 766, 94, 103, 114⟩, (114, 125)⟩ : FilterChainModel) := by decide

theorem st256_s21 : stConst 256 21 = (⟨⟨256, 0, 256, 256⟩, ⟨181, 79⟩, ⟨[79, 84, 89, 94, 100, 106, 113], 124⟩, ⟨1, 64, 60⟩, ⟨60, 68, 60⟩, ⟨[60, 68, 76, 85, 94], 766, 94, 103, 114⟩, (114, 125)⟩ : FilterChainModel) :=
  Eq.trans (stConst_succ 256 20) (Eq.trans (congrArg (clockS 256) st256_s20) st256_c21)

theorem st256_c22 : clockS 256 (⟨⟨256, 0, 256, 256⟩, ⟨181, 79⟩, ⟨[79, 84, 89, 94, 100, 106, 113], 124⟩, ⟨1, 64, 60⟩, ⟨60, 68, 60⟩, ⟨[60, 68, 76, 85, 94], 766, 94, 103, 114⟩, (114, 125)⟩ : FilterChainModel) = (⟨⟨256, 0, 256, 256⟩, ⟨185, 75⟩, ⟨[75, 79, 84, 89, 94, 100, 106], 117⟩, ⟨1, 64, 53⟩, ⟨53, 60, 53⟩, ⟨[53, 60, 68, 76, 85], 688, 85, 94, 103⟩, (103, 114)⟩ : FilterChainModel) := by decide

theorem st256_s22 : stConst 256 22 = (⟨⟨256, 0, 256, 256⟩, ⟨185, 75⟩, ⟨[75, 79, 84, 89, 94, 100, 106], 117⟩, ⟨1, 64, 53⟩, ⟨53, 60, 53⟩, ⟨[53, 60, 68, 76, 85], 688, 85, 94, 103⟩, (103, 114)⟩ : FilterChainModel) :=
  Eq.trans (stConst_succ 256 21) (Eq.trans (congrArg (clockS 256) st256_s21) st256_c22)

theorem st256_c23 : clockS 256 (⟨⟨256, 0, 256, 256⟩, ⟨185, 75⟩, ⟨[75, 79, 84, 89, 94, 100, 106], 117⟩, ⟨1, 64, 53⟩, ⟨53, 60, 53⟩, ⟨[53, 60, 68, 76, 85], 688, 85, 94, 103⟩, (103, 114)⟩ : FilterChainModel) = (⟨⟨256, 0, 256, 256⟩, ⟨189, 71⟩, ⟨[71, 75, 79, 84, 89, 94, 100], 110⟩, ⟨1, 64, 46⟩, ⟨46, 53, 46⟩, ⟨[46, 53, 60, 68, 76], 614, 76, 85, 94⟩, (94, 103)⟩ : FilterChainModel) := by decide

theorem st256_s23 : stConst 256 23 = (⟨⟨256, 0, 256, 256⟩, ⟨189, 71⟩, ⟨[71, 75, 79, 84, 89, 94, 100], 110⟩, ⟨1, 64, 46⟩, ⟨46, 53, 46⟩, ⟨[46, 53, 60, 68, 76], 614, 76, 85, 94⟩, (94, 103)⟩ : FilterChainModel) :=
  Eq.trans (stConst_succ 256 22) (Eq.trans (congrArg (clockS 256) st256_s22) st256_c23)

theorem st256_c24 : clockS 256 (⟨⟨256, 0, 256, 256⟩, ⟨189, 71⟩, ⟨[71, 75, 79, 84, 89, 94, 100], 110⟩, ⟨1, 64, 46⟩, ⟨46, 53, 46⟩, ⟨[46, 53, 60, 68, 76], 614, 76, 85, 94⟩, (94, 103)⟩ : FilterChainModel) = (⟨⟨256, 0, 256, 256⟩, ⟨193, 67⟩, ⟨[67, 71, 75, 79, 84, 89, 94], 104⟩, ⟨1, 64, 40⟩, ⟨40, 46, 40⟩, ⟨[40, 46, 53, 60, 68], 544, 68, 76, 85⟩, (85, 94)⟩ : FilterChainModel) := by decide

theorem st256_s24 : stConst 256 24 = (⟨⟨256, 0, 256, 256⟩, ⟨193, 67⟩, ⟨[67, 71, 75, 79, 84, 89, 94], 104⟩, ⟨1, 64, 40⟩, ⟨40, 46, 40⟩, ⟨[40, 46, 53, 60, 68], 544, 68, 76, 85⟩, (85, 94)⟩ : FilterChainModel) :=
  Eq.trans (stConst_succ 256 23) (Eq.trans (congrArg (clockS 256) st256_s23) st256_c24)

theorem st256_c25 : clockS 256 (⟨⟨256, 0, 256, 256⟩, ⟨193, 67⟩, ⟨[67, 71, 75, 79, 84, 89, 94], 104⟩, ⟨1, 64, 40⟩, ⟨40, 46, 40⟩, ⟨[40, 46, 53, 60, 68], 544, 68, 76, 85⟩, (85, 94)⟩ : FilterChainModel) = (⟨⟨256, 0, 256, 256⟩, ⟨196, 63⟩, ⟨[63, 67, 71, 75, 79, 84, 89], 98⟩, ⟨1, 64, 34⟩, ⟨34, 40, 34⟩, ⟨[34, 40, 46, 53, 60], 479, 60, 68, 76⟩, (76, 85)⟩ : FilterChainModel) := by decide

theorem st256_s25 : stConst 256 25 = (⟨⟨256, 0, 256, 256⟩, ⟨196, 63⟩, ⟨[63, 67, 71, 75, 79, 84, 89], 98⟩, ⟨1, 64, 34⟩, ⟨34, 40, 34⟩, ⟨[34, 40, 46, 53, 60], 479, 60, 68, 76⟩, (76, 85)⟩ : FilterChainModel) :=
  Eq.trans (stConst_succ 256 24) (Eq.trans (congrArg (clockS 256) st256_s24) st256_c25)

theorem st256_c26 : clockS 256 (⟨⟨256, 0, 256, 256⟩, ⟨196, 63⟩, ⟨[63, 67, 71, 75, 79, 84, 89], 98⟩, ⟨1, 64, 34⟩, ⟨34, 40, 34⟩, ⟨[34, 40, 46, 53, 60], 479, 60, 68, 76⟩, (76, 85)⟩ : FilterChainModel) = (⟨⟨256, 0, 256, 256⟩, ⟨199, 60⟩, ⟨[60, 63, 67, 71, 75, 79, 84], 93⟩, ⟨1, 64, 29⟩, ⟨29, 34, 29⟩, ⟨[29, 34, 40, 46, 53], 418, 53, 60, 68⟩, (68, 76)⟩ : FilterChainModel) := by decide

theorem st256_s26 : stConst 256 26 = (⟨⟨256, 0, 256, 256⟩, ⟨199, 60⟩, ⟨[60, 63, 67, 71, 75, 79, 84], 93⟩, ⟨1, 64, 29⟩, ⟨29, 34, 29⟩, ⟨[29, 34, 40, 46, 53], 418, 53, 60, 68⟩, (68, 76)⟩ : FilterChainModel) :=
  Eq.trans (stConst_succ 256 25) (Eq.trans (congrArg (clockS 256) st256_s25) st256_c26)

theorem st256_c27 : clockS 256 (⟨⟨256, 0, 256, 256⟩, ⟨199, 60⟩, ⟨[60, 63, 67, 71, 75, 79, 84], 93⟩, ⟨1, 64, 29⟩, ⟨29, 34, 29⟩, ⟨[29, 34, 40, 46, 53], 418, 53, 60, 68⟩, (68, 76)⟩ : FilterChainModel) = (⟨⟨256, 0, 256, 256⟩, ⟨202, 57⟩, ⟨[57, 60, 63, 67, 71, 75, 79], 88⟩, ⟨1, 64, 24⟩, ⟨24, 29, 24⟩, ⟨[24, 29, 34, 40, 46], 362, 46, 53, 60⟩, (60, 68)⟩ : FilterChainModel) := by decide

theorem st256_s27 : stConst 256 27 = (⟨⟨256, 0, 256, 256⟩, ⟨202, 57⟩, ⟨[57, 60, 63, 67, 71, 75, 79], 88⟩, ⟨1, 64, 24⟩, ⟨24, 29, 24⟩, ⟨[24, 29, 34, 40, 46], 362, 46, 53, 60⟩, (60, 68)⟩ : FilterChainModel) :=
  Eq.trans (stConst_succ 256 26) (Eq.trans (congrArg (clockS 256) st256_s26) st256_c27)

theorem st256_c28 : clockS 256 (⟨⟨256, 0, 256, 256⟩, ⟨202, 57⟩, ⟨[57, 60, 63, 67, 71, 75, 79], 88⟩, ⟨1, 64, 24⟩, ⟨24, 29, 24⟩, ⟨[24, 29, 34, 40, 46], 362, 46, 53, 60⟩, (60, 68)⟩ : FilterChainModel) = (⟨⟨256, 0, 256, 256⟩, ⟨205, 54⟩, ⟨[54, 57, 60, 63, 67, 71, 75], 83⟩, ⟨1, 64, 19⟩, ⟨19, 24, 19⟩, ⟨[19, 24, 29, 34, 40], 310, 40, 46, 53⟩, (53, 60)⟩ : FilterChainModel) := by decide

theorem st256_s28 : stConst 256 28 = (⟨⟨256, 0, 256, 256⟩, ⟨205, 54⟩, ⟨[54, 57, 60, 63, 67, 71, 75], 83⟩, ⟨1, 64, 19⟩, ⟨19, 24, 19⟩, ⟨[19, 24, 29, 34, 40], 310, 40, 46, 53⟩, (53, 60)⟩ : FilterChainModel) :=
  Eq.trans (stConst_succ 256 27) (Eq.trans (congrArg (clockS 256) st256_s27) st256_c28)

theorem st256_c29 : clockS 256 (⟨⟨256, 0, 256, 256⟩, ⟨205, 54⟩, ⟨[54, 57, 60, 63, 67, 71, 75], 83⟩, ⟨1, 64, 19⟩, ⟨19, 24, 19⟩, ⟨[19, 24, 29, 34, 40], 310, 40, 46, 53⟩, (53, 60)⟩ : FilterChainModel) = (⟨⟨256, 0, 256, 256⟩, ⟨208, 51⟩, ⟨[51, 54, 57, 60, 63, 67, 71], 78⟩, ⟨1, 64, 14⟩, ⟨14, 19, 14⟩, ⟨[14, 19, 24, 29, 34], 262, 34, 40, 46⟩, (46, 53)⟩ : FilterChainModel) := by decide

theorem st256_s29 : stConst 256 29 = (⟨⟨256, 0, 256, 256⟩, ⟨208, 51⟩, ⟨[51, 54, 57, 60, 63, 67, 71], 78⟩, ⟨1, 64, 14⟩, ⟨14, 19, 14⟩, ⟨[14, 19, 24, 29, 34], 262, 34, 40, 46⟩, (46, 53)⟩ : FilterChainModel) :=
  Eq.trans (stConst_succ 256 28) (Eq.trans (congrArg (clockS 256) st256_s28) st256_c29)

theorem st256_c30 : clockS 256 (⟨⟨256, 0, 256, 256⟩, ⟨208, 51⟩, ⟨[51, 54, 57, 60, 63, 67, 71], 78⟩, ⟨1, 64, 14⟩, ⟨14, 19, 14⟩, ⟨[14, 19, 24, 29, 34], 262, 34, 40, 46⟩, (46, 53)⟩ : FilterChainModel) = (⟨⟨256, 0, 256, 256⟩, ⟨211, 48⟩, ⟨[48, 51, 54, 57, 60, 63, 67], 74⟩, ⟨1, 64, 10⟩, ⟨10, 14, 10⟩, ⟨[10, 14, 19, 24, 29], 216, 29, 34, 40⟩, (40, 46)⟩ : FilterChainModel) := by decide

theorem st256_s30 : stConst 256 30 = (⟨⟨256, 0, 256, 256⟩, ⟨211, 48⟩, ⟨[48, 51, 54, 57, 60, 63, 67], 74⟩, ⟨1, 64, 10⟩, ⟨10, 14, 10⟩, ⟨[10, 14, 19, 24, 29], 216, 29, 34, 40⟩, (40, 46)⟩ : FilterChainModel) :=
  Eq.trans (stConst_succ 256 29) (Eq.trans (congrArg (clockS 256) st256_s29) st256_c30)

theorem st256_c31 : clockS 256 (⟨⟨256, 0, 256, 256⟩, ⟨211, 48⟩, ⟨[48, 51, 54, 57, 60, 63, 67], 74⟩, ⟨1, 64, 10⟩, ⟨10, 14, 10⟩, ⟨[10, 14, 19, 24, 29], 216, 29, 34, 40⟩, (40, 46)⟩ : FilterChainModel) = (⟨⟨256, 0, 256, 256⟩, ⟨213, 45⟩, ⟨[45, 48, 51, 54, 57, 60, 63], 71⟩, ⟨1, 64, 7⟩, ⟨7, 10, 7⟩, ⟨[7, 10, 14, 19, 24], 172, 24, 29, 34⟩, (34, 40)⟩ : FilterChainModel) := by decide

theorem st256_s31 : stConst 256 31 = (⟨⟨256, 0, 256, 256⟩, ⟨213, 45⟩, ⟨[45, 48, 51, 54, 57, 60, 63], 71⟩, ⟨1, 64, 7⟩, ⟨7, 10, 7⟩, ⟨[7, 10, 14, 19, 24], 172, 24, 29, 34⟩, (34, 40)⟩ : FilterChainModel) :=
  Eq.trans (stConst_succ 256 30) (Eq.trans (congrArg (clockS 256) st256_s30) st256_c31)

theorem st256_c32 : clockS 256 (⟨⟨256, 0, 256, 256⟩, ⟨213, 45⟩, ⟨[45, 48, 51, 54, 57, 60, 63], 71⟩, ⟨1, 64, 7⟩, ⟨7, 10, 7⟩, ⟨[7, 10, 14, 19, 24], 172, 24, 29, 34⟩, (34, 40)⟩ : FilterChainModel) = (⟨⟨256, 0, 256, 256⟩, ⟨215, 43⟩, ⟨[43, 45, 48, 51, 54, 57, 60], 67⟩, ⟨1, 64, 3⟩, ⟨3, 7, 3⟩, ⟨[3, 7, 10, 14, 19], 131, 19, 24, 29⟩, (29, 34)⟩ : FilterChainModel) := by decide

theorem st256_s32 : stConst 256 32 = (⟨⟨256, 0, 256, 256⟩, ⟨215, 43⟩, ⟨[43, 45, 48, 51, 54, 57, 60], 67⟩, ⟨1, 64, 3⟩, ⟨3, 7, 3⟩, ⟨[3, 7, 10, 14, 19], 131, 19, 24, 29⟩, (29, 34)⟩ : FilterChainModel) :=
  Eq.trans (stConst_succ 256 31) (Eq.trans (congrArg (clockS 256) st256_s31) st256_c32)

theorem st256_c33 : clockS 256 (⟨⟨256, 0, 256, 256⟩, ⟨215, 43⟩, ⟨[43, 45, 48, 51, 54, 57, 60], 67⟩, ⟨1, 64, 3⟩, ⟨3, 7, 3⟩, ⟨[3, 7, 10, 14, 19], 131, 19, 24, 29⟩, (29, 34)⟩ : FilterChainModel) = (⟨⟨256, 0, 256, 256⟩, ⟨217, 41⟩, ⟨[41, 43, 45, 48, 51, 54, 57], 63⟩, ⟨1, 64, (-1)⟩, ⟨(-1), 3, (-1)⟩, ⟨[(-1), 3, 7, 10, 14], 94, 14, 19, 24⟩, (24, 29)⟩ : FilterChainModel) := by decide

theorem st256_s33 : stConst 256 33 = (⟨⟨256, 0, 256, 256⟩, ⟨217, 41⟩, ⟨[41, 43, 45, 48, 51, 54, 57], 63⟩, ⟨1, 64, (-1)⟩, ⟨(-1), 3, (-1)⟩, ⟨[(-1), 3, 7, 10, 14], 94, 14, 19, 24⟩, (24, 29)⟩ : FilterChainModel) :=
  Eq.trans (stConst_succ 256 32) (Eq.trans (congrArg (clockS 256) st256_s32) st256_c33)

theorem st256_c34 : clockS 256 (⟨⟨256, 0, 256, 256⟩, ⟨217, 41⟩, ⟨[41, 43, 45, 48, 51, 54, 57], 63⟩, ⟨1, 64, (-1)⟩, ⟨(-1), 3, (-1)⟩, ⟨[(-1), 3, 7, 10, 14], 94, 14, 19, 24⟩, (24, 29)⟩ : FilterChainModel) = (⟨⟨256, 0, 256, 256⟩, ⟨219, 39⟩, ⟨[39, 41, 43, 45, 48, 51, 54], 59⟩, ⟨(-1), 64, (-5)⟩, ⟨(-5), (-1), (-5)⟩, ⟨[(-5), (-1), 3, 7, 10], 60, 10, 14, 19⟩, (19, 24)⟩ : FilterChainModel) := by decide

theorem st256_s34 : stConst 256 34 = (⟨⟨256, 0, 256, 256⟩, ⟨219, 39⟩, ⟨[39, 41, 43, 45, 48, 51, 54], 59⟩, ⟨(-1), 64, (-5)⟩, ⟨(-5), (-1), (-5)⟩, ⟨[(-5), (-1), 3, 7, 10], 60, 10, 14, 19⟩, (19, 24)⟩ : FilterChainModel) :=
  Eq.trans (stConst_succ 256 33) (Eq.trans (congrArg (clockS 256) st256_s33) st256_c34)

theorem st256_c35 : clockS 256 (⟨⟨256, 0, 256, 256⟩, ⟨219, 39⟩, ⟨[39, 41, 43, 45, 48, 51, 54], 59⟩, ⟨(-1), 64, (-5)⟩, ⟨(-5), (-1), (-5)⟩, ⟨[(-5), (-1), 3, 7, 10], 60, 10, 14, 19⟩, (19, 24)⟩ : FilterChainModel) = (⟨⟨256, 0, 256, 256⟩, ⟨221, 37⟩, ⟨[37, 39, 41, 43, 45, 48, 51], 55⟩, ⟨(-1), (-64), (-9)⟩, ⟨(-9), (-5), (-9)⟩, ⟨[(-9), (-5), (-1), 3, 7], 26, 6, 10, 14⟩, (14, 19)⟩ : FilterChainModel) := by decide

theorem st256_s35 : stConst 256 35 = (⟨⟨256, 0, 256, 256⟩, ⟨221, 37⟩, ⟨[37, 39, 41, 43, 45, 48, 51], 55⟩, ⟨(-1), (-64), (-9)⟩, ⟨(-9), (-5), (-9)⟩, ⟨[(-9), (-5), (-1), 3, 7], 26, 6, 10, 14⟩, (14, 19)⟩ : FilterChainModel) :=
  Eq.trans (stConst_succ 256 34) (Eq.trans (congrArg (clockS 256) st256_s34) st256_c35)

theorem st256_c36 : clockS 256 (⟨⟨256, 0, 256, 256⟩, ⟨221, 37⟩, ⟨[37, 39, 41, 43, 45, 48, 51], 55⟩, ⟨(-1), (-64), (-9)⟩, ⟨(-9), (-5), (-9)⟩, ⟨[(-9), (-5), (-1), 3, 7], 26, 6, 10, 14⟩, (14, 19)⟩ : FilterChainModel) = (⟨⟨256, 0, 256, 256⟩, ⟨223, 35⟩, ⟨[35, 37, 39, 41, 43, 45, 48], 53⟩, ⟨(-1), (-64), 117⟩, ⟨117, (-9), 117⟩, ⟨[117, (-9), (-5), (-1), 3], (-9), 2, 6, 10⟩, (10, 14)⟩ : FilterChainModel) := by decide

theorem st256_s36 : stConst 256 36 = (⟨⟨256, 0, 256, 256⟩, ⟨223, 35⟩, ⟨[35, 37, 39, 41, 43, 45, 48], 53⟩, ⟨(-1), (-64), 117⟩, ⟨117, (-9), 117⟩, ⟨[117, (-9), (-5), (-1), 3], (-9), 2, 6, 10⟩, (10, 14)⟩ : FilterChainModel) :=
  Eq.trans (stConst_succ 256 35) (Eq.trans (congrArg (clockS 256) st256_s35) st256_c36)

theorem st256_c37 : clockS 256 (⟨⟨256, 0, 256, 256⟩, ⟨223, 35⟩, ⟨[35, 37, 39, 41, 43, 45, 48], 53⟩, ⟨(-1), (-64), 117⟩, ⟨117, (-9), 117⟩, ⟨[117, (-9), (-5), (-1), 3], (-9), 2, 6, 10⟩, (10, 14)⟩ : FilterChainModel) = (⟨⟨256, 0, 256, 256⟩, ⟨225, 33⟩, ⟨[33, 35, 37, 39, 41, 43, 45], 51⟩, ⟨1, (-64), 115⟩, ⟨115, 117, 115⟩, ⟨[115, 117, (-9), (-5), (-1)], 85, (-1), 2, 6⟩, (6, 10)⟩ : FilterChainModel) := by decide

theorem st256_s37 : stConst 256 37 = (⟨⟨256, 0, 256, 256⟩, ⟨225, 33⟩, ⟨[33, 35, 37, 39, 41, 43, 45], 51⟩, ⟨1, (-64), 115⟩, ⟨115, 117, 115⟩, ⟨[115, 117, (-9), (-5), (-1)], 85, (-1), 2, 6⟩, (6, 10)⟩ : FilterChainModel) :=
  Eq.trans (stConst_succ 256 36) (Eq.trans (congrArg (clockS 256) st256_s36) st256_c37)

theorem st256_c38 : clockS 256 (⟨⟨256, 0, 256, 256⟩, ⟨225, 33⟩, ⟨[33, 35, 37, 39, 41, 43, 45], 51⟩, ⟨1, (-64), 115⟩, ⟨115, 117, 115⟩, ⟨[115, 117, (-9), (-5), (-1)], 85, (-1), 2, 6⟩, (6, 10)⟩ : FilterChainModel) = (⟨⟨256, 0, 256, 256⟩, ⟨226, 31⟩, ⟨[31, 33, 35, 37, 39, 41, 43], 48⟩, ⟨1, 64, 112⟩, ⟨112, 115, 112⟩, ⟨[112, 115, 117, (-9), (-5)], 311, 9, (-1), 2⟩, (2, 6)⟩ : FilterChainModel) := by decide

theorem st256_s38 : stConst 256 38 = (⟨⟨256, 0, 256, 256⟩, ⟨226, 31⟩, ⟨[31, 33, 35, 37, 39, 41, 43], 48⟩, ⟨1, 64, 112⟩, ⟨112, 115, 112⟩, ⟨[112, 115, 117, (-9), (-5)], 311, 9, (-1), 2⟩, (2, 6)⟩ : FilterChainModel) :=
  Eq.trans (stConst_succ 256 37) (Eq.trans (congrArg (clockS 256) st256_s37) st256_c38)

theorem st256_c39 : clockS 256 (⟨⟨256, 0, 256, 256⟩, ⟨226, 31⟩, ⟨[31, 33, 35, 37, 39, 41, 43], 48⟩, ⟨1, 64, 112⟩, ⟨112, 115, 112⟩, ⟨[112, 115, 117, (-9), (-5)], 311, 9, (-1), 2⟩, (2, 6)⟩ : FilterChainModel) = (⟨⟨256, 0, 256, 256⟩, ⟨227, 30⟩, ⟨[30, 31, 33, 35, 37, 39, 41], 46⟩, ⟨1, 64, (-18)⟩, ⟨(-18), 112, (-18)⟩, ⟨[(-18), 112, 115, 117, (-9)], 670, 34, 9, (-1)⟩, ((-1), 2)⟩ : FilterChainModel) := by decide

theorem st256_s39 : stConst 256 39 = (⟨⟨256, 0, 256, 256⟩, ⟨227, 30⟩, ⟨[30, 31, 33, 35, 37, 39, 41], 46⟩, ⟨1, 64, (-18)⟩, ⟨(-18), 112, (-18)⟩, ⟨[(-18), 112, 115, 117, (-9)], 670, 34, 9, (-1)⟩, ((-1), 2)⟩ : FilterChainModel) :=
  Eq.trans (stConst_succ 256 38) (Eq.trans (congrArg (clockS 256) st256_s38) st256_c39)

theorem st256_c40 : clockS 256 (⟨⟨256, 0, 256, 256⟩, ⟨227, 30⟩, ⟨[30, 31, 33, 35, 37, 39, 41], 46⟩, ⟨1, 64, (-18)⟩, ⟨(-18), 112, (-18)⟩, ⟨[(-18), 112, 115, 117, (-9)], 670, 34, 9, (-1)⟩, ((-1), 2)⟩ : FilterChainModel) = (⟨⟨256, 0, 256, 256⟩, ⟨228, 29⟩, ⟨[29, 30, 31, 33, 35, 37, 39], 43⟩, ⟨(-1), 64, (-21)⟩, ⟨(-21), (-18), (-21)⟩, ⟨[(-21), (-18), 112, 115, 117], 776, 74, 34, 9⟩, (9, (-1))⟩ : FilterChainModel) := by decide

theorem st256_s40 : stConst 256 40 = (⟨⟨256, 0, 256, 256⟩, ⟨228, 29⟩, ⟨[29, 30, 31, 33, 35, 37, 39], 43⟩, ⟨(-1), 64, (-21)⟩, ⟨(-21), (-18), (-21)⟩, ⟨[(-21), (-18), 112, 115, 117], 776, 74, 34, 9⟩, (9, (-1))⟩ : FilterChainModel) :=
  Eq.trans (stConst_succ 256 39) (Eq.trans (congrArg (clockS 256) st256_s39) st256_c40)

theorem st256_c41 : clockS 256 (⟨⟨256, 0, 256, 256⟩, ⟨228, 29⟩, ⟨[29, 30, 31, 33, 35, 37, 39], 43⟩, ⟨(-1), 64, (-21)⟩, ⟨(-21), (-18), (-21)⟩, ⟨[(-21), (-18), 112, 115, 117], 776, 74, 34, 9⟩, (9, (-1))⟩ : FilterChainModel) = (⟨⟨256, 0, 256, 256⟩, ⟨229, 28⟩, ⟨[28, 29, 30, 31, 33, 35, 37], 40⟩, ⟨(-1), (-64), (-24)⟩, ⟨(-24), (-21), (-24)⟩, ⟨[(-24), (-21), (-18), 112, 115], 626, 86, 74, 34⟩, (34, 9)⟩ : FilterChainModel) := by decide

theorem st256_s41 : stConst 256 41 = (⟨⟨256, 0, 256, 256⟩, ⟨229, 28⟩, ⟨[28, 29, 30, 31, 33, 35, 37], 40⟩, ⟨(-1), (-64), (-24)⟩, ⟨(-24), (-21), (-24)⟩, ⟨[(-24), (-21), (-18), 112, 115], 626, 86, 74, 34⟩, (34, 9)⟩ : FilterChainModel) :=
  Eq.trans (stConst_succ 256 40) (Eq.trans (congrArg (clockS 256) st256_s40) st256_c41)

theorem st256_c42 : clockS 256 (⟨⟨256, 0, 256, 256⟩, ⟨229, 28⟩, ⟨[28, 29, 30, 31, 33, 35, 37], 40⟩, ⟨(-1), (-64), (-24)⟩, ⟨(-24), (-21), (-24)⟩, ⟨[(-24), (-21), (-18), 112, 115], 626, 86, 74, 34⟩, (34, 9)⟩ : FilterChainModel) = (⟨⟨256, 0, 256, 256⟩, ⟨230, 27⟩, ⟨[27, 28, 29, 30, 31, 33, 35], 38⟩, ⟨(-1), (-64), 102⟩, ⟨102, (-24), 102⟩, ⟨[102, (-24), (-21), (-18), 112], 219, 69, 86, 74⟩, (74, 34)⟩ : FilterChainModel) := by decide

theorem st256_s42 : stConst 256 42 = (⟨⟨256, 0, 256, 256⟩, ⟨230, 27⟩, ⟨[27, 28, 29, 30, 31, 33, 35], 38⟩, ⟨(-1), (-64), 102⟩, ⟨102, (-24), 102⟩, ⟨[102, (-24), (-21), (-18), 112], 219, 69, 86, 74⟩, (74, 34)⟩ : FilterChainModel) :=
  Eq.trans (stConst_succ 256 41) (Eq.trans (congrArg (clockS 256) st256_s41) st256_c42)

theorem st256_c43 : clockS 256 (⟨⟨256, 0, 256, 256⟩, ⟨230, 27⟩, ⟨[27, 28, 29, 30, 31, 33, 35], 38⟩, ⟨(-1), (-64), 102⟩, ⟨102, (-24), 102⟩, ⟨[102, (-24), (-21), (-18), 112], 219, 69, 86, 74⟩, (74, 34)⟩ : FilterChainModel) = (⟨⟨256, 0, 256, 256⟩, ⟨231, 26⟩, ⟨[26, 27, 28, 29, 30, 31, 33], 37⟩, ⟨1, (-64), 101⟩, ⟨101, 102, 101⟩, ⟨[101, 102, (-24), (-21), (-18)], 67, 24, 69, 86⟩, (86, 74)⟩ : FilterChainModel) := by decide

theorem st256_s43 : stConst 256 43 = (⟨⟨256, 0, 256, 256⟩, ⟨231, 26⟩, ⟨[26, 27, 28, 29, 30, 31, 33], 37⟩, ⟨1, (-64), 101⟩, ⟨101, 102, 101⟩, ⟨[101, 102, (-24), (-21), (-18)], 67, 24, 69, 86⟩, (86, 74)⟩ : FilterChainModel) :=
  Eq.trans (stConst_succ 256 42) (Eq.trans (congrArg (clockS 256) st256_s42) st256_c43)

theorem st256_c44 : clockS 256 (⟨⟨256, 0, 256, 256⟩, ⟨231, 26⟩, ⟨[26, 27, 28, 29, 30, 31, 33], 37⟩, ⟨1, (-64), 101⟩, ⟨101, 102, 101⟩, ⟨[101, 102, (-24), (-21), (-18)], 67, 24, 69, 86⟩, (86, 74)⟩ : FilterChainModel) = (⟨⟨256, 0, 256, 256⟩, ⟨232, 25⟩, ⟨[25, 26, 27, 28, 29, 30, 31], 36⟩, ⟨1, 64, 100⟩, ⟨100, 101, 100⟩, ⟨[100, 101, 102, (-24), (-21)], 173, 7, 24, 69⟩, (69, 86)⟩ : FilterChainModel) := by decide

theorem st256_s44 : stConst 256 44 = (⟨⟨256, 0, 256, 256⟩, ⟨232, 25⟩, ⟨[25, 26, 27, 28, 29, 30, 31], 36⟩, ⟨1, 64, 100⟩, ⟨100, 101, 100⟩, ⟨[100, 101, 102, (-24), (-21)], 173, 7, 24, 69⟩, (69, 86)⟩ : FilterChainModel) :=
  Eq.trans (stConst_succ 256 43) (Eq.trans (congrArg (clockS 256) st256_s43) st256_c44)

theorem st256_c45 : clockS 256 (⟨⟨256, 0, 256, 256⟩, ⟨232, 25⟩, ⟨[25, 26, 27, 28, 29, 30, 31], 36⟩, ⟨1, 64, 100⟩, ⟨100, 101, 100⟩, ⟨[100, 101, 102, (-24), (-21)], 173, 7, 24, 69⟩, (69, 86)⟩ : FilterChainModel) = (⟨⟨256, 0, 256, 256⟩, ⟨233, 24⟩, ⟨[24, 25, 26, 27, 28, 29, 30], 35⟩, ⟨1, 64, (-29)⟩, ⟨(-29), 100, (-29)⟩, ⟨[(-29), 100, 101, 102, (-24)], 539, 19, 7, 24⟩, (24, 69)⟩ : FilterChainModel) := by decide

theorem st256_s45 : stConst 256 45 = (⟨⟨256, 0, 256, 256⟩, ⟨233, 24⟩, ⟨[24, 25, 26, 27, 28, 29, 30], 35⟩, ⟨1, 64, (-29)⟩, ⟨(-29), 100, (-29)⟩, ⟨[(-29), 100, 101, 102, (-24)], 539, 19, 7, 24⟩, (24, 69)⟩ : FilterChainModel) :=
  Eq.trans (stConst_succ 256 44) (Eq.trans (congrArg (clockS 256) st256_s44) st256_c45)

theorem st256_c46 : clockS 256 (⟨⟨256, 0, 256, 256⟩, ⟨233, 24⟩, ⟨[24, 25, 26, 27, 28, 29, 30], 35⟩, ⟨1, 64, (-29)⟩, ⟨(-29), 100, (-29)⟩, ⟨[(-29), 100, 101, 102, (-24)], 539, 19, 7, 24⟩, (24, 69)⟩ : FilterChainModel) = (⟨⟨256, 0, 256, 256⟩, ⟨234, 23⟩, ⟨[23, 24, 25, 26, 27, 28, 29], 33⟩, ⟨(-1), 64, (-31)⟩, ⟨(-31), (-29), (-31)⟩, ⟨[(-31), (-29), 100, 101, 102], 654, 59, 19, 7⟩, (7, 24)⟩ : FilterChainModel) := by decide

theorem st256_s46 : stConst 256 46 = (⟨⟨256, 0, 256, 256⟩, ⟨234, 23⟩, ⟨[23, 24, 25, 26, 27, 28, 29], 33⟩, ⟨(-1), 64, (-31)⟩, ⟨(-31), (-29), (-31)⟩, ⟨[(-31), (-29), 100, 101, 102], 654, 59, 19, 7⟩, (7, 24)⟩ : FilterChainModel) :=
  Eq.trans (stConst_succ 256 45) (Eq.trans (congrArg (clockS 256) st256_s45) st256_c46)

theorem st256_c47 : clockS 256 (⟨⟨256, 0, 256, 256⟩, ⟨234, 23⟩, ⟨[23, 24, 25, 26, 27, 28, 29], 33⟩, ⟨(-1), 64, (-31)⟩, ⟨(-31), (-29), (-31)⟩, ⟨[(-31), (-29), 100, 101, 102], 654, 59, 19, 7⟩, (7, 24)⟩ : FilterChainModel) = (⟨⟨256, 0, 256, 256⟩, ⟨235, 22⟩, ⟨[22, 23, 24, 25, 26, 27, 28], 32⟩, ⟨(-1), (-64), (-32)⟩, ⟨(-32), (-31), (-32)⟩, ⟨[(-32), (-31), (-29), 100, 101], 515, 72, 59, 19⟩, (19, 7)⟩ : FilterChainModel) := by decide

theorem st256_s47 : stConst 256 47 = (⟨⟨256, 0, 256, 256⟩, ⟨235, 22⟩, ⟨[22, 23, 24, 25, 26, 27, 28], 32⟩, ⟨(-1), (-64), (-32)⟩, ⟨(-32), (-31), (-32)⟩, ⟨[(-32), (-31), (-29), 100, 101], 515, 72, 59, 19⟩, (19, 7)⟩ : FilterChainModel) :=
  Eq.trans (stConst_succ 256 46) (Eq.trans (congrArg (clockS 256) st256_s46) st256_c47)

theorem st256_c48 : clockS 256 (⟨⟨256, 0, 256, 256⟩, ⟨235, 22⟩, ⟨[22, 23, 24, 25, 26, 27, 28], 32⟩, ⟨(-1), (-64), (-32)⟩, ⟨(-32), (-31), (-32)⟩, ⟨[(-32), (-31), (-29), 100, 101], 515, 72, 59, 19⟩, (19, 7)⟩ : FilterChainModel) = (⟨⟨256, 0, 256, 256⟩, ⟨236, 21⟩, ⟨[21, 22, 23, 24, 25, 26, 27], 31⟩, ⟨(-1), (-64), 95⟩, ⟨95, (-32), 95⟩, ⟨[95, (-32), (-31), (-29), 100], 120, 57, 72, 59⟩, (59, 19)⟩ : FilterChainModel) := by decide

theorem st256_s48 : stConst 256 48 = (⟨⟨256, 0, 256, 256⟩, ⟨236, 21⟩, ⟨[21, 22, 23, 24, 25, 26, 27], 31⟩, ⟨(-1), (-64), 95⟩, ⟨95, (-32), 95⟩, ⟨[95, (-32), (-31), (-29), 100], 120, 57, 72, 59⟩, (59, 19)⟩ : FilterChainModel) :=
  Eq.trans (stConst_succ 256 47) (Eq.trans (congrArg (clockS 256) st256_s47) st256_c48)

theorem st256_c49 : clockS 256 (⟨⟨256, 0, 256, 256⟩, ⟨236, 21⟩, ⟨[21, 22, 23, 24, 25, 26, 27], 31⟩, ⟨(-1), (-64), 95⟩, ⟨95, (-32), 95⟩, ⟨[95, (-32), (-31), (-29), 100], 120, 57, 72, 59⟩, (59, 19)⟩ : FilterChainModel) = (⟨⟨256, 0, 256, 256⟩, ⟨237, 20⟩, ⟨[20, 21, 22, 23, 24, 25, 26], 30⟩, ⟨1, (-64), 94⟩, ⟨94, 95, 94⟩, ⟨[94, 95, (-32), (-31), (-29)], (-20), 13, 57, 72⟩, (72, 59)⟩ : FilterChainModel) := by decide

theorem st256_s49 : stConst 256 49 = (⟨⟨256, 0, 256, 256⟩, ⟨237, 20⟩, ⟨[20, 21, 22, 23, 24, 25, 26], 30⟩, ⟨1, (-64), 94⟩, ⟨94, 95, 94⟩, ⟨[94, 95, (-32), (-31), (-29)], (-20), 13, 57, 72⟩, (72, 59)⟩ : FilterChainModel) :=
  Eq.trans (stConst_succ 256 48) (Eq.trans (congrArg (clockS 256) st256_s48) st256_c49)

theorem st256_c50 : clockS 256 (⟨⟨256, 0, 256, 256⟩, ⟨237, 20⟩, ⟨[20, 21, 22, 23, 24, 25, 26], 30⟩, ⟨1, (-64), 94⟩, ⟨94, 95, 94⟩, ⟨[94, 95, (-32), (-31), (-29)], (-20), 13, 57, 72⟩, (72, 59)⟩ : FilterChainModel) = (⟨⟨256, 0, 256, 256⟩, ⟨238, 19⟩, ⟨[19, 20, 21, 22, 23, 24, 25], 28⟩, ⟨1, 64, 92⟩, ⟨92, 94, 92⟩, ⟨[92, 94, 95, (-32), (-31)], 97, (-2), 13, 57⟩, (57, 72)⟩ : FilterChainModel) := by decide

theorem st256_s50 : stConst 256 50 = (⟨⟨256, 0, 256, 256⟩, ⟨238, 19⟩, ⟨[19, 20, 21, 22, 23, 24, 25], 28⟩, ⟨1, 64, 92⟩, ⟨92, 94, 92⟩, ⟨[92, 94, 95, (-32), (-31)], 97, (-2), 13, 57⟩, (57, 72)⟩ : FilterChainModel) :=
  Eq.trans (stConst_succ 256 49) (Eq.trans (congrArg (clockS 256) st256_s49) st256_c50)

theorem st256_c51 : clockS 256 (⟨⟨256, 0, 256, 256⟩, ⟨238, 19⟩, ⟨[19, 20, 21, 22, 23, 24, 25], 28⟩, ⟨1, 64, 92⟩, ⟨92, 94, 92⟩, ⟨[92, 94, 95, (-32), (-31)], 97, (-2), 13, 57⟩, (57, 72)⟩ : FilterChainModel) = (⟨⟨256, 0, 256, 256⟩, ⟨239, 18⟩, ⟨[18, 19, 20, 21, 22, 23, 24], 27⟩, ⟨1, 64, (-37)⟩, ⟨(-37), 92, (-37)⟩, ⟨[(-37), 92, 94, 95, (-32)], 470, 10, (-2), 13⟩, (13, 57)⟩ : FilterChainModel) := by decide

theorem st256_s51 : stConst 256 51 = (⟨⟨256, 0, 256, 256⟩, ⟨239, 18⟩, ⟨[18, 19, 20, 21, 22, 23, 24], 27⟩, ⟨1, 64, (-37)⟩, ⟨(-37), 92, (-37)⟩, ⟨[(-37), 92, 94, 95, (-32)], 470, 10, (-2), 13⟩, (13, 57)⟩ : FilterChainModel) :=
  Eq.trans (stConst_succ 256 50) (Eq.trans (congrArg (clockS 256) st256_s50) st256_c51)

theorem st256_c52 : clockS 256 (⟨⟨256, 0, 256, 256⟩, ⟨239, 18⟩, ⟨[18, 19, 20, 21, 22, 23, 24], 27⟩, ⟨1, 64, (-37)⟩, ⟨(-37), 92, (-37)⟩, ⟨[(-37), 92, 94, 95, (-32)], 470, 10, (-2), 13⟩, (13, 57)⟩ : FilterChainModel) = (⟨⟨256, 0, 256, 256⟩, ⟨240, 17⟩, ⟨[17, 18, 19, 20, 21, 22, 23], 26⟩, ⟨(-1), 64, (-38)⟩, ⟨(-38), (-37), (-38)⟩, ⟨[(-38), (-37), 92, 94, 95], 587, 52, 10, (-2)⟩, ((-2), 13)⟩ : FilterChainModel) := by decide

theorem st256_s52 : stConst 256 52 = (⟨⟨256, 0, 256, 256⟩, ⟨240, 17⟩, ⟨[17, 18, 19, 20, 21, 22, 23], 26⟩, ⟨(-1), 64, (-38)⟩, ⟨(-38), (-37), (-38)⟩, ⟨[(-38), (-37), 92, 94, 95], 587, 52, 10, (-2)⟩, ((-2), 13)⟩ : FilterChainModel) :=
  Eq.trans (stConst_succ 256 51) (Eq.trans (congrArg (clockS 256) st256_s51) st256_c52)

theorem st256_c53 : clockS 256 (⟨⟨256, 0, 256, 256⟩, ⟨240, 17⟩, ⟨[17, 18, 19, 20, 21, 22, 23], 26⟩, ⟨(-1), 64, (-38)⟩, ⟨(-38), (-37), (-38)⟩, ⟨[(-38), (-37), 92, 94, 95], 587, 52, 10, (-2)⟩, ((-2), 13)⟩ : FilterChainModel) = (⟨⟨256, 0, 256, 256⟩, ⟨241, 16⟩, ⟨[16, 17, 18, 19, 20, 21, 22], 25⟩, ⟨(-1), (-64), (-39)⟩, ⟨(-39), (-38), (-39)⟩, ⟨[(-39), (-38), (-37), 92, 94], 447, 65, 52, 10⟩, (10, (-2))⟩ : FilterChainModel) := by decide

theorem st256_s53 : stConst 256 53 = (⟨⟨256, 0, 256, 256⟩, ⟨241, 16⟩, ⟨[16, 17, 18, 19, 20, 21, 22], 25⟩, ⟨(-1), (-64), (-39)⟩, ⟨(-39), (-38), (-39)⟩, ⟨[(-39), (-38), (-37), 92, 94], 447, 65, 52, 10⟩, (10, (-2))⟩ : FilterChainModel) :=
  Eq.trans (stConst_succ 256 52) (Eq.trans (congrArg (clockS 256) st256_s52) st256_c53)

theorem st256_c54 : clockS 256 (⟨⟨256, 0, 256, 256⟩, ⟨241, 16⟩, ⟨[16, 17, 18, 19, 20, 21, 22], 25⟩, ⟨(-1), (-64), (-39)⟩, ⟨(-39), (-38), (-39)⟩, ⟨[(-39), (-38), (-37), 92, 94], 447, 65, 52, 10⟩, (10, (-2))⟩ : FilterChainModel) = (⟨⟨256, 0, 256, 256⟩, ⟨241, 15⟩, ⟨[15, 16, 17, 18, 19, 20, 21], 23⟩, ⟨(-1), (-64), 87⟩, ⟨87, (-39), 87⟩, ⟨[87, (-39), (-38), (-37), 92], 52, 49, 65, 52⟩, (52, 10)⟩ : FilterChainModel) := by decide

theorem st256_s54 : stConst 256 54 = (⟨⟨256, 0, 256, 256⟩, ⟨241, 15⟩, ⟨[15, 16, 17, 18, 19, 20, 21], 23⟩, ⟨(-1), (-64), 87⟩, ⟨87, (-39), 87⟩, ⟨[87, (-39), (-38), (-37), 92], 52, 49, 65, 52⟩, (52, 10)⟩ : FilterChainModel) :=
  Eq.trans (stConst_succ 256 53) (Eq.trans (congrArg (clockS 256) st256_s53) st256_c54)

theorem st256_c55 : clockS 256 (⟨⟨256, 0, 256, 256⟩, ⟨241, 15⟩, ⟨[15, 16, 17, 18, 19, 20, 21], 23⟩, ⟨(-1), (-64), 87⟩, ⟨87, (-39), 87⟩, ⟨[87, (-39), (-38), (-37), 92], 52, 49, 65, 52⟩, (52, 10)⟩ : FilterChainModel) = (⟨⟨256, 0, 256, 256⟩, ⟨241, 15⟩, ⟨[15, 15, 16, 17, 18, 19, 20], 22⟩, ⟨1, (-64), 86⟩, ⟨86, 87, 86⟩, ⟨[86, 87, (-39), (-38), (-37)], (-87), 5, 49, 65⟩, (65, 52)⟩ : FilterChainModel) := by decide

theorem st256_s55 : stConst 256 55 = (⟨⟨256, 0, 256, 256⟩, ⟨241, 15⟩, ⟨[15, 15, 16, 17, 18, 19, 20], 22⟩, ⟨1, (-64), 86⟩, ⟨86, 87, 86⟩, ⟨[86, 87, (-39), (-38), (-37)], (-87), 5, 49, 65⟩, (65, 52)⟩ : FilterChainModel) :=
  Eq.trans (stConst_succ 256 54) (Eq.trans (congrArg (clockS 256) st256_s54) st256_c55)

theorem st256_c56 : clockS 256 (⟨⟨256, 0, 256, 256⟩, ⟨241, 15⟩, ⟨[15, 15, 16, 17, 18, 19, 20], 22⟩, ⟨1, (-64), 86⟩, ⟨86, 87, 86⟩, ⟨[86, 87, (-39), (-38), (-37)], (-87), 5, 49, 65⟩, (65, 52)⟩ : FilterChainModel) = (⟨⟨256, 0, 256, 256⟩, ⟨241, 15⟩, ⟨[15, 15, 15, 16, 17, 18, 19], 21⟩, ⟨1, 64, 85⟩, ⟨85, 86, 85⟩, ⟨[85, 86, 87, (-39), (-38)], 30, (-9), 5, 49⟩, (49, 65)⟩ : FilterChainModel) := by decide

theorem st256_s56 : stConst 256 56 = (⟨⟨256, 0, 256, 256⟩, ⟨241, 15⟩, ⟨[15, 15, 15, 16, 17, 18, 19], 21⟩, ⟨1, 64, 85⟩, ⟨85, 86, 85⟩, ⟨[85, 86, 87, (-39), (-38)], 30, (-9), 5, 49⟩, (49, 65)⟩ : FilterChainModel) :=
  Eq.trans (stConst_succ 256 55) (Eq.trans (congrArg (clockS 256) st256_s55) st256_c56)

theorem st256_c57 : clockS 256 (⟨⟨256, 0, 256, 256⟩, ⟨241, 15⟩, ⟨[15, 15, 15, 16, 17, 18, 19], 21⟩, ⟨1, 64, 85⟩, ⟨85, 86, 85⟩, ⟨[85, 86, 87, (-39), (-38)], 30, (-9), 5, 49⟩, (49, 65)⟩ : FilterChainModel) = (⟨⟨256, 0, 256, 256⟩, ⟨241, 15⟩, ⟨[15, 15, 15, 15, 16, 17, 18], 19⟩, ⟨1, 64, (-45)⟩, ⟨(-45), 85, (-45)⟩, ⟨[(-45), 85, 86, 87, (-39)], 402, 3, (-9), 5⟩, (5, 49)⟩ : FilterChainModel) := by decide

theorem st256_s57 : stConst 256 57 = (⟨⟨256, 0, 256, 256⟩, ⟨241, 15⟩, ⟨[15, 15, 15, 15, 16, 17, 18], 19⟩, ⟨1, 64, (-45)⟩, ⟨(-45), 85, (-45)⟩, ⟨[(-45), 85, 86, 87, (-39)], 402, 3, (-9), 5⟩, (5, 49)⟩ : FilterChainModel) :=
  Eq.trans (stConst_succ 256 56) (Eq.trans (congrArg (clockS 256) st256_s56) st256_c57)

theorem st256_c58 : clockS 256 (⟨⟨256, 0, 256, 256⟩, ⟨241, 15⟩, ⟨[15, 15, 15, 15, 16, 17, 18], 19⟩, ⟨1, 64, (-45)⟩, ⟨(-45), 85, (-45)⟩, ⟨[(-45), 85, 86, 87, (-39)], 402, 3, (-9), 5⟩, (5, 49)⟩ : FilterChainModel) = (⟨⟨256, 0, 256, 256⟩, ⟨241, 15⟩, ⟨[15, 15, 15, 15, 15, 16, 17], 18⟩, ⟨(-1), 64, (-46)⟩, ⟨(-46), (-45), (-46)⟩, ⟨[(-46), (-45), 85, 86, 87], 518, 44, 3, (-9)⟩, ((-9), 5)⟩ : FilterChainModel) := by decide

theorem st256_s58 : stConst 256 58 = (⟨⟨256, 0, 256, 256⟩, ⟨241, 15⟩, ⟨[15, 15, 15, 15, 15, 16, 17], 18⟩, ⟨(-1), 64, (-46)⟩, ⟨(-46), (-45), (-46)⟩, ⟨[(-46), (-45), 85, 86, 87], 518, 44, 3, (-9)⟩, ((-9), 5)⟩ : FilterChainModel) :=
  Eq.trans (stConst_succ 256 57) (Eq.trans (congrArg (clockS 256) st256_s57) st256_c58)

theorem st256_c59 : clockS 256 (⟨⟨256, 0, 256, 256⟩, ⟨241, 15⟩, ⟨[15, 15, 15, 15, 15, 16, 17], 18⟩, ⟨(-1), 64, (-46)⟩, ⟨(-46), (-45), (-46)⟩, ⟨[(-46), (-45), 85, 86, 87], 518, 44, 3, (-9)⟩, ((-9), 5)⟩ : FilterChainModel) = (⟨⟨256, 0, 256, 256⟩, ⟨241, 15⟩, ⟨[15, 15, 15, 15, 15, 15, 16], 18⟩, ⟨(-1), (-64), (-46)⟩, ⟨(-46), (-46), (-46)⟩, ⟨[(-46), (-46), (-45), 85, 86], 378, 57, 44, 3⟩, (3, (-9))⟩ : FilterChainModel) := by decide

theorem st256_s59 : stConst 256 59 = (⟨⟨256, 0, 256, 256⟩, ⟨241, 15⟩, ⟨[15, 15, 15, 15, 15, 15, 16], 18⟩, ⟨(-1), (-64), (-46)⟩, ⟨(-46), (-46), (-46)⟩, ⟨[(-46), (-46), (-45), 85, 86], 378, 57, 44, 3⟩, (3, (-9))⟩ : FilterChainModel) :=
  Eq.trans (stConst_succ 256 58) (Eq.trans (congrArg (clockS 256) st256_s58) st256_c59)

theorem st256_c60 : clockS 256 (⟨⟨256, 0, 256, 256⟩, ⟨241, 15⟩, ⟨[15, 15, 15, 15, 15, 15, 16], 18⟩, ⟨(-1), (-64), (-46)⟩, ⟨(-46), (-46), (-46)⟩, ⟨[(-46), (-46), (-45), 85, 86], 378, 57, 44, 3⟩, (3, (-9))⟩ : FilterChainModel) = (⟨⟨256, 0, 256, 256⟩, ⟨241, 15⟩, ⟨[15, 15, 15, 15, 15, 15, 15], 18⟩, ⟨(-1), (-64), 82⟩, ⟨82, (-46), 82⟩, ⟨[82, (-46), (-46), (-45), 85], (-17), 42, 57, 44⟩, (44, 3)⟩ : FilterChainModel) := by decide

theorem st256_s60 : stConst 256 60 = (⟨⟨256, 0, 256, 256⟩, ⟨241, 15⟩, ⟨[15, 15, 15, 15, 15, 15, 15], 18⟩, ⟨(-1), (-64), 82⟩, ⟨82, (-46), 82⟩, ⟨[82, (-46), (-46), (-45), 85], (-17), 42, 57, 44⟩, (44, 3)⟩ : FilterChainModel) :=
  Eq.trans (stConst_succ 256 59) (Eq.trans (congrArg (clockS 256) st256_s59) st256_c60)

theorem st256_c61 : clockS 256 (⟨⟨256, 0, 256, 256⟩, ⟨241, 15⟩, ⟨[15, 15, 15, 15, 15, 15, 15], 18⟩, ⟨(-1), (-64), 82⟩, ⟨82, (-46), 82⟩, ⟨[82, (-46), (-46), (-45), 85], (-17), 42, 57, 44⟩, (44, 3)⟩ : FilterChainModel) = (⟨⟨256, 0, 256, 256⟩, ⟨241, 15⟩, ⟨[15, 15, 15, 15, 15, 15, 15], 18⟩, ⟨1, (-64), 82⟩, ⟨82, 82, 82⟩, ⟨[82, 82, (-46), (-46), (-45)], (-153), (-1), 42, 57⟩, (57, 44)⟩ : FilterChainModel) := by decide

theorem st256_s61 : stConst 256 61 = (⟨⟨256, 0, 256, 256⟩, ⟨241, 15⟩, ⟨[15, 15, 15, 15, 15, 15, 15], 18⟩, ⟨1, (-64), 82⟩, ⟨82, 82, 82⟩, ⟨[82, 82, (-46), (-46), (-45)], (-153), (-1), 42, 57⟩, (57, 44)⟩ : FilterChainModel) :=
  Eq.trans (stConst_succ 256 60) (Eq.trans (congrArg (clockS 256) st256_s60) st256_c61)

theorem st256_c62 : clockS 256 (⟨⟨256, 0, 256, 256⟩, ⟨241, 15⟩, ⟨[15, 15, 15, 15, 15, 15, 15], 18⟩, ⟨1, (-64), 82⟩, ⟨82, 82, 82⟩, ⟨[82, 82, (-46), (-46), (-45)], (-153), (-1), 42, 57⟩, (57, 44)⟩ : FilterChainModel) = (⟨⟨256, 0, 256, 256⟩, ⟨241, 15⟩, ⟨[15, 15, 15, 15, 15, 15, 15], 18⟩, ⟨1, 64, 82⟩, ⟨82, 82, 82⟩, ⟨[82, 82, 82, (-46), (-46)], (-29), (-17), (-1), 42⟩, (42, 57)⟩ : FilterChainModel) := by decide

theorem st256_s62 : stConst 256 62 = (⟨⟨256, 0, 256, 256⟩, ⟨241, 15⟩, ⟨[15, 15, 15, 15, 15, 15, 15], 18⟩, ⟨1, 64, 82⟩, ⟨82, 82, 82⟩, ⟨[82, 82, 82, (-46), (-46)], (-29), (-17), (-1), 42⟩, (42, 57)⟩ : FilterChainModel) :=
  Eq.trans (stConst_succ 256 61) (Eq.trans (congrArg (clockS 256) st256_s61) st256_c62)

theorem st256_c63 : clockS 256 (⟨⟨256, 0, 256, 256⟩, ⟨241, 15⟩, ⟨[15, 15, 15, 15, 15, 15, 15], 18⟩, ⟨1, 64, 82⟩, ⟨82, 82, 82⟩, ⟨[82, 82, 82, (-46), (-46)], (-29), (-17), (-1), 42⟩, (42, 57)⟩ : FilterChainModel) = (⟨⟨256, 0, 256, 256⟩, ⟨241, 15⟩, ⟨[15, 15, 15, 15, 15, 15, 15], 18⟩, ⟨1, 64, (-46)⟩, ⟨(-46), 82, (-46)⟩, ⟨[(-46), 82, 82, 82, (-46)], 354, (-3), (-17), (-1)⟩, ((-1), 42)⟩ : FilterChainModel) := by decide

theorem st256_s63 : stConst 256 63 = (⟨⟨256, 0, 256, 256⟩, ⟨241, 15⟩, ⟨[15, 15, 15, 15, 15, 15, 15], 18⟩, ⟨1, 64, (-46)⟩, ⟨(-46), 82, (-46)⟩, ⟨[(-46), 82, 82, 82, (-46)], 354, (-3), (-17), (-1)⟩, ((-1), 42)⟩ : FilterChainModel) :=
  Eq.trans (stConst_succ 256 62) (Eq.trans (congrArg (clockS 256) st256_s62) st256_c63)

theorem st256_c64 : clockS 256 (⟨⟨256, 0, 256, 256⟩, ⟨241, 15⟩, ⟨[15, 15, 15, 15, 15, 15, 15], 18⟩, ⟨1, 64, (-46)⟩, ⟨(-46), 82, (-46)⟩, ⟨[(-46), 82, 82, 82, (-46)], 354, (-3), (-17), (-1)⟩, ((-1), 42)⟩ : FilterChainModel) = (⟨⟨256, 0, 256, 256⟩, ⟨241, 15⟩, ⟨[15, 15, 15, 15, 15, 15, 15], 18⟩, ⟨(-1), 64, (-46)⟩, ⟨(-46), (-46), (-46)⟩, ⟨[(-46), (-46), 82, 82, 82], 482, 39, (-3), (-17)⟩, ((-17), (-1))⟩ : FilterChainModel) := by decide

theorem st256_s64 : stConst 256 64 = (⟨⟨256, 0, 256, 256⟩, ⟨241, 15⟩, ⟨[15, 15, 15, 15, 15, 15, 15], 18⟩, ⟨(-1), 64, (-46)⟩, ⟨(-46), (-46), (-46)⟩, ⟨[(-46), (-46), 82, 82, 82], 482, 39, (-3), (-17)⟩, ((-17), (-1))⟩ : FilterChainModel) :=
  Eq.trans (stConst_succ 256 63) (Eq.trans (congrArg (clockS 256) st256_s63) st256_c64)

theorem st256_c65 : clockS 256 (⟨⟨256, 0, 256, 256⟩, ⟨241, 15⟩, ⟨[15, 15, 15, 15, 15, 15, 15], 18⟩, ⟨(-1), 64, (-46)⟩, ⟨(-46), (-46), (-46)⟩, ⟨[(-46), (-46), 82, 82, 82], 482, 39, (-3), (-17)⟩, ((-17), (-1))⟩ : FilterChainModel) = (⟨⟨256, 0, 256, 256⟩, ⟨241, 15⟩, ⟨[15, 15, 15, 15, 15, 15, 15], 18⟩, ⟨(-1), (-64), (-46)⟩, ⟨(-46), (-46), (-46)⟩, ⟨[(-46), (-46), (-46), 82, 82], 354, 53, 39, (-3)⟩, ((-3), (-17))⟩ : FilterChainModel) := by decide

theorem st256_s65 : stConst 256 65 = (⟨⟨256, 0, 256, 256⟩, ⟨241, 15⟩, ⟨[15, 15, 15, 15, 15, 15, 15], 18⟩, ⟨(-1), (-64), (-46)⟩, ⟨(-46), (-46), (-46)⟩, ⟨[(-46), (-46), (-46), 82, 82], 354, 53, 39, (-3)⟩, ((-3), (-17))⟩ : FilterChainModel) :=
  Eq.trans (stConst_succ 256 64) (Eq.trans (congrArg (clockS 256) st256_s64) st256_c65)

theorem st256_c66 : clockS 256 (⟨⟨256, 0, 256, 256⟩, ⟨241, 15⟩, ⟨[15, 15, 15, 15, 15, 15, 15], 18⟩, ⟨(-1), (-64), (-46)⟩, ⟨(-46), (-46), (-46)⟩, ⟨[(-46), (-46), (-46), 82, 82], 354, 53, 39, (-3)⟩, ((-3), (-17))⟩ : FilterChainModel) = (⟨⟨256, 0, 256, 256⟩, ⟨241, 15⟩, ⟨[15, 15, 15, 15, 15, 15, 15], 18⟩, ⟨(-1), (-64), 82⟩, ⟨82, (-46), 82⟩, ⟨[82, (-46), (-46), (-46), 82], (-30), 39, 53, 39⟩, (39, (-3))⟩ : FilterChainModel) := by decide

theorem st256_s66 : stConst 256 66 = (⟨⟨256, 0, 256, 256⟩, ⟨241, 15⟩, ⟨[15, 15, 15, 15, 15, 15, 15], 18⟩, ⟨(-1), (-64), 82⟩, ⟨82, (-46), 82⟩, ⟨[82, (-46), (-46), (-46), 82], (-30), 39, 53, 39⟩, (39, (-3))⟩ : FilterChainModel) :=
  Eq.trans (stConst_succ 256 65) (Eq.trans (congrArg (clockS 256) st256_s65) st256_c66)

theorem st256_c67 : clockS 256 (⟨⟨256, 0, 256, 256⟩, ⟨241, 15⟩, ⟨[15, 15, 15, 15, 15, 15, 15], 18⟩, ⟨(-1), (-64), 82⟩, ⟨82, (-46), 82⟩, ⟨[82, (-46), (-46), (-46), 82], (-30), 39, 53, 39⟩, (39, (-3))⟩ : FilterChainModel) = (⟨⟨256, 0, 256, 256⟩, ⟨241, 15⟩, ⟨[15, 15, 15, 15, 15, 15, 15], 18⟩, ⟨1, (-64), 82⟩, ⟨82, 82, 82⟩, ⟨[82, 82, (-46), (-46), (-46)], (-158), (-3), 39, 53⟩, (53, 39)⟩ : FilterChainModel) := by decide

theorem st256_s67 : stConst 256 67 = (⟨⟨256, 0, 256, 256⟩, ⟨241, 15⟩, ⟨[15, 15, 15, 15, 15, 15, 15], 18⟩, ⟨1, (-64), 82⟩, ⟨82, 82, 82⟩, ⟨[82, 82, (-46), (-46), (-46)], (-158), (-3), 39, 53⟩, (53, 39)⟩ : FilterChainModel) :=
  Eq.trans (stConst_succ 256 66) (Eq.trans (congrArg (clockS 256) st256_s66) st256_c67)

theorem st256_c68 : clockS 256 (⟨⟨256, 0, 256, 256⟩, ⟨241, 15⟩, ⟨[15, 15, 15, 15, 15, 15, 15], 18⟩, ⟨1, (-64), 82⟩, ⟨82, 82, 82⟩, ⟨[82, 82, (-46), (-46), (-46)], (-158), (-3), 39, 53⟩, (53, 39)⟩ : FilterChainModel) = (⟨⟨256, 0, 256, 256⟩, ⟨241, 15⟩, ⟨[15, 15, 15, 15, 15, 15, 15], 18⟩, ⟨1, 64, 82⟩, ⟨82, 82, 82⟩, ⟨[82, 82, 82, (-46), (-46)], (-30), (-17), (-3), 39⟩, (39, 53)⟩ : FilterChainModel) := by decide

theorem st256_s68 : stConst 256 68 = (⟨⟨256, 0, 256, 256⟩, ⟨241, 15⟩, ⟨[15, 15, 15, 15, 15, 15, 15], 18⟩, ⟨1, 64, 82⟩, ⟨82, 82, 82⟩, ⟨[82, 82, 82, (-46), (-46)], (-30), (-17), (-3), 39⟩, (39, 53)⟩ : FilterChainModel) :=
  Eq.trans (stConst_succ 256 67) (Eq.trans (congrArg (clockS 256) st256_s67) st256_c68)

theorem st256_c69 : clockS 256 (⟨⟨256, 0, 256, 256⟩, ⟨241, 15⟩, ⟨[15, 15, 15, 15, 15, 15, 15], 18⟩, ⟨1, 64, 82⟩, ⟨82, 82, 82⟩, ⟨[82, 82, 82, (-46), (-46)], (-30), (-17), (-3), 39⟩, (39, 53)⟩ : FilterChainModel) = (⟨⟨256, 0, 256, 256⟩, ⟨241, 15⟩, ⟨[15, 15, 15, 15, 15, 15, 15], 18⟩, ⟨1, 64, (-46)⟩, ⟨(-46), 82, (-46)⟩, ⟨[(-46), 82, 82, 82, (-46)], 354, (-3), (-17), (-3)⟩, ((-3), 39)⟩ : FilterChainModel) := by decide

theorem st256_s69 : stConst 256 69 = (⟨⟨256, 0, 256, 256⟩, ⟨241, 15⟩, ⟨[15, 15, 15, 15, 15, 15, 15], 18⟩, ⟨1, 64, (-46)⟩, ⟨(-46), 82, (-46)⟩, ⟨[(-46), 82, 82, 82, (-46)], 354, (-3), (-17), (-3)⟩, ((-3), 39)⟩ : FilterChainModel) :=
  Eq.trans (stConst_succ 256 68) (Eq.trans (congrArg (clockS 256) st256_s68) st256_c69)

theorem st256_c70 : clockS 256 (⟨⟨256, 0, 256, 256⟩, ⟨241, 15⟩, ⟨[15, 15, 15, 15, 15, 15, 15], 18⟩, ⟨1, 64, (-46)⟩, ⟨(-46), 82, (-46)⟩, ⟨[(-46), 82, 82, 82, (-46)], 354, (-3), (-17), (-3)⟩, ((-3), 39)⟩ : FilterChainModel) = (⟨⟨256, 0, 256, 256⟩, ⟨241, 15⟩, ⟨[15, 15, 15, 15, 15, 15, 15], 18⟩, ⟨(-1), 64, (-46)⟩, ⟨(-46), (-46), (-46)⟩, ⟨[(-46), (-46), 82, 82, 82], 482, 39, (-3), (-17)⟩, ((-17), (-3))⟩ : FilterChainModel) := by decide

theorem st256_s70 : stConst 256 70 = (⟨⟨256, 0, 256, 256⟩, ⟨241, 15⟩, ⟨[15, 15, 15, 15, 15, 15, 15], 18⟩, ⟨(-1), 64, (-46)⟩, ⟨(-46), (-46), (-46)⟩, ⟨[(-46), (-46), 82, 82, 82], 482, 39, (-3), (-17)⟩, ((-17), (-3))⟩ : FilterChainModel) :=
  Eq.trans (stConst_succ 256 69) (Eq.trans (congrArg (clockS 256) st256_s69) st256_c70)

theorem st256_c71 : clockS 256 (⟨⟨256, 0, 256, 256⟩, ⟨241, 15⟩, ⟨[15, 15, 15, 15, 15, 15, 15], 18⟩, ⟨(-1), 64, (-46)⟩, ⟨(-46), (-46), (-46)⟩, ⟨[(-46), (-46), 82, 82, 82], 482, 39, (-3), (-17)⟩, ((-17), (-3))⟩ : FilterChainModel) = (⟨⟨256, 0, 256, 256⟩, ⟨241, 15⟩, ⟨[15, 15, 15, 15, 15, 15, 15], 18⟩, ⟨(-1), (-64), (-46)⟩, ⟨(-46), (-46), (-46)⟩, ⟨[(-46), (-46), (-46), 82, 82], 354, 53, 39, (-3)⟩, ((-3), (-17))⟩ : FilterChainModel) := by decide

theorem st256_s71 : stConst 256 71 = (⟨⟨256, 0, 256, 256⟩, ⟨241, 15⟩, ⟨[15, 15, 15, 15, 15, 15, 15], 18⟩, ⟨(-1), (-64), (-46)⟩, ⟨(-46), (-46), (-46)⟩, ⟨[(-46), (-46), (-46), 82, 82], 354, 53, 39, (-3)⟩, ((-3), (-17))⟩ : FilterChainModel) :=
  Eq.trans (stConst_succ 256 70) (Eq.trans (congrArg (clockS 256) st256_s70) st256_c71)

theorem st256_c72 : clockS 256 (⟨⟨256, 0, 256, 256⟩, ⟨241, 15⟩, ⟨[15, 15, 15, 15, 15, 15, 15], 18⟩, ⟨(-1), (-64), (-46)⟩, ⟨(-46), (-46), (-46)⟩, ⟨[(-46), (-46), (-46), 82, 82], 354, 53, 39, (-3)⟩, ((-3), (-17))⟩ : FilterChainModel) = (⟨⟨256, 0, 256, 256⟩, ⟨241, 15⟩, ⟨[15, 15, 15, 15, 15, 15, 15], 18⟩, ⟨(-1), (-64), 82⟩, ⟨82, (-46), 82⟩, ⟨[82, (-46), (-46), (-46), 82], (-30), 39, 53, 39⟩, (39, (-3))⟩ : FilterChainModel) := by decide

theorem st256_s72 : stConst 256 72 = (⟨⟨256, 0, 256, 256⟩, ⟨241, 15⟩, ⟨[15, 15, 15, 15, 15, 15, 15], 18⟩, ⟨(-1), (-64), 82⟩, ⟨82, (-46), 82⟩, ⟨[82, (-46), (-46), (-46), 82], (-30), 39, 53, 39⟩, (39, (-3))⟩ : FilterChainModel) :=
  Eq.trans (stConst_succ 256 71) (Eq.trans (congrArg (clockS 256) st256_s71) st256_c72)

theorem st256_c73 : clockS 256 (⟨⟨256, 0, 256, 256⟩, ⟨241, 15⟩, ⟨[15, 15, 15, 15, 15, 15, 15], 18⟩, ⟨(-1), (-64), 82⟩, ⟨82, (-46), 82⟩, ⟨[82, (-46), (-46), (-46), 82], (-30), 39, 53, 39⟩, (39, (-3))⟩ : FilterChainModel) = (⟨⟨256, 0, 256, 256⟩, ⟨241, 15⟩, ⟨[15, 15, 15, 15, 15, 15, 15], 18⟩, ⟨1, (-64), 82⟩, ⟨82, 82, 82⟩, ⟨[82, 82, (-46), (-46), (-46)], (-158), (-3), 39, 53⟩, (53, 39)⟩ : FilterChainModel) := by decide

theorem st256_s73 : stConst 256 73 = (⟨⟨256, 0, 256, 256⟩, ⟨241, 15⟩, ⟨[15, 15, 15, 15, 15, 15, 15], 18⟩, ⟨1, (-64), 82⟩, ⟨82, 82, 82⟩, ⟨[82, 82, (-46), (-46), (-46)], (-158), (-3), 39, 53⟩, (53, 39)⟩ : FilterChainModel) :=
  Eq.trans (stConst_succ 256 72) (Eq.trans (congrArg (clockS 256) st256_s72) st256_c73)

theorem st256_c74 : clockS 256 (⟨⟨256, 0, 256, 256⟩, ⟨241, 15⟩, ⟨[15, 15, 15, 15, 15, 15, 15], 18⟩, ⟨1, (-64), 82⟩, ⟨82, 82, 82⟩, ⟨[82, 82, (-46), (-46), (-46)], (-158), (-3), 39, 53⟩, (53, 39)⟩ : FilterChainModel) = (⟨⟨256, 0, 256, 256⟩, ⟨241, 15⟩, ⟨[15, 15, 15, 15, 15, 15, 15], 18⟩, ⟨1, 64, 82⟩, ⟨82, 82, 82⟩, ⟨[82, 82, 82, (-46), (-46)], (-30), (-17), (-3), 39⟩, (39, 53)⟩ : FilterChainModel) := by decide

theorem st256_s74 : stConst 256 74 = (⟨⟨256, 0, 256, 256⟩, ⟨241, 15⟩, ⟨[15, 15, 15, 15, 15, 15, 15], 18⟩, ⟨1, 64, 82⟩, ⟨82, 82, 82⟩, ⟨[82, 82, 82, (-46), (-46)], (-30), (-17), (-3), 39⟩, (39, 53)⟩ : FilterChainModel) :=
  Eq.trans (stConst_succ 256 73) (Eq.trans (congrArg (clockS 256) st256_s73) st256_c74)

theorem st256_c75 : clockS 256 (⟨⟨256, 0, 256, 256⟩, ⟨241, 15⟩, ⟨[15, 15, 15, 15, 15, 15, 15], 18⟩, ⟨1, 64, 82⟩, ⟨82, 82, 82⟩, ⟨[82, 82, 82, (-46), (-46)], (-30), (-17), (-3), 39⟩, (39, 53)⟩ : FilterChainModel) = (⟨⟨256, 0, 256, 256⟩, ⟨241, 15⟩, ⟨[15, 15, 15, 15, 15, 15, 15], 18⟩, ⟨1, 64, (-46)⟩, ⟨(-46), 82, (-46)⟩, ⟨[(-46), 82, 82, 82, (-46)], 354, (-3), (-17), (-3)⟩, ((-3), 39)⟩ : FilterChainModel) := by decide

theorem st256_s75 : stConst 256 75 = (⟨⟨256, 0, 256, 256⟩, ⟨241, 15⟩, ⟨[15, 15, 15, 15, 15, 15, 15], 18⟩, ⟨1, 64, (-46)⟩, ⟨(-46), 82, (-46)⟩, ⟨[(-46), 82, 82, 82, (-46)], 354, (-3), (-17), (-3)⟩, ((-3), 39)⟩ : FilterChainModel) :=
  Eq.trans (stConst_succ 256 74) (Eq.trans (congrArg (clockS 256) st256_s74) st256_c75)

theorem st256_c76 : clockS 256 (⟨⟨256, 0, 256, 256⟩, ⟨241, 15⟩, ⟨[15, 15, 15, 15, 15, 15, 15], 18⟩, ⟨1, 64, (-46)⟩, ⟨(-46), 82, (-46)⟩, ⟨[(-46), 82, 82, 82, (-46)], 354, (-3), (-17), (-3)⟩, ((-3), 39)⟩ : FilterChainModel) = (⟨⟨256, 0, 256, 256⟩, ⟨241, 15⟩, ⟨[15, 15, 15, 15, 15, 15, 15], 18⟩, ⟨(-1), 64, (-46)⟩, ⟨(-46), (-46), (-46)⟩, ⟨[(-46), (-46), 82, 82, 82], 482, 39, (-3), (-17)⟩, ((-17), (-3))⟩ : FilterChainModel) := by decide

theorem st256_s76 : stConst 256 76 = (⟨⟨256, 0, 256, 256⟩, ⟨241, 15⟩, ⟨[15, 15, 15, 15, 15, 15, 15], 18⟩, ⟨(-1), 64, (-46)⟩, ⟨(-46), (-46), (-46)⟩, ⟨[(-46), (-46), 82, 82, 82], 482, 39, (-3), (-17)⟩, ((-17), (-3))⟩ : FilterChainModel) :=
  Eq.trans (stConst_succ 256 75) (Eq.trans (congrArg (clockS 256) st256_s75) st256_c76)

theorem st256_c77 : clockS 256 (⟨⟨256, 0, 256, 256⟩, ⟨241, 15⟩, ⟨[15, 15, 15, 15, 15, 15, 15], 18⟩, ⟨(-1), 64, (-46)⟩, ⟨(-46), (-46), (-46)⟩, ⟨[(-46), (-46), 82, 82, 82], 482, 39, (-3), (-17)⟩, ((-17), (-3))⟩ : FilterChainModel) = (⟨⟨256, 0, 256, 256⟩, ⟨241, 15⟩, ⟨[15, 15, 15, 15, 15, 15, 15], 18⟩, ⟨(-1), (-64), (-46)⟩, ⟨(-46), (-46), (-46)⟩, ⟨[(-46), (-46), (-46), 82, 82], 354, 53, 39, (-3)⟩, ((-3), (-17))⟩ : FilterChainModel) := by decide

theorem st256_s77 : stConst 256 77 = (⟨⟨256, 0, 256, 256⟩, ⟨241, 15⟩, ⟨[15, 15, 15, 15, 15, 15, 15], 18⟩, ⟨(-1), (-64), (-46)⟩, ⟨(-46), (-46), (-46)⟩, ⟨[(-46), (-46), (-46), 82, 82], 354, 53, 39, (-3)⟩, ((-3), (-17))⟩ : FilterChainModel) :=
  Eq.trans (stConst_succ 256 76) (Eq.trans (congrArg (clockS 256) st256_s76) st256_c77)

theorem st256_c78 : clockS 256 (⟨⟨256, 0, 256, 256⟩, ⟨241, 15⟩, ⟨[15, 15, 15, 15, 15, 15, 15], 18⟩, ⟨(-1), (-64), (-46)⟩, ⟨(-46), (-46), (-46)⟩, ⟨[(-46), (-46), (-46), 82, 82], 354, 53, 39, (-3)⟩, ((-3), (-17))⟩ : FilterChainModel) = (⟨⟨256, 0, 256, 256⟩, ⟨241, 15⟩, ⟨[15, 15, 15, 15, 15, 15, 15], 18⟩, ⟨(-1), (-64), 82⟩, ⟨82, (-46), 82⟩, ⟨[82, (-46), (-46), (-46), 82], (-30), 39, 53, 39⟩, (39, (-3))⟩ : FilterChainModel) := by decide

theorem st256_s78 : stConst 256 78 = (⟨⟨256, 0, 256, 256⟩, ⟨241, 15⟩, ⟨[15, 15, 15, 15, 15, 15, 15], 18⟩, ⟨(-1), (-64), 82⟩, ⟨82, (-46), 82⟩, ⟨[82, (-46), (-46), (-46), 82], (-30), 39, 53, 39⟩, (39, (-3))⟩ : FilterChainModel) :=
  Eq.trans (stConst_succ 256 77) (Eq.trans (congrArg (clockS 256) st256_s77) st256_c78)

theorem st256_c79 : clockS 256 (⟨⟨256, 0, 256, 256⟩, ⟨241, 15⟩, ⟨[15, 15, 15, 15, 15, 15, 15], 18⟩, ⟨(-1), (-64), 82⟩, ⟨82, (-46), 82⟩, ⟨[82, (-46), (-46), (-46), 82], (-30), 39, 53, 39⟩, (39, (-3))⟩ : FilterChainModel) = (⟨⟨256, 0, 256, 256⟩, ⟨241, 15⟩, ⟨[15, 15, 15, 15, 15, 15, 15], 18⟩, ⟨1, (-64), 82⟩, ⟨82, 82, 82⟩, ⟨[82, 82, (-46), (-46), (-46)], (-158), (-3), 39, 53⟩, (53, 39)⟩ : FilterChainModel) := by decide

theorem st256_s79 : stConst 256 79 = (⟨⟨256, 0, 256, 256⟩, ⟨241, 15⟩, ⟨[15, 15, 15, 15, 15, 15, 15], 18⟩, ⟨1, (-64), 82⟩, ⟨82, 82, 82⟩, ⟨[82, 82, (-46), (-46), (-46)], (-158), (-3), 39, 53⟩, (53, 39)⟩ : FilterChainModel) :=
  Eq.trans (stConst_succ 256 78) (Eq.trans (congrArg (clockS 256) st256_s78) st256_c79)

theorem st256_c80 : clockS 256 (⟨⟨256, 0, 256, 256⟩, ⟨241, 15⟩, ⟨[15, 15, 15, 15, 15, 15, 15], 18⟩, ⟨1, (-64), 82⟩, ⟨82, 82, 82⟩, ⟨[82, 82, (-46), (-46), (-46)], (-158), (-3), 39, 53⟩, (53, 39)⟩ : FilterChainModel) = (⟨⟨256, 0, 256, 256⟩, ⟨241, 15⟩, ⟨[15, 15, 15, 15, 15, 15, 15], 18⟩, ⟨1, 64, 82⟩, ⟨82, 82, 82⟩, ⟨[82, 82, 82, (-46), (-46)], (-30), (-17), (-3), 39⟩, (39, 53)⟩ : FilterChainModel) := by decide

theorem st256_s80 : stConst 256 80 = (⟨⟨256, 0, 256, 256⟩, ⟨241, 15⟩, ⟨[15, 15, 15, 15, 15, 15, 15], 18⟩, ⟨1, 64, 82⟩, ⟨82, 82, 82⟩, ⟨[82, 82, 82, (-46), (-46)], (-30), (-17), (-3), 39⟩, (39, 53)⟩ : FilterChainModel) :=
  Eq.trans (stConst_succ 256 79) (Eq.trans (congrArg (clockS 256) st256_s79) st256_c80)

theorem st256_c81 : clockS 256 (⟨⟨256, 0, 256, 256⟩, ⟨241, 15⟩, ⟨[15, 15, 15, 15, 15, 15, 15], 18⟩, ⟨1, 64, 82⟩, ⟨82, 82, 82⟩, ⟨[82, 82, 82, (-46), (-46)], (-30), (-17), (-3), 39⟩, (39, 53)⟩ : FilterChainModel) = (⟨⟨256, 0, 256, 256⟩, ⟨241, 15⟩, ⟨[15, 15, 15, 15, 15, 15, 15], 18⟩, ⟨1, 64, (-46)⟩, ⟨(-46), 82, (-46)⟩, ⟨[(-46), 82, 82, 82, (-46)], 354, (-3), (-17), (-3)⟩, ((-3), 39)⟩ : FilterChainModel) := by decide

theorem st256_s81 : stConst 256 81 = (⟨⟨256, 0, 256, 256⟩, ⟨241, 15⟩, ⟨[15, 15, 15, 15, 15, 15, 15], 18⟩, ⟨1, 64, (-46)⟩, ⟨(-46), 82, (-46)⟩, ⟨[(-46), 82, 82, 82, (-46)], 354, (-3), (-17), (-3)⟩, ((-3), 39)⟩ : FilterChainModel) :=
  Eq.trans (stConst_succ 256 80) (Eq.trans (congrArg (clockS 256) st256_s80) st256_c81)

theorem st256_c82 : clockS 256 (⟨⟨256, 0, 256, 256⟩, ⟨241, 15⟩, ⟨[15, 15, 15, 15, 15, 15, 15], 18⟩, ⟨1, 64, (-46)⟩, ⟨(-46), 82, (-46)⟩, ⟨[(-46), 82, 82, 82, (-46)], 354, (-3), (-17), (-3)⟩, ((-3), 39)⟩ : FilterChainModel) = (⟨⟨256, 0, 256, 256⟩, ⟨241, 15⟩, ⟨[15, 15, 15, 15, 15, 15, 15], 18⟩, ⟨(-1), 64, (-46)⟩, ⟨(-46), (-46), (-46)⟩, ⟨[(-46), (-46), 82, 82, 82], 482, 39, (-3), (-17)⟩, ((-17), (-3))⟩ : FilterChainModel) := by decide

theorem st256_s82 : stConst 256 82 = (⟨⟨256, 0, 256, 256⟩, ⟨241, 15⟩, ⟨[15, 15, 15, 15, 15, 15, 15], 18⟩, ⟨(-1), 64, (-46)⟩, ⟨(-46), (-46), (-46)⟩, ⟨[(-46), (-46), 82, 82, 82], 482, 39, (-3), (-17)⟩, ((-17), (-3))⟩ : FilterChainModel) :=
  Eq.trans (stConst_succ 256 81) (Eq.trans (congrArg (clockS 256) st256_s81) st256_c82)

theorem st256_c83 : clockS 256 (⟨⟨256, 0, 256, 256⟩, ⟨241, 15⟩, ⟨[15, 15, 15, 15, 15, 15, 15], 18⟩, ⟨(-1), 64, (-46)⟩, ⟨(-46), (-46), (-46)⟩, ⟨[(-46), (-46), 82, 82, 82], 482, 39, (-3), (-17)⟩, ((-17), (-3))⟩ : FilterChainModel) = (⟨⟨256, 0, 256, 256⟩, ⟨241, 15⟩, ⟨[15, 15, 15, 15, 15, 15, 15], 18⟩, ⟨(-1), (-64), (-46)⟩, ⟨(-46), (-46), (-46)⟩, ⟨[(-46), (-46), (-46), 82, 82], 354, 53, 39, (-3)⟩, ((-3), (-17))⟩ : FilterChainModel) := by decide

theorem st256_s83 : stConst 256 83 = (⟨⟨256, 0, 256, 256⟩, ⟨241, 15⟩, ⟨[15, 15, 15, 15, 15, 15, 15], 18⟩, ⟨(-1), (-64), (-46)⟩, ⟨(-46), (-46), (-46)⟩, ⟨[(-46), (-46), (-46), 82, 82], 354, 53, 39, (-3)⟩, ((-3), (-17))⟩ : FilterChainModel) :=
  Eq.trans (stConst_succ 256 82) (Eq.trans (congrArg (clockS 256) st256_s82) st256_c83)

theorem st256_c84 : clockS 256 (⟨⟨256, 0, 256, 256⟩, ⟨241, 15⟩, ⟨[15, 15, 15, 15, 15, 15, 15], 18⟩, ⟨(-1), (-64), (-46)⟩, ⟨(-46), (-46), (-46)⟩, ⟨[(-46), (-46), (-46), 82, 82], 354, 53, 39, (-3)⟩, ((-3), (-17))⟩ : FilterChainModel) = (⟨⟨256, 0, 256, 256⟩, ⟨241, 15⟩, ⟨[15, 15, 15, 15, 15, 15, 15], 18⟩, ⟨(-1), (-64), 82⟩, ⟨82, (-46), 82⟩, ⟨[82, (-46), (-46), (-46), 82], (-30), 39, 53, 39⟩, (39, (-3))⟩ : FilterChainModel) := by decide

theorem st256_s84 : stConst 256 84 = (⟨⟨256, 0, 256, 256⟩, ⟨241, 15⟩, ⟨[15, 15, 15, 15, 15, 15, 15], 18⟩, ⟨(-1), (-64), 82⟩, ⟨82, (-46), 82⟩, ⟨[82, (-46), (-46), (-46), 82], (-30), 39, 53, 39⟩, (39, (-3))⟩ : FilterChainModel) :=
  Eq.trans (stConst_succ 256 83) (Eq.trans (congrArg (clockS 256) st256_s83) st256_c84)

theorem st256_c85 : clockS 256 (⟨⟨256, 0, 256, 256⟩, ⟨241, 15⟩, ⟨[15, 15, 15, 15, 15, 15, 15], 18⟩, ⟨(-1), (-64), 82⟩, ⟨82, (-46), 82⟩, ⟨[82, (-46), (-46), (-46), 82], (-30), 39, 53, 39⟩, (39, (-3))⟩ : FilterChainModel) = (⟨⟨256, 0, 256, 256⟩, ⟨241, 15⟩, ⟨[15, 15, 15, 15, 15, 15, 15], 18⟩, ⟨1, (-64), 82⟩, ⟨82, 82, 82⟩, ⟨[82, 82, (-46), (-46), (-46)], (-158), (-3), 39, 53⟩, (53, 39)⟩ : FilterChainModel) := by decide

theorem st256_s85 : stConst 256 85 = (⟨⟨256, 0, 256, 256⟩, ⟨241, 15⟩, ⟨[15, 15, 15, 15, 15, 15, 15], 18⟩, ⟨1, (-64), 82⟩, ⟨82, 82, 82⟩, ⟨[82, 82, (-46), (-46), (-46)], (-158), (-3), 39, 53⟩, (53, 39)⟩ : FilterChainModel) :=
  Eq.trans (stConst_succ 256 84) (Eq.trans (congrArg (clockS 256) st256_s84) st256_c85)

theorem st256_c86 : clockS 256 (⟨⟨256, 0, 256, 256⟩, ⟨241, 15⟩, ⟨[15, 15, 15, 15, 15, 15, 15], 18⟩, ⟨1, (-64), 82⟩, ⟨82, 82, 82⟩, ⟨[82, 82, (-46), (-46), (-46)], (-158), (-3), 39, 53⟩, (53, 39)⟩ : FilterChainModel) = (⟨⟨256, 0, 256, 256⟩, ⟨241, 15⟩, ⟨[15, 15, 15, 15, 15, 15, 15], 18⟩, ⟨1, 64, 82⟩, ⟨82, 82, 82⟩, ⟨[82, 82, 82, (-46), (-46)], (-30), (-17), (-3), 39⟩, (39, 53)⟩ : FilterChainModel) := by decide

theorem st256_s86 : stConst 256 86 = (⟨⟨256, 0, 256, 256⟩, ⟨241, 15⟩, ⟨[15, 15, 15, 15, 15, 15, 15], 18⟩, ⟨1, 64, 82⟩, ⟨82, 82, 82⟩, ⟨[82, 82, 82, (-46), (-46)], (-30), (-17), (-3), 39⟩, (39, 53)⟩ : FilterChainModel) :=
  Eq.trans (stConst_succ 256 85) (Eq.trans (congrArg (clockS 256) st256_s85) st256_c86)

theorem st256_c87 : clockS 256 (⟨⟨256, 0, 256, 256⟩, ⟨241, 15⟩, ⟨[15, 15, 15, 15, 15, 15, 15], 18⟩, ⟨1, 64, 82⟩, ⟨82, 82, 82⟩, ⟨[82, 82, 82, (-46), (-46)], (-30), (-17), (-3), 39⟩, (39, 53)⟩ : FilterChainModel) = (⟨⟨256, 0, 256, 256⟩, ⟨241, 15⟩, ⟨[15, 15, 15, 15, 15, 15, 15], 18⟩, ⟨1, 64, (-46)⟩, ⟨(-46), 82, (-46)⟩, ⟨[(-46), 82, 82, 82, (-46)], 354, (-3), (-17), (-3)⟩, ((-3), 39)⟩ : FilterChainModel) := by decide

theorem st256_s87 : stConst 256 87 = (⟨⟨256, 0, 256, 256⟩, ⟨241, 15⟩, ⟨[15, 15, 15, 15, 15, 15, 15], 18⟩, ⟨1, 64, (-46)⟩, ⟨(-46), 82, (-46)⟩, ⟨[(-46), 82, 82, 82, (-46)], 354, (-3), (-17), (-3)⟩, ((-3), 39)⟩ : FilterChainModel) :=
  Eq.trans (stConst_succ 256 86) (Eq.trans (congrArg (clockS 256) st256_s86) st256_c87)

theorem st256_c88 : clockS 256 (⟨⟨256, 0, 256, 256⟩, ⟨241, 15⟩, ⟨[15, 15, 15, 15, 15, 15, 15], 18⟩, ⟨1, 64, (-46)⟩, ⟨(-46), 82, (-46)⟩, ⟨[(-46), 82, 82, 82, (-46)], 354, (-3), (-17), (-3)⟩, ((-3), 39)⟩ : FilterChainModel) = (⟨⟨256, 0, 256, 256⟩, ⟨241, 15⟩, ⟨[15, 15, 15, 15, 15, 15, 15], 18⟩, ⟨(-1), 64, (-46)⟩, ⟨(-46), (-46), (-46)⟩, ⟨[(-46), (-46), 82, 82, 82], 482, 39, (-3), (-17)⟩, ((-17), (-3))⟩ : FilterChainModel) := by decide

theorem st256_s88 : stConst 256 88 = (⟨⟨256, 0, 256, 256⟩, ⟨241, 15⟩, ⟨[15, 15, 15, 15, 15, 15, 15], 18⟩, ⟨(-1), 64, (-46)⟩, ⟨(-46), (-46), (-46)⟩, ⟨[(-46), (-46), 82, 82, 82], 482, 39, (-3), (-17)⟩, ((-17), (-3))⟩ : FilterChainModel) :=
  Eq.trans (stConst_succ 256 87) (Eq.trans (congrArg (clockS 256) st256_s87) st256_c88)

theorem st256_c89 : clockS 256 (⟨⟨256, 0, 256, 256⟩, ⟨241, 15⟩, ⟨[15, 15, 15, 15, 15, 15, 15], 18⟩, ⟨(-1), 64, (-46)⟩, ⟨(-46), (-46), (-46)⟩, ⟨[(-46), (-46), 82, 82, 82], 482, 39, (-3), (-17)⟩, ((-17), (-3))⟩ : FilterChainModel) = (⟨⟨256, 0, 256, 256⟩, ⟨241, 15⟩, ⟨[15, 15, 15, 15, 15, 15, 15], 18⟩, ⟨(-1), (-64), (-46)⟩, ⟨(-46), (-46), (-46)⟩, ⟨[(-46), (-46), (-46), 82, 82], 354, 53, 39, (-3)⟩, ((-3), (-17))⟩ : FilterChainModel) := by decide

theorem st256_s89 : stConst 256 89 = (⟨⟨256, 0, 256, 256⟩, ⟨241, 15⟩, ⟨[15, 15, 15, 15, 15, 15, 15], 18⟩, ⟨(-1), (-64), (-46)⟩, ⟨(-46), (-46), (-46)⟩, ⟨[(-46), (-46), (-46), 82, 82], 354, 53, 39, (-3)⟩, ((-3), (-17))⟩ : FilterChainModel) :=
  Eq.trans (stConst_succ 256 88) (Eq.trans (congrArg (clockS 256) st256_s88) st256_c89)

theorem st256_c90 : clockS 256 (⟨⟨256, 0, 256, 256⟩, ⟨241, 15⟩, ⟨[15, 15, 15, 15, 15, 15, 15], 18⟩, ⟨(-1), (-64), (-46)⟩, ⟨(-46), (-46), (-46)⟩, ⟨[(-46), (-46), (-46), 82, 82], 354, 53, 39, (-3)⟩, ((-3), (-17))⟩ : FilterChainModel) = (⟨⟨256, 0, 256, 256⟩, ⟨241, 15⟩, ⟨[15, 15, 15, 15, 15, 15, 15], 18⟩, ⟨(-1), (-64), 82⟩, ⟨82, (-46), 82⟩, ⟨[82, (-46), (-46), (-46), 82], (-30), 39, 53, 39⟩, (39, (-3))⟩ : FilterChainModel) := by decide

theorem st256_s90 : stConst 256 90 = (⟨⟨256, 0, 256, 256⟩, ⟨241, 15⟩, ⟨[15, 15, 15, 15, 15, 15, 15], 18⟩, ⟨(-1), (-64), 82⟩, ⟨82, (-46), 82⟩, ⟨[82, (-46), (-46), (-46), 82], (-30), 39, 53, 39⟩, (39, (-3))⟩ : FilterChainModel) :=
  Eq.trans (stConst_succ 256 89) (Eq.trans (congrArg (clockS 256) st256_s89) st256_c90)

theorem st256_c91 : clockS 256 (⟨⟨256, 0, 256, 256⟩, ⟨241, 15⟩, ⟨[15, 15, 15, 15, 15, 15, 15], 18⟩, ⟨(-1), (-64), 82⟩, ⟨82, (-46), 82⟩, ⟨[82, (-46), (-46), (-46), 82], (-30), 39, 53, 39⟩, (39, (-3))⟩ : FilterChainModel) = (⟨⟨256, 0, 256, 256⟩, ⟨241, 15⟩, ⟨[15, 15, 15, 15, 15, 15, 15], 18⟩, ⟨1, (-64), 82⟩, ⟨82, 82, 82⟩, ⟨[82, 82, (-46), (-46), (-46)], (-158), (-3), 39, 53⟩, (53, 39)⟩ : FilterChainModel) := by decide

theorem st256_s91 : stConst 256 91 = (⟨⟨256, 0, 256, 256⟩, ⟨241, 15⟩, ⟨[15, 15, 15, 15, 15, 15, 15], 18⟩, ⟨1, (-64), 82⟩, ⟨82, 82, 82⟩, ⟨[82, 82, (-46), (-46), (-46)], (-158), (-3), 39, 53⟩, (53, 39)⟩ : FilterChainModel) :=
  Eq.trans (stConst_succ 256 90) (Eq.trans (congrArg (clockS 256) st256_s90) st256_c91)

theorem st256_c92 : clockS 256 (⟨⟨256, 0, 256, 256⟩, ⟨241, 15⟩, ⟨[15, 15, 15, 15, 15, 15, 15], 18⟩, ⟨1, (-64), 82⟩, ⟨82, 82, 82⟩, ⟨[82, 82, (-46), (-46), (-46)], (-158), (-3), 39, 53⟩, (53, 39)⟩ : FilterChainModel) = (⟨⟨256, 0, 256, 256⟩, ⟨241, 15⟩, ⟨[15, 15, 15, 15, 15, 15, 15], 18⟩, ⟨1, 64, 82⟩, ⟨82, 82, 82⟩, ⟨[82, 82, 82, (-46), (-46)], (-30), (-17), (-3), 39⟩, (39, 53)⟩ : FilterChainModel) := by decide

theorem st256_s92 : stConst 256 92 = (⟨⟨256, 0, 256, 256⟩, ⟨241, 15⟩, ⟨[15, 15, 15, 15, 15, 15, 15], 18⟩, ⟨1, 64, 82⟩, ⟨82, 82, 82⟩, ⟨[82, 82, 82, (-46), (-46)], (-30), (-17), (-3), 39⟩, (39, 53)⟩ : FilterChainModel) :=
  Eq.trans (stConst_succ 256 91) (Eq.trans (congrArg (clockS 256) st256_s91) st256_c92)

theorem st256_c93 : clockS 256 (⟨⟨256, 0, 256, 256⟩, ⟨241, 15⟩, ⟨[15, 15, 15, 15, 15, 15, 15], 18⟩, ⟨1, 64, 82⟩, ⟨82, 82, 82⟩, ⟨[82, 82, 82, (-46), (-46)], (-30), (-17), (-3), 39⟩, (39, 53)⟩ : FilterChainModel) = (⟨⟨256, 0, 256, 256⟩, ⟨241, 15⟩, ⟨[15, 15, 15, 15, 15, 15, 15], 18⟩, ⟨1, 64, (-46)⟩, ⟨(-46), 82, (-46)⟩, ⟨[(-46), 82, 82, 82, (-46)], 354, (-3), (-17), (-3)⟩, ((-3), 39)⟩ : FilterChainModel) := by decide

theorem st256_s93 : stConst 256 93 = (⟨⟨256, 0, 256, 256⟩, ⟨241, 15⟩, ⟨[15, 15, 15, 15, 15, 15, 15], 18⟩, ⟨1, 64, (-46)⟩, ⟨(-46), 82, (-46)⟩, ⟨[(-46), 82, 82, 82, (-46)], 354, (-3), (-17), (-3)⟩, ((-3), 39)⟩ : FilterChainModel) :=
  Eq.trans (stConst_succ 256 92) (Eq.trans (congrArg (clockS 256) st256_s92) st256_c93)

theorem st256_c94 : clockS 256 (⟨⟨256, 0, 256, 256⟩, ⟨241, 15⟩, ⟨[15, 15, 15, 15, 15, 15, 15], 18⟩, ⟨1, 64, (-46)⟩, ⟨(-46), 82, (-46)⟩, ⟨[(-46), 82, 82, 82, (-46)], 354, (-3), (-17), (-3)⟩, ((-3), 39)⟩ : FilterChainModel) = (⟨⟨256, 0, 256, 256⟩, ⟨241, 15⟩, ⟨[15, 15, 15, 15, 15, 15, 15], 18⟩, ⟨(-1), 64, (-46)⟩, ⟨(-46), (-46), (-46)⟩, ⟨[(-46), (-46), 82, 82, 82], 482, 39, (-3), (-17)⟩, ((-17), (-3))⟩ : FilterChainModel) := by decide

theorem st256_s94 : stConst 256 94 = (⟨⟨256, 0, 256, 256⟩, ⟨241, 15⟩, ⟨[15, 15, 15, 15, 15, 15, 15], 18⟩, ⟨(-1), 64, (-46)⟩, ⟨(-46), (-46), (-46)⟩, ⟨[(-46), (-46), 82, 82, 82], 482, 39, (-3), (-17)⟩, ((-17), (-3))⟩ : FilterChainModel) :=
  Eq.trans (stConst_succ 256 93) (Eq.trans (congrArg (clockS 256) st256_s93) st256_c94)

theorem st256_c95 : clockS 256 (⟨⟨256, 0, 256, 256⟩, ⟨241, 15⟩, ⟨[15, 15, 15, 15, 15, 15, 15], 18⟩, ⟨(-1), 64, (-46)⟩, ⟨(-46), (-46), (-46)⟩, ⟨[(-46), (-46), 82, 82, 82], 482, 39, (-3), (-17)⟩, ((-17), (-3))⟩ : FilterChainModel) = (⟨⟨256, 0, 256, 256⟩, ⟨241, 15⟩, ⟨[15, 15, 15, 15, 15, 15, 15], 18⟩, ⟨(-1), (-64), (-46)⟩, ⟨(-46), (-46), (-46)⟩, ⟨[(-46), (-46), (-46), 82, 82], 354, 53, 39, (-3)⟩, ((-3), (-17))⟩ : FilterChainModel) := by decide

theorem st256_s95 : stConst 256 95 = (⟨⟨256, 0, 256, 256⟩, ⟨241, 15⟩, ⟨[15, 15, 15, 15, 15, 15, 15], 18⟩, ⟨(-1), (-64), (-46)⟩, ⟨(-46), (-46), (-46)⟩, ⟨[(-46), (-46), (-46), 82, 82], 354, 53, 39, (-3)⟩, ((-3), (-17))⟩ : FilterChainModel) :=
  Eq.trans (stConst_succ 256 94) (Eq.trans (congrArg (clockS 256) st256_s94) st256_c95)

theorem st256_c96 : clockS 256 (⟨⟨256, 0, 256, 256⟩, ⟨241, 15⟩, ⟨[15, 15, 15, 15, 15, 15, 15], 18⟩, ⟨(-1), (-64), (-46)⟩, ⟨(-46), (-46), (-46)⟩, ⟨[(-46), (-46), (-46), 82, 82], 354, 53, 39, (-3)⟩, ((-3), (-17))⟩ : FilterChainModel) = (⟨⟨256, 0, 256, 256⟩, ⟨241, 15⟩, ⟨[15, 15, 15, 15, 15, 15, 15], 18⟩, ⟨(-1), (-64), 82⟩, ⟨82, (-46), 82⟩, ⟨[82, (-46), (-46), (-46), 82], (-30), 39, 53, 39⟩, (39, (-3))⟩ : FilterChainModel) := by decide

theorem st256_s96 : stConst 256 96 = (⟨⟨256, 0, 256, 256⟩, ⟨241, 15⟩, ⟨[15, 15, 15, 15, 15, 15, 15], 18⟩, ⟨(-1), (-64), 82⟩, ⟨82, (-46), 82⟩, ⟨[82, (-46), (-46), (-46), 82], (-30), 39, 53, 39⟩, (39, (-3))⟩ : FilterChainModel) :=
  Eq.trans (stConst_succ 256 95) (Eq.trans (congrArg (clockS 256) st256_s95) st256_c96)

theorem st256_c97 : clockS 256 (⟨⟨256, 0, 256, 256⟩, ⟨241, 15⟩, ⟨[15, 15, 15, 15, 15, 15, 15], 18⟩, ⟨(-1), (-64), 82⟩, ⟨82, (-46), 82⟩, ⟨[82, (-46), (-46), (-46), 82], (-30), 39, 53, 39⟩, (39, (-3))⟩ : FilterChainModel) = (⟨⟨256, 0, 256, 256⟩, ⟨241, 15⟩, ⟨[15, 15, 15, 15, 15, 15, 15], 18⟩, ⟨1, (-64), 82⟩, ⟨82, 82, 82⟩, ⟨[82, 82, (-46), (-46), (-46)], (-158), (-3), 39, 53⟩, (53, 39)⟩ : FilterChainModel) := by decide

theorem st256_s97 : stConst 256 97 = (⟨⟨256, 0, 256, 256⟩, ⟨241, 15⟩, ⟨[15, 15, 15, 15, 15, 15, 15], 18⟩, ⟨1, (-64), 82⟩, ⟨82, 82, 82⟩, ⟨[82, 82, (-46), (-46), (-46)], (-158), (-3), 39, 53⟩, (53, 39)⟩ : FilterChainModel) :=
  Eq.trans (stConst_succ 256 96) (Eq.trans (congrArg (clockS 256) st256_s96) st256_c97)

theorem st256_c98 : clockS 256 (⟨⟨256, 0, 256, 256⟩, ⟨241, 15⟩, ⟨[15, 15, 15, 15, 15, 15, 15], 18⟩, ⟨1, (-64), 82⟩, ⟨82, 82, 82⟩, ⟨[82, 82, (-46), (-46), (-46)], (-158), (-3), 39, 53⟩, (53, 39)⟩ : FilterChainModel) = (⟨⟨256, 0, 256, 256⟩, ⟨241, 15⟩, ⟨[15, 15, 15, 15, 15, 15, 15], 18⟩, ⟨1, 64, 82⟩, ⟨82, 82, 82⟩, ⟨[82, 82, 82, (-46), (-46)], (-30), (-17), (-3), 39⟩, (39, 53)⟩ : FilterChainModel) := by decide

theorem st256_s98 : stConst 256 98 = (⟨⟨256, 0, 256, 256⟩, ⟨241, 15⟩, ⟨[15, 15, 15, 15, 15, 15, 15], 18⟩, ⟨1, 64, 82⟩, ⟨82, 82, 82⟩, ⟨[82, 82, 82, (-46), (-46)], (-30), (-17), (-3), 39⟩, (39, 53)⟩ : FilterChainModel) :=
  Eq.trans (stConst_succ 256 97) (Eq.trans (congrArg (clockS 256) st256_s97) st256_c98)

theorem st256_c99 : clockS 256 (⟨⟨256, 0, 256, 256⟩, ⟨241, 15⟩, ⟨[15, 15, 15, 15, 15, 15, 15], 18⟩, ⟨1, 64, 82⟩, ⟨82, 82, 82⟩, ⟨[82, 82, 82, (-46), (-46)], (-30), (-17), (-3), 39⟩, (39, 53)⟩ : FilterChainModel) = (⟨⟨256, 0, 256, 256⟩, ⟨241, 15⟩, ⟨[15, 15, 15, 15, 15, 15, 15], 18⟩, ⟨1, 64, (-46)⟩, ⟨(-46), 82, (-46)⟩, ⟨[(-46), 82, 82, 82, (-46)], 354, (-3), (-17), (-3)⟩, ((-3), 39)⟩ : FilterChainModel) := by decide

theorem st256_s99 : stConst 256 99 = (⟨⟨256, 0, 256, 256⟩, ⟨241, 15⟩, ⟨[15, 15, 15, 15, 15, 15, 15], 18⟩, ⟨1, 64, (-46)⟩, ⟨(-46), 82, (-46)⟩, ⟨[(-46), 82, 82, 82, (-46)], 354, (-3), (-17), (-3)⟩, ((-3), 39)⟩ : FilterChainModel) :=
  Eq.trans (stConst_succ 256 98) (Eq.trans (congrArg (clockS 256) st256_s98) st256_c99)

theorem st256_c100 : clockS 256 (⟨⟨256, 0, 256, 256⟩, ⟨241, 15⟩, ⟨[15, 15, 15, 15, 15, 15, 15], 18⟩, ⟨1, 64, (-46)⟩, ⟨(-46), 82, (-46)⟩, ⟨[(-46), 82, 82, 82, (-46)], 354, (-3), (-17), (-3)⟩, ((-3), 39)⟩ : FilterChainModel) = (⟨⟨256, 0, 256, 256⟩, ⟨241, 15⟩, ⟨[15, 15, 15, 15, 15, 15, 15], 18⟩, ⟨(-1), 64, (-46)⟩, ⟨(-46), (-46), (-46)⟩, ⟨[(-46), (-46), 82, 82, 82], 482, 39, (-3), (-17)⟩, ((-17), (-3))⟩ : FilterChainModel) := by decide

theorem st256_s100 : stConst 256 100 = (⟨⟨256, 0, 256, 256⟩, ⟨241, 15⟩, ⟨[15, 15, 15, 15, 15, 15, 15], 18⟩, ⟨(-1), 64, (-46)⟩, ⟨(-46), (-46), (-46)⟩, ⟨[(-46), (-46), 82, 82, 82], 482, 39, (-3), (-17)⟩, ((-17), (-3))⟩ : FilterChainModel) :=
  Eq.trans (stConst_succ 256 99) (Eq.trans (congrArg (clockS 256) st256_s99) st256_c100)

theorem st256_c101 : clockS 256 (⟨⟨256, 0, 256, 256⟩, ⟨241, 15⟩, ⟨[15, 15, 15, 15, 15, 15, 15], 18⟩, ⟨(-1), 64, (-46)⟩, ⟨(-46), (-46), (-46)⟩, ⟨[(-46), (-46), 82, 82, 82], 482, 39, (-3), (-17)⟩, ((-17), (-3))⟩ : FilterChainModel) = (⟨⟨256, 0, 256, 256⟩, ⟨241, 15⟩, ⟨[15, 15, 15, 15, 15, 15, 15], 18⟩, ⟨(-1), (-64), (-46)⟩, ⟨(-46), (-46), (-46)⟩, ⟨[(-46), (-46), (-46), 82, 82], 354, 53, 39, (-3)⟩, ((-3), (-17))⟩ : FilterChainModel) := by decide

theorem st256_s101 : stConst 256 101 = (⟨⟨256, 0, 256, 256⟩, ⟨241, 15⟩, ⟨[15, 15, 15, 15, 15, 15, 15], 18⟩, ⟨(-1), (-64), (-46)⟩, ⟨(-46), (-46), (-46)⟩, ⟨[(-46), (-46), (-46), 82, 82], 354, 53, 39, (-3)⟩, ((-3), (-17))⟩ : FilterChainModel) :=
  Eq.trans (stConst_succ 256 100) (Eq.trans (congrArg (clockS 256) st256_s100) st256_c101)

theorem st256_c102 : clockS 256 (⟨⟨256, 0, 256, 256⟩, ⟨241, 15⟩, ⟨[15, 15, 15, 15, 15, 15, 15], 18⟩, ⟨(-1), (-64), (-46)⟩, ⟨(-46), (-46), (-46)⟩, ⟨[(-46), (-46), (-46), 82, 82], 354, 53, 39, (-3)⟩, ((-3), (-17))⟩ : FilterChainModel) = (⟨⟨256, 0, 256, 256⟩, ⟨241, 15⟩, ⟨[15, 15, 15, 15, 15, 15, 15], 18⟩, ⟨(-1), (-64), 82⟩, ⟨82, (-46), 82⟩, ⟨[82, (-46), (-46), (-46), 82], (-30), 39, 53, 39⟩, (39, (-3))⟩ : FilterChainModel) := by decide

theorem st256_s102 : stConst 256 102 = (⟨⟨256, 0, 256, 256⟩, ⟨241, 15⟩, ⟨[15, 15, 15, 15, 15, 15, 15], 18⟩, ⟨(-1), (-64), 82⟩, ⟨82, (-46), 82⟩, ⟨[82, (-46), (-46), (-46), 82], (-30), 39, 53, 39⟩, (39, (-3))⟩ : FilterChainModel) :=
  Eq.trans (stConst_succ 256 101) (Eq.trans (congrArg (clockS 256) st256_s101) st256_c102)

theorem st256_c103 : clockS 256 (⟨⟨256, 0, 256, 256⟩, ⟨241, 15⟩, ⟨[15, 15, 15, 15, 15, 15, 15], 18⟩, ⟨(-1), (-64), 82⟩, ⟨82, (-46), 82⟩, ⟨[82, (-46), (-46), (-46), 82], (-30), 39, 53, 39⟩, (39, (-3))⟩ : FilterChainModel) = (⟨⟨256, 0, 256, 256⟩, ⟨241, 15⟩, ⟨[15, 15, 15, 15, 15, 15, 15], 18⟩, ⟨1, (-64), 82⟩, ⟨82, 82, 82⟩, ⟨[82, 82, (-46), (-46), (-46)], (-158), (-3), 39, 53⟩, (53, 39)⟩ : FilterChainModel) := by decide

theorem st256_s103 : stConst 256 103 = (⟨⟨256, 0, 256, 256⟩, ⟨241, 15⟩, ⟨[15, 15, 15, 15, 15, 15, 15], 18⟩, ⟨1, (-64), 82⟩, ⟨82, 82, 82⟩, ⟨[82, 82, (-46), (-46), (-46)], (-158), (-3), 39, 53⟩, (53, 39)⟩ : FilterChainModel) :=
  Eq.trans (stConst_succ 256 102) (Eq.trans (congrArg (clockS 256) st256_s102) st256_c103)

theorem st256_c104 : clockS 256 (⟨⟨256, 0, 256, 256⟩, ⟨241, 15⟩, ⟨[15, 15, 15, 15, 15, 15, 15], 18⟩, ⟨1, (-64), 82⟩, ⟨82, 82, 82⟩, ⟨[82, 82, (-46), (-46), (-46)], (-158), (-3), 39, 53⟩, (53, 39)⟩ : FilterChainModel) = (⟨⟨256, 0, 256, 256⟩, ⟨241, 15⟩, ⟨[15, 15, 15, 15, 15, 15, 15], 18⟩, ⟨1, 64, 82⟩, ⟨82, 82, 82⟩, ⟨[82, 82, 82, (-46), (-46)], (-30), (-17), (-3), 39⟩, (39, 53)⟩ : FilterChainModel) := by decide

theorem st256_s104 : stConst 256 104 = (⟨⟨256, 0, 256, 256⟩, ⟨241, 15⟩, ⟨[15, 15, 15, 15, 15, 15, 15], 18⟩, ⟨1, 64, 82⟩, ⟨82, 82, 82⟩, ⟨[82, 82, 82, (-46), (-46)], (-30), (-17), (-3), 39⟩, (39, 53)⟩ : FilterChainModel) :=
  Eq.trans (stConst_succ 256 103) (Eq.trans (congrArg (clockS 256) st256_s103) st256_c104)

theorem st256_c105 : clockS 256 (⟨⟨256, 0, 256, 256⟩, ⟨241, 15⟩, ⟨[15, 15, 15, 15, 15, 15, 15], 18⟩, ⟨1, 64, 82⟩, ⟨82, 82, 82⟩, ⟨[82, 82, 82, (-46), (-46)], (-30), (-17), (-3), 39⟩, (39, 53)⟩ : FilterChainModel) = (⟨⟨256, 0, 256, 256⟩, ⟨241, 15⟩, ⟨[15, 15, 15, 15, 15, 15, 15], 18⟩, ⟨1, 64, (-46)⟩, ⟨(-46), 82, (-46)⟩, ⟨[(-46), 82, 82, 82, (-46)], 354, (-3), (-17), (-3)⟩, ((-3), 39)⟩ : FilterChainModel) := by decide

theorem st256_s105 : stConst 256 105 = (⟨⟨256, 0, 256, 256⟩, ⟨241, 15⟩, ⟨[15, 15, 15, 15, 15, 15, 15], 18⟩, ⟨1, 64, (-46)⟩, ⟨(-46), 82, (-46)⟩, ⟨[(-46), 82, 82, 82, (-46)], 354, (-3), (-17), (-3)⟩, ((-3), 39)⟩ : FilterChainModel) :=
  Eq.trans (stConst_succ 256 104) (Eq.trans (congrArg (clockS 256) st256_s104) st256_c105)

theorem st256_c106 : clockS 256 (⟨⟨256, 0, 256, 256⟩, ⟨241, 15⟩, ⟨[15, 15, 15, 15, 15, 15, 15], 18⟩, ⟨1, 64, (-46)⟩, ⟨(-46), 82, (-46)⟩, ⟨[(-46), 82, 82, 82, (-46)], 354, (-3), (-17), (-3)⟩, ((-3), 39)⟩ : FilterChainModel) = (⟨⟨256, 0, 256, 256⟩, ⟨241, 15⟩, ⟨[15, 15, 15, 15, 15, 15, 15], 18⟩, ⟨(-1), 64, (-46)⟩, ⟨(-46), (-46), (-46)⟩, ⟨[(-46), (-46), 82, 82, 82], 482, 39, (-3), (-17)⟩, ((-17), (-3))⟩ : FilterChainModel) := by decide

theorem st256_s106 : stConst 256 106 = (⟨⟨256, 0, 256, 256⟩, ⟨241, 15⟩, ⟨[15, 15, 15, 15, 15, 15, 15], 18⟩, ⟨(-1), 64, (-46)⟩, ⟨(-46), (-46), (-46)⟩, ⟨[(-46), (-46), 82, 82, 82], 482, 39, (-3), (-17)⟩, ((-17), (-3))⟩ : FilterChainModel) :=
  Eq.trans (stConst_succ 256 105) (Eq.trans (congrArg (clockS 256) st256_s105) st256_c106)

theorem st256_c107 : clockS 256 (⟨⟨256, 0, 256, 256⟩, ⟨241, 15⟩, ⟨[15, 15, 15, 15, 15, 15, 15], 18⟩, ⟨(-1), 64, (-46)⟩, ⟨(-46), (-46), (-46)⟩, ⟨[(-46), (-46), 82, 82, 82], 482, 39, (-3), (-17)⟩, ((-17), (-3))⟩ : FilterChainModel) = (⟨⟨256, 0, 256, 256⟩, ⟨241, 15⟩, ⟨[15, 15, 15, 15, 15, 15, 15], 18⟩, ⟨(-1), (-64), (-46)⟩, ⟨(-46), (-46), (-46)⟩, ⟨[(-46), (-46), (-46), 82, 82], 354, 53, 39, (-3)⟩, ((-3), (-17))⟩ : FilterChainModel) := by decide

theorem st256_s107 : stConst 256 107 = (⟨⟨256, 0, 256, 256⟩, ⟨241, 15⟩, ⟨[15, 15, 15, 15, 15, 15, 15], 18⟩, ⟨(-1), (-64), (-46)⟩, ⟨(-46), (-46), (-46)⟩, ⟨[(-46), (-46), (-46), 82, 82], 354, 53, 39, (-3)⟩, ((-3), (-17))⟩ : FilterChainModel) :=
  Eq.trans (stConst_succ 256 106) (Eq.trans (congrArg (clockS 256) st256_s106) st256_c107)

theorem st256_c108 : clockS 256 (⟨⟨256, 0, 256, 256⟩, ⟨241, 15⟩, ⟨[15, 15, 15, 15, 15, 15, 15], 18⟩, ⟨(-1), (-64), (-46)⟩, ⟨(-46), (-46), (-46)⟩, ⟨[(-46), (-46), (-46), 82, 82], 354, 53, 39, (-3)⟩, ((-3), (-17))⟩ : FilterChainModel) = (⟨⟨256, 0, 256, 256⟩, ⟨241, 15⟩, ⟨[15, 15, 15, 15, 15, 15, 15], 18⟩, ⟨(-1), (-64), 82⟩, ⟨82, (-46), 82⟩, ⟨[82, (-46), (-46), (-46), 82], (-30), 39, 53, 39⟩, (39, (-3))⟩ : FilterChainModel) := by decide

theorem st256_s108 : stConst 256 108 = (⟨⟨256, 0, 256, 256⟩, ⟨241, 15⟩, ⟨[15, 15, 15, 15, 15, 15, 15], 18⟩, ⟨(-1), (-64), 82⟩, ⟨82, (-46), 82⟩, ⟨[82, (-46), (-46), (-46), 82], (-30), 39, 53, 39⟩, (39, (-3))⟩ : FilterChainModel) :=
  Eq.trans (stConst_succ 256 107) (Eq.trans (congrArg (clockS 256) st256_s107) st256_c108)

theorem st256_c109 : clockS 256 (⟨⟨256, 0, 256, 256⟩, ⟨241, 15⟩, ⟨[15, 15, 15, 15, 15, 15, 15], 18⟩, ⟨(-1), (-64), 82⟩, ⟨82, (-46), 82⟩, ⟨[82, (-46), (-46), (-46), 82], (-30), 39, 53, 39⟩, (39, (-3))⟩ : FilterChainModel) = (⟨⟨256, 0, 256, 256⟩, ⟨241, 15⟩, ⟨[15, 15, 15, 15, 15, 15, 15], 18⟩, ⟨1, (-64), 82⟩, ⟨82, 82, 82⟩, ⟨[82, 82, (-46), (-46), (-46)], (-158), (-3), 39, 53⟩, (53, 39)⟩ : FilterChainModel) := by decide

theorem st256_s109 : stConst 256 109 = (⟨⟨256, 0, 256, 256⟩, ⟨241, 15⟩, ⟨[15, 15, 15, 15, 15, 15, 15], 18⟩, ⟨1, (-64), 82⟩, ⟨82, 82, 82⟩, ⟨[82, 82, (-46), (-46), (-46)], (-158), (-3), 39, 53⟩, (53, 39)⟩ : FilterChainModel) :=
  Eq.trans (stConst_succ 256 108) (Eq.trans (congrArg (clockS 256) st256_s108) st256_c109)

theorem st256_c110 : clockS 256 (⟨⟨256, 0, 256, 256⟩, ⟨241, 15⟩, ⟨[15, 15, 15, 15, 15, 15, 15], 18⟩, ⟨1, (-64), 82⟩, ⟨82, 82, 82⟩, ⟨[82, 82, (-46), (-46), (-46)], (-158), (-3), 39, 53⟩, (53, 39)⟩ : FilterChainModel) = (⟨⟨256, 0, 256, 256⟩, ⟨241, 15⟩, ⟨[15, 15, 15, 15, 15, 15, 15], 18⟩, ⟨1, 64, 82⟩, ⟨82, 82, 82⟩, ⟨[82, 82, 82, (-46), (-46)], (-30), (-17), (-3), 39⟩, (39, 53)⟩ : FilterChainModel) := by decide

theorem st256_s110 : stConst 256 110 = (⟨⟨256, 0, 256, 256⟩, ⟨241, 15⟩, ⟨[15, 15, 15, 15, 15, 15, 15], 18⟩, ⟨1, 64, 82⟩, ⟨82, 82, 82⟩, ⟨[82, 82, 82, (-46), (-46)], (-30), (-17), (-3), 39⟩, (39, 53)⟩ : FilterChainModel) :=
  Eq.trans (stConst_succ 256 109) (Eq.trans (congrArg (clockS 256) st256_s109) st256_c110)

theorem st256_c111 : clockS 256 (⟨⟨256, 0, 256, 256⟩, ⟨241, 15⟩, ⟨[15, 15, 15, 15, 15, 15, 15], 18⟩, ⟨1, 64, 82⟩, ⟨82, 82, 82⟩, ⟨[82, 82, 82, (-46), (-46)], (-30), (-17), (-3), 39⟩, (39, 53)⟩ : FilterChainModel) = (⟨⟨256, 0, 256, 256⟩, ⟨241, 15⟩, ⟨[15, 15, 15, 15, 15, 15, 15], 18⟩, ⟨1, 64, (-46)⟩, ⟨(-46), 82, (-46)⟩, ⟨[(-46), 82, 82, 82, (-46)], 354, (-3), (-17), (-3)⟩, ((-3), 39)⟩ : FilterChainModel) := by decide

theorem st256_s111 : stConst 256 111 = (⟨⟨256, 0, 256, 256⟩, ⟨241, 15⟩, ⟨[15, 15, 15, 15, 15, 15, 15], 18⟩, ⟨1, 64, (-46)⟩, ⟨(-46), 82, (-46)⟩, ⟨[(-46), 82, 82, 82, (-46)], 354, (-3), (-17), (-3)⟩, ((-3), 39)⟩ : FilterChainModel) :=
  Eq.trans (stConst_succ 256 110) (Eq.trans (congrArg (clockS 256) st256_s110) st256_c111)

theorem st256_c112 : clockS 256 (⟨⟨256, 0, 256, 256⟩, ⟨241, 15⟩, ⟨[15, 15, 15, 15, 15, 15, 15], 18⟩, ⟨1, 64, (-46)⟩, ⟨(-46), 82, (-46)⟩, ⟨[(-46), 82, 82, 82, (-46)], 354, (-3), (-17), (-3)⟩, ((-3), 39)⟩ : FilterChainModel) = (⟨⟨256, 0, 256, 256⟩, ⟨241, 15⟩, ⟨[15, 15, 15, 15, 15, 15, 15], 18⟩, ⟨(-1), 64, (-46)⟩, ⟨(-46), (-46), (-46)⟩, ⟨[(-46), (-46), 82, 82, 82], 482, 39, (-3), (-17)⟩, ((-17), (-3))⟩ : FilterChainModel) := by decide

theorem st256_s112 : stConst 256 112 = (⟨⟨256, 0, 256, 256⟩, ⟨241, 15⟩, ⟨[15, 15, 15, 15, 15, 15, 15], 18⟩, ⟨(-1), 64, (-46)⟩, ⟨(-46), (-46), (-46)⟩, ⟨[(-46), (-46), 82, 82, 82], 482, 39, (-3), (-17)⟩, ((-17), (-3))⟩ : FilterChainModel) :=
  Eq.trans (stConst_succ 256 111) (Eq.trans (congrArg (clockS 256) st256_s111) st256_c112)

theorem st256_c113 : clockS 256 (⟨⟨256, 0, 256, 256⟩, ⟨241, 15⟩, ⟨[15, 15, 15, 15, 15, 15, 15], 18⟩, ⟨(-1), 64, (-46)⟩, ⟨(-46), (-46), (-46)⟩, ⟨[(-46), (-46), 82, 82, 82], 482, 39, (-3), (-17)⟩, ((-17), (-3))⟩ : FilterChainModel) = (⟨⟨256, 0, 256, 256⟩, ⟨241, 15⟩, ⟨[15, 15, 15, 15, 15, 15, 15], 18⟩, ⟨(-1), (-64), (-46)⟩, ⟨(-46), (-46), (-46)⟩, ⟨[(-46), (-46), (-46), 82, 82], 354, 53, 39, (-3)⟩, ((-3), (-17))⟩ : FilterChainModel) := by decide

theorem st256_s113 : stConst 256 113 = (⟨⟨256, 0, 256, 256⟩, ⟨241, 15⟩, ⟨[15, 15, 15, 15, 15, 15, 15], 18⟩, ⟨(-1), (-64), (-46)⟩, ⟨(-46), (-46), (-46)⟩, ⟨[(-46), (-46), (-46), 82, 82], 354, 53, 39, (-3)⟩, ((-3), (-17))⟩ : FilterChainModel) :=
  Eq.trans (stConst_succ 256 112) (Eq.trans (congrArg (clockS 256) st256_s112) st256_c113)

theorem st256_c114 : clockS 256 (⟨⟨256, 0, 256, 256⟩, ⟨241, 15⟩, ⟨[15, 15, 15, 15, 15, 15, 15], 18⟩, ⟨(-1), (-64), (-46)⟩, ⟨(-46), (-46), (-46)⟩, ⟨[(-46), (-46), (-46), 82, 82], 354, 53, 39, (-3)⟩, ((-3), (-17))⟩ : FilterChainModel) = (⟨⟨256, 0, 256, 256⟩, ⟨241, 15⟩, ⟨[15, 15, 15, 15, 15, 15, 15], 18⟩, ⟨(-1), (-64), 82⟩, ⟨82, (-46), 82⟩, ⟨[82, (-46), (-46), (-46), 82], (-30), 39, 53, 39⟩, (39, (-3))⟩ : FilterChainModel) := by decide

theorem st256_s114 : stConst 256 114 = (⟨⟨256, 0, 256, 256⟩, ⟨241, 15⟩, ⟨[15, 15, 15, 15, 15, 15, 15], 18⟩, ⟨(-1), (-64), 82⟩, ⟨82, (-46), 82⟩, ⟨[82, (-46), (-46), (-46), 82], (-30), 39, 53, 39⟩, (39, (-3))⟩ : FilterChainModel) :=
  Eq.trans (stConst_succ 256 113) (Eq.trans (congrArg (clockS 256) st256_s113) st256_c114)

theorem st256_c115 : clockS 256 (⟨⟨256, 0, 256, 256⟩, ⟨241, 15⟩, ⟨[15, 15, 15, 15, 15, 15, 15], 18⟩, ⟨(-1), (-64), 82⟩, ⟨82, (-46), 82⟩, ⟨[82, (-46), (-46), (-46), 82], (-30), 39, 53, 39⟩, (39, (-3))⟩ : FilterChainModel) = (⟨⟨256, 0, 256, 256⟩, ⟨241, 15⟩, ⟨[15, 15, 15, 15, 15, 15, 15], 18⟩, ⟨1, (-64), 82⟩, ⟨82, 82, 82⟩, ⟨[82, 82, (-46), (-46), (-46)], (-158), (-3), 39, 53⟩, (53, 39)⟩ : FilterChainModel) := by decide

theorem st256_s115 : stConst 256 115 = (⟨⟨256, 0, 256, 256⟩, ⟨241, 15⟩, ⟨[15, 15, 15, 15, 15, 15, 15], 18⟩, ⟨1, (-64), 82⟩, ⟨82, 82, 82⟩, ⟨[82, 82, (-46), (-46), (-46)], (-158), (-3), 39, 53⟩, (53, 39)⟩ : FilterChainModel) :=
  Eq.trans (stConst_succ 256 114) (Eq.trans (congrArg (clockS 256) st256_s114) st256_c115)

theorem st256_c116 : clockS 256 (⟨⟨256, 0, 256, 256⟩, ⟨241, 15⟩, ⟨[15, 15, 15, 15, 15, 15, 15], 18⟩, ⟨1, (-64), 82⟩, ⟨82, 82, 82⟩, ⟨[82, 82, (-46), (-46), (-46)], (-158), (-3), 39, 53⟩, (53, 39)⟩ : FilterChainModel) = (⟨⟨256, 0, 256, 256⟩, ⟨241, 15⟩, ⟨[15, 15, 15, 15, 15, 15, 15], 18⟩, ⟨1, 64, 82⟩, ⟨82, 82, 82⟩, ⟨[82, 82, 82, (-46), (-46)], (-30), (-17), (-3), 39⟩, (39, 53)⟩ : FilterChainModel) := by decide

theorem st256_s116 : stConst 256 116 = (⟨⟨256, 0, 256, 256⟩, ⟨241, 15⟩, ⟨[15, 15, 15, 15, 15, 15, 15], 18⟩, ⟨1, 64, 82⟩, ⟨82, 82, 82⟩, ⟨[82, 82, 82, (-46), (-46)], (-30), (-17), (-3), 39⟩, (39, 53)⟩ : FilterChainModel) :=
  Eq.trans (stConst_succ 256 115) (Eq.trans (congrArg (clockS 256) st256_s115) st256_c116)

theorem st256_c117 : clockS 256 (⟨⟨256, 0, 256, 256⟩, ⟨241, 15⟩, ⟨[15, 15, 15, 15, 15, 15, 15], 18⟩, ⟨1, 64, 82⟩, ⟨82, 82, 82⟩, ⟨[82, 82, 82, (-46), (-46)], (-30), (-17), (-3), 39⟩, (39, 53)⟩ : FilterChainModel) = (⟨⟨256, 0, 256, 256⟩, ⟨241, 15⟩, ⟨[15, 15, 15, 15, 15, 15, 15], 18⟩, ⟨1, 64, (-46)⟩, ⟨(-46), 82, (-46)⟩, ⟨[(-46), 82, 82, 82, (-46)], 354, (-3), (-17), (-3)⟩, ((-3), 39)⟩ : FilterChainModel) := by decide

theorem st256_s117 : stConst 256 117 = (⟨⟨256, 0, 256, 256⟩, ⟨241, 15⟩, ⟨[15, 15, 15, 15, 15, 15, 15], 18⟩, ⟨1, 64, (-46)⟩, ⟨(-46), 82, (-46)⟩, ⟨[(-46), 82, 82, 82, (-46)], 354, (-3), (-17), (-3)⟩, ((-3), 39)⟩ : FilterChainModel) :=
  Eq.trans (stConst_succ 256 116) (Eq.trans (congrArg (clockS 256) st256_s116) st256_c117)

theorem st256_c118 : clockS 256 (⟨⟨256, 0, 256, 256⟩, ⟨241, 15⟩, ⟨[15, 15, 15, 15, 15, 15, 15], 18⟩, ⟨1, 64, (-46)⟩, ⟨(-46), 82, (-46)⟩, ⟨[(-46), 82, 82, 82, (-46)], 354, (-3), (-17), (-3)⟩, ((-3), 39)⟩ : FilterChainModel) = (⟨⟨256, 0, 256, 256⟩, ⟨241, 15⟩, ⟨[15, 15, 15, 15, 15, 15, 15], 18⟩, ⟨(-1), 64, (-46)⟩, ⟨(-46), (-46), (-46)⟩, ⟨[(-46), (-46), 82, 82, 82], 482, 39, (-3), (-17)⟩, ((-17), (-3))⟩ : FilterChainModel) := by decide

theorem st256_s118 : stConst 256 118 = (⟨⟨256, 0, 256, 256⟩, ⟨241, 15⟩, ⟨[15, 15, 15, 15, 15, 15, 15], 18⟩, ⟨(-1), 64, (-46)⟩, ⟨(-46), (-46), (-46)⟩, ⟨[(-46), (-46), 82, 82, 82], 482, 39, (-3), (-17)⟩, ((-17), (-3))⟩ : FilterChainModel) :=
  Eq.trans (stConst_succ 256 117) (Eq.trans (congrArg (clockS 256) st256_s117) st256_c118)

theorem st256_c119 : clockS 256 (⟨⟨256, 0, 256, 256⟩, ⟨241, 15⟩, ⟨[15, 15, 15, 15, 15, 15, 15], 18⟩, ⟨(-1), 64, (-46)⟩, ⟨(-46), (-46), (-46)⟩, ⟨[(-46), (-46), 82, 82, 82], 482, 39, (-3), (-17)⟩, ((-17), (-3))⟩ : FilterChainModel) = (⟨⟨256, 0, 256, 256⟩, ⟨241, 15⟩, ⟨[15, 15, 15, 15, 15, 15, 15], 18⟩, ⟨(-1), (-64), (-46)⟩, ⟨(-46), (-46), (-46)⟩, ⟨[(-46), (-46), (-46), 82, 82], 354, 53, 39, (-3)⟩, ((-3), (-17))⟩ : FilterChainModel) := by decide

theorem st256_s119 : stConst 256 119 = (⟨⟨256, 0, 256, 256⟩, ⟨241, 15⟩, ⟨[15, 15, 15, 15, 15, 15, 15], 18⟩, ⟨(-1), (-64), (-46)⟩, ⟨(-46), (-46), (-46)⟩, ⟨[(-46), (-46), (-46), 82, 82], 354, 53, 39, (-3)⟩, ((-3), (-17))⟩ : FilterChainModel) :=
  Eq.trans (stConst_succ 256 118) (Eq.trans (congrArg (clockS 256) st256_s118) st256_c119)

theorem st256_c120 : clockS 256 (⟨⟨256, 0, 256, 256⟩, ⟨241, 15⟩, ⟨[15, 15, 15, 15, 15, 15, 15], 18⟩, ⟨(-1), (-64), (-46)⟩, ⟨(-46), (-46), (-46)⟩, ⟨[(-46), (-46), (-46), 82, 82], 354, 53, 39, (-3)⟩, ((-3), (-17))⟩ : FilterChainModel) = (⟨⟨256, 0, 256, 256⟩, ⟨241, 15⟩, ⟨[15, 15, 15, 15, 15, 15, 15], 18⟩, ⟨(-1), (-64), 82⟩, ⟨82, (-46), 82⟩, ⟨[82, (-46), (-46), (-46), 82], (-30), 39, 53, 39⟩, (39, (-3))⟩ : FilterChainModel) := by decide

theorem st256_s120 : stConst 256 120 = (⟨⟨256, 0, 256, 256⟩, ⟨241, 15⟩, ⟨[15, 15, 15, 15, 15, 15, 15], 18⟩, ⟨(-1), (-64), 82⟩, ⟨82, (-46), 82⟩, ⟨[82, (-46), (-46), (-46), 82], (-30), 39, 53, 39⟩, (39, (-3))⟩ : FilterChainModel) :=
  Eq.trans (stConst_succ 256 119) (Eq.trans (congrArg (clockS 256) st256_s119) st256_c120)


/-! ### C1 -/

/-- C1 (counterexample): a freshly constructed `FilterChainModel` fed the
constant input 0 for 30 cycles does NOT return 0: the DFE maps its
zero-valued previous-output register to a +1 decision, which injects a
±64 feedback oscillation into the otherwise all-zero pipeline. -/
theorem c1_counterexample : (FilterChainModel.init.runSample 0).2 ≠ 0 := by decide

/-- C1 (amended): a freshly constructed `FilterChainModel` fed the constant
input 0 for 30 cycles returns 4075, the 12-bit unsigned masking of the
oscillating pipeline value -21 at the 30th tick. -/
theorem c1_amended : (FilterChainModel.init.runSample 0).2 = 4075 := by decide

/-! ### C2 -/

/-- C2 (code evaluated at the failing input): the FEC stage of
`FilterChainModel.clock` is a 1-cycle delay, not the documented 2-cycle
delay.  With the constant input 1000 from a fresh model, the value returned
by the clock call at tick 8 is -93, which equals the LPF output computed at
tick 7 (held in `(stConst 1000 8).lpf.dout`), and differs from the LPF
output computed at tick 6 (held in `(stConst 1000 7).lpf.dout`, namely -21)
that a pure 2-cycle delay would return; `fec_pipe[1]` is written but never
read. -/
theorem c2_eval :
    outConst 1000 8 = (stConst 1000 8).lpf.dout ∧
    (stConst 1000 8).lpf.dout = -93 ∧
    (stConst 1000 7).lpf.dout = -21 ∧
    outConst 1000 8 ≠ (stConst 1000 7).lpf.dout := by decide

/-! ### C3 -/

theorem st0_per18 : stConst 0 18 = stConst 0 12 := by rw [st0_s18, st0_s12]

/-- With constant input 0 the pipeline state is periodic with period 6 from
tick 12 on. -/
theorem st0_per {n : Nat} (hn : 12 ≤ n) : stConst 0 (n + 6) = stConst 0 n := by
  obtain ⟨k, rfl⟩ := Nat.exists_eq_add_of_le hn
  have e1 : 12 + k + 6 = k + 18 := by omega
  have e2 : 12 + k = k + 12 := by omega
  rw [e1, e2, stConst_add 0 k 18, stConst_add 0 k 12, st0_per18]

theorem st0_per_iter (k : Nat) (hk : 12 ≤ k) : ∀ j, stConst 0 (k + 6 * j) = stConst 0 k := by
  intro j
  induction j with
  | zero => rfl
  | succ i ih =>
    have e : k + 6 * (i + 1) = (k + 6 * i) + 6 := by omega
    rw [e, st0_per (by omega), ih]

/-- C3 (counterexample): with the 12-bit sample 0 held constant, the fresh
pipeline never reaches a fixed output value: there is no settling point
after which every further clock call returns the same value (the output
oscillates with period 6 forever, e.g. 21 at tick 12 vs -21 at tick 15). -/
theorem c3_counterexample :
    ¬ ∃ N : Nat, ∀ n : Nat, N ≤ n → outConst 0 n = outConst 0 N := by
  rintro ⟨N, h⟩
  have h12 : outConst 0 (12 + 6 * N) = 21 := by
    unfold outConst
    rw [st0_per_iter 12 (by omega) N, st0_s12]
    decide
  have h15 : outConst 0 (15 + 6 * N) = -21 := by
    unfold outConst
    rw [st0_per_iter 15 (by omega) N, st0_s15]
    decide
  have e12 := h (12 + 6 * N) (by omega)
  have e15 := h (15 + 6 * N) (by omega)
  rw [h12] at e12
  rw [h15] at e15
  omega

/-- C3 (amended): with the constant input 0 the fresh pipeline does not
settle; instead its per-tick output is eventually periodic: from tick 12 on,
the output 6 ticks later always equals the current output. -/
theorem c3_amended : ∀ n : Nat, 12 ≤ n → outConst 0 (n + 6) = outConst 0 n := by
  intro n hn
  unfold outConst
  rw [st0_per hn]

/-- Witness for C3 (amended) at the concrete tick 12. -/
theorem c3_amended_witness : 12 ≤ 12 ∧ outConst 0 (12 + 6) = outConst 0 12 :=
  ⟨by decide, c3_amended 12 (by decide)⟩

/-! ### C4 -/

theorem rsIter_fst : ∀ n : Nat, (rsIter n).1 = stConst 256 (30 * n) := by
  intro n
  induction n with
  | zero => rfl
  | succ k ih =>
    show ((rsIter k).1.runSample 256).1 = _
    rw [runSample_fst, ih, show 30 * (k + 1) = 30 + 30 * k by ring, stConst_add]

/-- C4 (counterexample): with input 0x100 = 256, calling `run_sample` a
second time on the instance left by the first call does not return the
first call's value (the first call returns 46, the second 3: after 30
cycles the DC-offset tracker is still converging and the DFE oscillation
never stops, so there is no settled output to reproduce). -/
theorem c4_counterexample :
    ((FilterChainModel.init.runSample 256).1.runSample 256).2 ≠
      (FilterChainModel.init.runSample 256).2 := by
  have h1 : (FilterChainModel.init.runSample 256).2 = 46 := by
    rw [runSample_snd]
    have e : (clockS 256)^[29] FilterChainModel.init = stConst 256 29 := rfl
    rw [e, st256_s29]
    decide
  have h2 : ((FilterChainModel.init.runSample 256).1.runSample 256).2 = 3 := by
    rw [runSample_snd, runSample_fst, ← Function.iterate_add_apply]
    have e : (clockS 256)^[29 + 30] FilterChainModel.init = stConst 256 59 := rfl
    rw [e, st256_s59]
    decide
  rw [h1, h2]
  decide

/-- The pipeline state after 90 constant-256 ticks is a fixed point of
`run_sample 256`, which returns 4093 from it. -/
theorem st256_fix : (stConst 256 90).runSample 256 = (stConst 256 90, 4093) := by
  have h1 : ((stConst 256 90).runSample 256).1 = stConst 256 90 := by
    rw [runSample_fst]
    have e : (clockS 256)^[30] (stConst 256 90) = stConst 256 120 :=
      (stConst_add 256 30 90).symm
    rw [e, st256_s120, ← st256_s90]
  have h2 : ((stConst 256 90).runSample 256).2 = 4093 := by
    rw [runSample_snd]
    have e : (clockS 256)^[29] (stConst 256 90) = stConst 256 119 :=
      (stConst_add 256 29 90).symm
    rw [e, st256_s119]
    decide
  exact Prod.ext h1 h2

theorem rsIter3_val : rsIter 3 = (stConst 256 90, 4093) := by
  have h1 : (rsIter 3).1 = stConst 256 90 := rsIter_fst 3
  have h2 : (rsIter 3).2 = 4093 := by
    show ((rsIter 2).1.runSample 256).2 = 4093
    have e2 : (rsIter 2).1 = stConst 256 60 := rsIter_fst 2
    rw [e2, runSample_snd]
    have e : (clockS 256)^[29] (stConst 256 60) = stConst 256 89 :=
      (stConst_add 256 29 60).symm
    rw [e, st256_s89]
    decide
  exact Prod.ext h1 h2

/-- C4 (amended): with input 0x100 = 256 the pipeline never reaches a single
settled output (it ends in a period-6 oscillation), and the first three
`run_sample` calls on one instance return 46, 3, 4093; but from the third
call onward `run_sample` is idempotent: every further call returns 4093 and
leaves the pipeline state unchanged. -/
theorem c4_amended : ∀ n : Nat, rsIter (n + 3) = ((rsIter 3).1, 4093) := by
  intro n
  induction n with
  | zero =>
    rw [rsIter3_val]
  | succ k ih =>
    show (rsIter (k + 3)).1.runSample 256 = ((rsIter 3).1, 4093)
    rw [ih]
    show (rsIter 3).1.runSample 256 = ((rsIter 3).1, 4093)
    have hM : (rsIter 3).1 = stConst 256 90 := rsIter_fst 3
    rw [hM, st256_fix]

/-! ### C5 -/

/-- C5: for every pipeline state and sample, `run_sample` returns exactly the
value of the 30th (= GOLDEN_CYCLES-th) successive `clock` call on that
state — the clock applied to the 29-fold state iterate — masked with 0xFFF
(embedded as `Int.emod _ 4096`), and that value lies in [0, 4095]. -/
theorem c5_runSample_spec :
    ∀ (m : FilterChainModel) (s : Int),
      (m.runSample s).2 = Int.emod (((clockS s)^[29] m).clock s).2 4096 ∧
      0 ≤ (m.runSample s).2 ∧ (m.runSample s).2 ≤ 4095 := by
  intro m s
  refine ⟨?_, ?_, ?_⟩
  · show Int.emod (m.runClocks s 30).2 4096 = _
    rw [show (30 : Nat) = 29 + 1 from rfl, runClocks_eq_iterate]
  · rw [runSample_snd]
    exact Int.emod_nonneg _ (by norm_num)
  · rw [runSample_snd]
    have h1 : Int.emod ((clockS s)^[29] m).fec_pipe.1 4096 < 4096 :=
      Int.emod_lt_of_pos _ (by norm_num)
    omega

/-! ### C6 -/

theorem asr_mul256 (v : Int) : asr (v * 256) 8 = v := by
  unfold asr
  norm_num

theorem sc_zero : sc 0 = 0 := by decide

/-- C6: from a fresh FIR equalizer, clocking once with an in-range `v` and
then with 0, the 4th further clock call outputs `sign-clip((v * 256) >> 8)`,
which equals `v`: the center tap (coefficient 256 at index 3) passes the
value through unscaled after the arithmetic right shift by 8. -/
theorem c6_fir_center_tap :
    ∀ v : Int, -2048 ≤ v → v ≤ 2047 →
      (firAfter v).dout = v ∧ sc (asr (v * 256) 8) = v := by
  intro v h1 h2
  have hv : sc v = v := sc_eq_self h1 h2
  have h256 : sc (asr (v * 256) 8) = v := by rw [asr_mul256, hv]
  refine ⟨?_, h256⟩
  have hinit : FIREq.init = ⟨[0, 0, 0, 0, 0, 0, 0], 0⟩ := rfl
  show (((((FIREq.init.clock v).clock 0).clock 0).clock 0).clock 0).dout = v
  rw [hinit]
  simp only [FIREq.clock, FIREq.C, hv, sc_zero, List.dropLast, List.zipWith,
    List.sum_cons, List.sum_nil]
  simp only [zero_mul, mul_zero, zero_add, add_zero]
  exact h256

/-- Witness for C6 at the concrete in-range value v = 1000. -/
theorem c6_witness :
    (-2048 ≤ (1000 : Int) ∧ (1000 : Int) ≤ 2047) ∧
      ((firAfter 1000).dout = 1000 ∧ sc (asr (1000 * 256) 8) = 1000) :=
  ⟨⟨by decide, by decide⟩, c6_fir_center_tap 1000 (by decide) (by decide)⟩

/-! ### C7 -/

theorem vdiv_eq_tdiv : ∀ a b : Int, vdiv a b = Int.tdiv a b := by
  intro a b
  rcases a with m | m <;> rcases b with n | n
  · rcases n with _ | k
    · simp [vdiv, Int.tdiv]
    · have hk0 : ((k : Int) + 1) ≠ 0 := by omega
      have hk1 : ¬ ((k : Int) + 1 < 0) := by omega
      have hk2 : |(k : Int) + 1| = (k : Int) + 1 := abs_of_nonneg (by omega)
      simp [vdiv, Int.tdiv, Int.not_lt.mpr (Int.ofNat_nonneg m), hk0, hk1, hk2]
  · simp [vdiv, Int.tdiv, Int.not_lt.mpr (Int.ofNat_nonneg m), Int.negSucc_lt_zero n,
      Int.natAbs_negSucc, Nat.succ_eq_add_one]
  · rcases n with _ | k
    · simp [vdiv, Int.tdiv]
    · have hk0 : ((k : Int) + 1) ≠ 0 := by omega
      have hk2 : |(k : Int) + 1| = (k : Int) + 1 := abs_of_nonneg (by omega)
      have hk3 : (0 : Int) ≤ (k : Int) + 1 := by omega
      simp [vdiv, Int.tdiv, Int.negSucc_lt_zero m, hk0, hk2, hk3,
        Int.natAbs_negSucc, Nat.succ_eq_add_one]
  · simp [vdiv, Int.tdiv, Int.negSucc_lt_zero m, Int.negSucc_lt_zero n,
      Int.natAbs_negSucc, Nat.succ_eq_add_one]

/-- C7: the truncating-division helper is antisymmetric in the numerator for
nonzero denominators, yields 0 on a zero denominator, and truncates toward
zero (it coincides with the T-rounding division `Int.tdiv`, and differs from
floor division, e.g. at -7 / 2). -/
theorem c7_vdiv_props :
    (∀ a b : Int, b ≠ 0 → vdiv (-a) b = -vdiv a b) ∧
    (∀ a : Int, vdiv a 0 = 0) ∧
    (∀ a b : Int, vdiv a b = Int.tdiv a b) ∧
    vdiv (-7) 2 = -3 ∧ Int.fdiv (-7) 2 = -4 := by
  refine ⟨?_, ?_, vdiv_eq_tdiv, by decide, by decide⟩
  · intro a b _
    rw [vdiv_eq_tdiv, vdiv_eq_tdiv, Int.neg_tdiv]
  · intro a
    simp [vdiv]

/-- Witness for C7 (antisymmetry conjunct) at a = 7, b = 3. -/
theorem c7_witness : (3 : Int) ≠ 0 ∧ vdiv (-(7 : Int)) 3 = -vdiv 7 3 :=
  ⟨by decide, c7_vdiv_props.1 7 3 (by decide)⟩

/-! ### C8 -/

/-- C8 (counterexample): the fresh glitch filter (a reachable state, with
`s1 = 0`) fed the first of three consecutive identical in-range inputs 600
DOES take the median-substitution branch (|600 - 0| > 512) and outputs the
median 0 instead of its input. -/
theorem c8_counterexample :
    (-2048 ≤ (600 : Int) ∧ (600 : Int) ≤ 2047) ∧
      (Glitch.init.clock 600).dout = 0 ∧ (Glitch.init.clock 600).dout ≠ 600 := by decide

/-- C8 (amended): for every glitch-filter state and in-range input x, the
SECOND and THIRD of three consecutive identical inputs x never take the
median-substitution branch (their spike magnitude is 0 ≤ 512) and output x
unchanged; the first tick's spike depends on the prior state and may
substitute the median. -/
theorem c8_amended :
    ∀ (g : Glitch) (x : Int), -2048 ≤ x → x ≤ 2047 →
      (x - (g.clock x).s1).natAbs ≤ 512 ∧
      ((g.clock x).clock x).dout = x ∧
      (x - ((g.clock x).clock x).s1).natAbs ≤ 512 ∧
      (((g.clock x).clock x).clock x).dout = x := by
  intro g x h1 h2
  have hx : sc x = x := sc_eq_self h1 h2
  have hs1 : (g.clock x).s1 = x := by simp [Glitch.clock, hx]
  have hstep : ∀ g2 : Glitch, g2.s1 = x → (g2.clock x).dout = x ∧ (g2.clock x).s1 = x := by
    intro g2 hg
    constructor
    · simp [Glitch.clock, hx, hg]
    · simp [Glitch.clock, hx]
  obtain ⟨hd2, hs2⟩ := hstep (g.clock x) hs1
  obtain ⟨hd3, _⟩ := hstep ((g.clock x).clock x) hs2
  refine ⟨?_, hd2, ?_, hd3⟩
  · rw [hs1]
    simp
  · rw [hs2]
    simp

/-- Witness for C8 (amended) at the fresh glitch state and x = 600. -/
theorem c8_amended_witness :
    (-2048 ≤ (600 : Int) ∧ (600 : Int) ≤ 2047) ∧
      ((600 - (Glitch.init.clock 600).s1).natAbs ≤ 512 ∧
       ((Glitch.init.clock 600).clock 600).dout = 600 ∧
       (600 - ((Glitch.init.clock 600).clock 600).s1).natAbs ≤ 512 ∧
       (((Glitch.init.clock 600).clock 600).clock 600).dout = 600) :=
  ⟨⟨by decide, by decide⟩, c8_amended Glitch.init 600 (by decide) (by decide)⟩

/-! ### C9 -/

theorem outputs_inrange :
    ∀ (l : List Int) (m : FilterChainModel),
      InRange12 m.fec_pipe.1 → InRange12 m.fec_pipe.2 →
      ∀ o ∈ m.outputs l, InRange12 o := by
  intro l
  induction l with
  | nil =>
    intro m _ _ o ho
    simp [FilterChainModel.outputs] at ho
  | cons d ds ih =>
    intro m h1 h2 o ho
    simp only [FilterChainModel.outputs, List.mem_cons] at ho
    rcases ho with rfl | ho
    · rw [clock_snd]
      exact h1
    · refine ih (m.clock d).1 ?_ ?_ o ho
      · rw [clock_fec]
        exact sc_range _
      · rw [clock_fec]
        exact h1

/-- C9: from a fresh pipeline, every value returned by `clock` along an
arbitrary input sequence of unbounded magnitude lies in the signed 12-bit
range [-2048, 2047] (each stage sign-clips what it stores and the FEC pair
only forwards stored values), and `run_sample` from any state returns a
value in [0, 4095]. -/
theorem c9_output_range :
    (∀ (l : List Int) (o : Int), o ∈ FilterChainModel.init.outputs l →
        -2048 ≤ o ∧ o ≤ 2047) ∧
    (∀ (m : FilterChainModel) (s : Int),
        0 ≤ (m.runSample s).2 ∧ (m.runSample s).2 ≤ 4095) := by
  constructor
  · intro l o ho
    exact outputs_inrange l FilterChainModel.init (by exact ⟨by decide, by decide⟩)
      (by exact ⟨by decide, by decide⟩) o ho
  · intro m s
    constructor
    · rw [runSample_snd]
      exact Int.emod_nonneg _ (by norm_num)
    · rw [runSample_snd]
      have hlt : Int.emod ((clockS s)^[29] m).fec_pipe.1 4096 < 4096 :=
        Int.emod_lt_of_pos _ (by norm_num)
      omega

/-- Witness for C9 with the out-of-range input list [3000, -5000]. -/
theorem c9_witness :
    ((0 : Int) ∈ FilterChainModel.init.outputs [3000, -5000]) ∧
      (-2048 ≤ (0 : Int) ∧ (0 : Int) ≤ 2047) :=
  ⟨by decide, c9_output_range.1 [3000, -5000] 0 (by decide)⟩

/-! ### C10 -/

theorem dfe9 : dfeIter 9 = dfeIter 3 := by decide

theorem dfeIter_add (a b : Nat) :
    dfeIter (a + b) = (fun d => d.clock 0)^[a] (dfeIter b) := by
  unfold dfeIter
  rw [Function.iterate_add_apply]

theorem dfe_per (n : Nat) : dfeIter (n + 9) = dfeIter (n + 3) := by
  rw [dfeIter_add n 9, dfeIter_add n 3, dfe9]

theorem dfe_fb_abs : ∀ n : Nat, (dfeIter (n + 2)).fb.natAbs = 64
  | 0 => by decide
  | 1 => by decide
  | 2 => by decide
  | 3 => by decide
  | 4 => by decide
  | 5 => by decide
  | 6 => by decide
  | (m + 7) => by
    have h := dfe_fb_abs (m + 1)
    have hp : dfeIter (m + 9) = dfeIter (m + 3) := dfe_per m
    rw [show m + 7 + 2 = m + 9 by omega, hp]
    exact h

/-- C10: the DFE decision computed from a zero previous-output register is
+1; on a fresh DFE fed the constant input 0, the feedback register has
magnitude 64 in every state from (the one entering) the third clock call
onward, and the third clock call outputs -64 — the DFE's output on an
all-zero input stream is not identically 0. -/
theorem c10_dfe_zero_decision :
    (∀ (d : DFE) (x : Int), d.dout = 0 → (d.clock x).prev_dec = 1) ∧
    (∀ n : Nat, (dfeIter (n + 2)).fb.natAbs = 64) ∧
    (dfeIter 3).dout = -64 ∧ (dfeIter 3).dout ≠ 0 := by
  refine ⟨?_, dfe_fb_abs, by decide, by decide⟩
  intro d x hd
  simp [DFE.clock, hd]

/-- Witness for C10 at the fresh DFE state (whose `dout` register is 0). -/
theorem c10_witness : DFE.init.dout = 0 ∧ (DFE.init.clock 5).prev_dec = 1 :=
  ⟨by decide, c10_dfe_zero_decision.1 DFE.init 5 (by decide)⟩
